import Mathlib

/-!
libMPSSE I2C master (`ftdi_i2c.c`): shallow embedding and verified properties.

The functions of `src/native/src/ftdi_i2c.c` are embedded as pure functions over an
explicit channel state.  The channel state records every operation the code performs
on the transport (lock, purge, initialise, write, read, unlock) in order, together
with the number of writes, reads and allocations made so far.  What the transport
answers is a parameter (`Transport`): the status and byte count of every write, the
status and bytes of every read.

Machine integers are naturals.  `uint32` arithmetic that can wrap is reduced modulo
`2^32` explicitly, `uint8` arithmetic modulo `256`.  Pointers handed to the entry
points are taken to be non-null; an out-parameter is modelled as an argument holding
the value before the call and a result field holding the value after it.
-/

namespace I2C

/-! ## Status codes and constants -/

/-- Status codes of the D2XX layer (`FT_STATUS`).  The enumeration is declared in a
header that is not part of the sources; its members are distinct values. -/
inductive FT_STATUS where
  | FT_OK
  | FT_INVALID_HANDLE
  | FT_DEVICE_NOT_FOUND
  | FT_DEVICE_NOT_OPENED
  | FT_IO_ERROR
  | FT_INSUFFICIENT_RESOURCES
  | FT_INVALID_PARAMETER
  | FT_INVALID_BAUD_RATE
  | FT_DEVICE_NOT_OPENED_FOR_ERASE
  | FT_DEVICE_NOT_OPENED_FOR_WRITE
  | FT_FAILED_TO_WRITE_DEVICE
  | FT_EEPROM_READ_FAILED
  | FT_EEPROM_WRITE_FAILED
  | FT_EEPROM_ERASE_FAILED
  | FT_EEPROM_NOT_PRESENT
  | FT_EEPROM_NOT_PROGRAMMED
  | FT_INVALID_ARGS
  | FT_NOT_SUPPORTED
  | FT_OTHER_ERROR
  | FT_DEVICE_LIST_NOT_READY
  deriving DecidableEq, Repr

open FT_STATUS

/-- The MPSSE command codes, pin values and pin direction masks used by `ftdi_i2c.c`.
They are macros of a header that is not part of the sources, so the embedding takes
them as a parameter. -/
structure MpsseConsts where
  MPSSE_CMD_SET_DATA_BITS_LOWBYTE : Nat
  MPSSE_CMD_DATA_OUT_BITS_NEG_EDGE : Nat
  MPSSE_CMD_DATA_IN_BITS_POS_EDGE : Nat
  MPSSE_CMD_SEND_IMMEDIATE : Nat
  MPSSE_CMD_ENABLE_3PHASE_CLOCKING : Nat
  DATA_SIZE_8BITS : Nat
  DATA_SIZE_1BIT : Nat
  VALUE_SCLLOW_SDALOW : Nat
  VALUE_SCLHIGH_SDALOW : Nat
  VALUE_SCLHIGH_SDAHIGH : Nat
  DIRECTION_SCLIN_SDAIN : Nat
  DIRECTION_SCLOUT_SDAIN : Nat
  DIRECTION_SCLOUT_SDAOUT : Nat
  deriving DecidableEq, Repr

/-- A concrete choice of the MPSSE constants (the values of FTDI application note
AN108), used to evaluate the embedding on concrete inputs. -/
def ftdiConsts : MpsseConsts where
  MPSSE_CMD_SET_DATA_BITS_LOWBYTE := 0x80
  MPSSE_CMD_DATA_OUT_BITS_NEG_EDGE := 0x13
  MPSSE_CMD_DATA_IN_BITS_POS_EDGE := 0x22
  MPSSE_CMD_SEND_IMMEDIATE := 0x87
  MPSSE_CMD_ENABLE_3PHASE_CLOCKING := 0x8C
  DATA_SIZE_8BITS := 0x07
  DATA_SIZE_1BIT := 0x00
  VALUE_SCLLOW_SDALOW := 0x00
  VALUE_SCLHIGH_SDALOW := 0x01
  VALUE_SCLHIGH_SDAHIGH := 0x03
  DIRECTION_SCLIN_SDAIN := 0x10
  DIRECTION_SCLOUT_SDAIN := 0x11
  DIRECTION_SCLOUT_SDAOUT := 0x13

def START_DURATION_1 : Nat := 10
def START_DURATION_2 : Nat := 20
def STOP_DURATION_1 : Nat := 10
def STOP_DURATION_2 : Nat := 10
def STOP_DURATION_3 : Nat := 10

def SEND_ACK : Nat := 0x00
def SEND_NACK : Nat := 0x80

def I2C_ADDRESS_READ_MASK : Nat := 0x01
def I2C_ADDRESS_WRITE_MASK : Nat := 0xFE

def I2C_TRANSFER_OPTIONS_START_BIT : Nat := 0x00000001
def I2C_TRANSFER_OPTIONS_STOP_BIT : Nat := 0x00000002
def I2C_TRANSFER_OPTIONS_BREAK_ON_NACK : Nat := 0x00000004
def I2C_TRANSFER_OPTIONS_NACK_LAST_BYTE : Nat := 0x00000008
def I2C_TRANSFER_OPTIONS_FAST_TRANSFER : Nat := 0x00000030
def I2C_TRANSFER_OPTIONS_FAST_TRANSFER_BYTES : Nat := 0x00000010
def I2C_TRANSFER_OPTIONS_FAST_TRANSFER_BITS : Nat := 0x00000020
def I2C_TRANSFER_OPTIONS_NO_ADDRESS : Nat := 0x00000040
def I2C_DISABLE_3PHASE_CLOCKING : Nat := 0x0001

/-- The modulus of `uint32` arithmetic. -/
def UINT32_MOD : Nat := 4294967296

/-! ## The transport -/

/-- One operation performed on the channel. -/
inductive Event where
  | lock
  | unlock
  | purge
  | init (clockRate latencyTimer options : Nat)
  | write (bytes : List Nat)
  | read (count : Nat)
  deriving DecidableEq, Repr

/-- What the transport reports for a write: the status and the byte count. -/
structure WriteReply where
  status : FT_STATUS
  transferred : Nat
  deriving DecidableEq, Repr

/-- What the transport reports for a read: the status and the bytes it delivers. -/
structure ReadReply where
  status : FT_STATUS
  data : List Nat
  deriving DecidableEq, Repr

/-- The behaviour of the transport and of the allocator, a parameter of the
embedding.  `writeReply k bytes` answers the `k`-th write of the channel (counted
from 0) when it carries `bytes`; `readReply k count` answers the `k`-th read when it
asks for `count` bytes; `initReply` answers the channel initialiser; `malloc k size`
tells whether the `k`-th allocation, of `size` bytes, succeeds. -/
structure Transport where
  writeReply : Nat → List Nat → WriteReply
  readReply : Nat → Nat → ReadReply
  initReply : Nat → Nat → Nat → FT_STATUS
  malloc : Nat → Nat → Bool

/-- The channel: the operations performed so far, whether the channel lock is held,
and how many writes, reads and allocations have been made. -/
structure Chan where
  trace : List Event
  locked : Bool
  nWrites : Nat
  nReads : Nat
  nAllocs : Nat
  deriving DecidableEq, Repr

/-- A channel on which nothing has happened yet. -/
def Chan.fresh : Chan :=
  { trace := [], locked := false, nWrites := 0, nReads := 0, nAllocs := 0 }

/-- Result of `FT_Channel_Write`. -/
structure WriteResult where
  status : FT_STATUS
  transferred : Nat
  chan : Chan

/-- Result of `FT_Channel_Read`: `data` are the bytes stored into the caller's
buffer, `transferred` their number. -/
structure ReadResult where
  status : FT_STATUS
  data : List Nat
  transferred : Nat
  chan : Chan

/-- Modelled from the spec: the macro `LOCK_CHANNEL(handle)`, defined in a header that
is not part of the sources; it acquires the exclusive per-channel lock. -/
def LOCK_CHANNEL (s : Chan) : Chan :=
  { s with trace := s.trace ++ [Event.lock], locked := true }

/-- Modelled from the spec: the macro `UNLOCK_CHANNEL(handle)`, defined in a header
that is not part of the sources; it releases the per-channel lock. -/
def UNLOCK_CHANNEL (s : Chan) : Chan :=
  { s with trace := s.trace ++ [Event.unlock], locked := false }

/-- The call `Mid_PurgeDevice(handle)`; its status is not looked at by the callers. -/
def Mid_PurgeDevice (s : Chan) : Chan :=
  { s with trace := s.trace ++ [Event.purge] }

/-- The call `FT_Channel_Write(I2C, handle, n, buffer, &transferred)` where `bytes`
are the first `n` bytes of `buffer`. -/
def FT_Channel_Write (T : Transport) (s : Chan) (bytes : List Nat) : WriteResult :=
  let r := T.writeReply s.nWrites bytes
  { status := r.status
    transferred := r.transferred
    chan := { s with trace := s.trace ++ [Event.write bytes], nWrites := s.nWrites + 1 } }

/-- The call `FT_Channel_Read(I2C, handle, count, buffer, &transferred)`: at most
`count` bytes are delivered. -/
def FT_Channel_Read (T : Transport) (s : Chan) (count : Nat) : ReadResult :=
  let r := T.readReply s.nReads count
  { status := r.status
    data := r.data.take count
    transferred := (r.data.take count).length
    chan := { s with trace := s.trace ++ [Event.read count], nReads := s.nReads + 1 } }

/-- The call `FT_InitChannel(I2C, handle, clockRate, latencyTimer, options)`. -/
def FT_InitChannel (T : Transport) (s : Chan) (clockRate latencyTimer options : Nat) :
    FT_STATUS × Chan :=
  (T.initReply clockRate latencyTimer options,
    { s with trace := s.trace ++ [Event.init clockRate latencyTimer options] })

/-- The call `INFRA_MALLOC(size)`: whether a buffer was obtained. -/
def INFRA_MALLOC (T : Transport) (s : Chan) (size : Nat) : Bool × Chan :=
  (T.malloc s.nAllocs size, { s with nAllocs := s.nAllocs + 1 })

/-- Whether `options & mask` is non-zero. -/
def optionSet (options mask : Nat) : Bool := (options &&& mask) != 0

/-- Modelled from the spec: the macro `CHECK_STATUS(status)`, defined in a header that
is not part of the sources; a status other than `FT_OK` is propagated immediately,
that is, the enclosing function returns it.  `failed status` tells whether it does. -/
def failed (status : FT_STATUS) : Bool := status != FT_OK

/-- The command `cmd` stored `count` times in a row (the dwell loops
`for(j=0;j<DURATION;j++)` of the START and STOP sequences). -/
def repeatCmd : Nat → List Nat → List Nat
  | 0, _ => []
  | k + 1, cmd => cmd ++ repeatCmd k cmd

/-! ## Bus conditions -/

/-- The bytes `I2C_Start` stores into its buffer (the same bytes the fast path stores
for its START block). -/
def startSequence (K : MpsseConsts) : List Nat :=
  repeatCmd START_DURATION_1
      [K.MPSSE_CMD_SET_DATA_BITS_LOWBYTE, K.VALUE_SCLHIGH_SDAHIGH, K.DIRECTION_SCLOUT_SDAIN]
    ++ repeatCmd START_DURATION_2
      [K.MPSSE_CMD_SET_DATA_BITS_LOWBYTE, K.VALUE_SCLHIGH_SDALOW, K.DIRECTION_SCLOUT_SDAOUT]
    ++ [K.MPSSE_CMD_SET_DATA_BITS_LOWBYTE, K.VALUE_SCLLOW_SDALOW, K.DIRECTION_SCLOUT_SDAOUT]

/-- The bytes `I2C_Stop` stores into its buffer (the same bytes the fast path stores
for its STOP block). -/
def stopSequence (K : MpsseConsts) : List Nat :=
  repeatCmd STOP_DURATION_1
      [K.MPSSE_CMD_SET_DATA_BITS_LOWBYTE, K.VALUE_SCLLOW_SDALOW, K.DIRECTION_SCLOUT_SDAOUT]
    ++ repeatCmd STOP_DURATION_2
      [K.MPSSE_CMD_SET_DATA_BITS_LOWBYTE, K.VALUE_SCLHIGH_SDALOW, K.DIRECTION_SCLOUT_SDAOUT]
    ++ repeatCmd STOP_DURATION_3
      [K.MPSSE_CMD_SET_DATA_BITS_LOWBYTE, K.VALUE_SCLHIGH_SDAHIGH, K.DIRECTION_SCLOUT_SDAIN]
    ++ [K.MPSSE_CMD_SET_DATA_BITS_LOWBYTE, K.VALUE_SCLHIGH_SDAHIGH, K.DIRECTION_SCLIN_SDAIN]

/-- `I2C_Start`: one transport write of the START sequence; the status of the write
is returned, the byte count is not looked at. -/
def I2C_Start (K : MpsseConsts) (T : Transport) (s : Chan) : FT_STATUS × Chan :=
  let w := FT_Channel_Write T s (startSequence K)
  (w.status, w.chan)

/-- `I2C_Stop`: one transport write of the STOP sequence; the status of the write is
returned, the byte count is not looked at. -/
def I2C_Stop (K : MpsseConsts) (T : Transport) (s : Chan) : FT_STATUS × Chan :=
  let w := FT_Channel_Write T s (stopSequence K)
  (w.status, w.chan)

/-! ## Byte transfer primitives -/

/-- The 12 command bytes `I2C_Write8bitsAndGetAck` builds for the byte `data`. -/
def write8Cmd (K : MpsseConsts) (data : Nat) : List Nat :=
  [ K.MPSSE_CMD_SET_DATA_BITS_LOWBYTE, K.VALUE_SCLLOW_SDALOW, K.DIRECTION_SCLOUT_SDAOUT,
    K.MPSSE_CMD_DATA_OUT_BITS_NEG_EDGE, K.DATA_SIZE_8BITS, data,
    K.MPSSE_CMD_SET_DATA_BITS_LOWBYTE, K.VALUE_SCLLOW_SDALOW, K.DIRECTION_SCLOUT_SDAIN,
    K.MPSSE_CMD_DATA_IN_BITS_POS_EDGE, K.DATA_SIZE_1BIT,
    K.MPSSE_CMD_SEND_IMMEDIATE ]

/-- Result of `I2C_Write8bitsAndGetAck`: `ack` is the value of `*ack` afterwards. -/
structure AckResult where
  status : FT_STATUS
  ack : Bool
  chan : Chan

/-- `I2C_Write8bitsAndGetAck(handle, data, &ack)`; the argument `ack` is the value of
`*ack` before the call, which is kept unless write and read both succeed in full. -/
def I2C_Write8bitsAndGetAck (K : MpsseConsts) (T : Transport) (s : Chan) (data : Nat)
    (ack : Bool) : AckResult :=
  let buffer := write8Cmd K data
  let noOfBytes := buffer.length
  let w := FT_Channel_Write T s buffer
  if w.status ≠ FT_OK then
    { status := w.status, ack := ack, chan := w.chan }
  else if noOfBytes ≠ w.transferred then
    { status := FT_IO_ERROR, ack := ack, chan := w.chan }
  else
    let r := FT_Channel_Read T w.chan 1
    if r.status ≠ FT_OK then
      { status := r.status, ack := ack, chan := r.chan }
    else if 1 ≠ r.transferred then
      { status := FT_IO_ERROR, ack := ack, chan := r.chan }
    else
      { status := FT_OK, ack := (r.data.getD 0 0 &&& 0x01) != 0, chan := r.chan }

/-- The 15 command bytes `I2C_Read8bitsAndGiveAck` builds; `ack` is its argument. -/
def read8Cmd (K : MpsseConsts) (ack : Bool) : List Nat :=
  [ K.MPSSE_CMD_SET_DATA_BITS_LOWBYTE, K.VALUE_SCLLOW_SDALOW, K.DIRECTION_SCLOUT_SDAIN,
    K.MPSSE_CMD_DATA_IN_BITS_POS_EDGE, K.DATA_SIZE_8BITS ]
  ++ (if ack then
        [ K.MPSSE_CMD_SET_DATA_BITS_LOWBYTE, K.VALUE_SCLLOW_SDALOW, K.DIRECTION_SCLOUT_SDAOUT,
          K.MPSSE_CMD_DATA_OUT_BITS_NEG_EDGE, K.DATA_SIZE_1BIT, SEND_ACK ]
      else
        [ K.MPSSE_CMD_SET_DATA_BITS_LOWBYTE, K.VALUE_SCLLOW_SDALOW, K.DIRECTION_SCLOUT_SDAIN,
          K.MPSSE_CMD_DATA_OUT_BITS_NEG_EDGE, K.DATA_SIZE_1BIT, SEND_NACK ])
  ++ [ K.MPSSE_CMD_SET_DATA_BITS_LOWBYTE, K.VALUE_SCLLOW_SDALOW, K.DIRECTION_SCLOUT_SDAIN,
       K.MPSSE_CMD_SEND_IMMEDIATE ]

/-- Result of `I2C_Read8bitsAndGiveAck`: `data` is the value of `*data` afterwards. -/
structure DataResult where
  status : FT_STATUS
  data : Nat
  chan : Chan

/-- `I2C_Read8bitsAndGiveAck(handle, &data, ack)`; the argument `data` is the value of
`*data` before the call, which is kept unless write and read both succeed in full. -/
def I2C_Read8bitsAndGiveAck (K : MpsseConsts) (T : Transport) (s : Chan) (data : Nat)
    (ack : Bool) : DataResult :=
  let buffer := read8Cmd K ack
  let noOfBytes := buffer.length
  let w := FT_Channel_Write T s buffer
  if w.status ≠ FT_OK then
    { status := w.status, data := data, chan := w.chan }
  else if noOfBytes ≠ w.transferred then
    { status := FT_IO_ERROR, data := data, chan := w.chan }
  else
    let r := FT_Channel_Read T w.chan 1
    if r.status ≠ FT_OK then
      { status := r.status, data := data, chan := r.chan }
    else if 1 ≠ r.transferred then
      { status := FT_IO_ERROR, data := data, chan := r.chan }
    else
      { status := FT_OK, data := r.data.getD 0 0, chan := r.chan }

/-! ## Address phase -/

/-- The address byte of `I2C_WriteDeviceAddress`, `I2C_FastWrite` and `I2C_FastRead`:
`(uint8)deviceAddress << 1`, stored in a `uint8`, then `| 0x01` for a read and
`& 0xFE` for a write. -/
def addressByte (deviceAddress : Nat) (direction : Bool) : Nat :=
  let tempAddress := deviceAddress % 256
  let tempAddress := (tempAddress * 2) % 256
  if direction then tempAddress ||| I2C_ADDRESS_READ_MASK
  else tempAddress &&& I2C_ADDRESS_WRITE_MASK

/-- `I2C_WriteDeviceAddress(handle, deviceAddress, direction, AddLen10Bit, &ack)`. -/
def I2C_WriteDeviceAddress (K : MpsseConsts) (T : Transport) (s : Chan)
    (deviceAddress : Nat) (direction AddLen10Bit : Bool) (ack : Bool) : AckResult :=
  if !AddLen10Bit then
    I2C_Write8bitsAndGetAck K T s (addressByte deviceAddress direction) ack
  else
    { status := FT_NOT_SUPPORTED, ack := ack, chan := s }

/-! ## Fast path: one batched command buffer -/

/-- The allocation size `sizeTotal` computed by `I2C_FastWrite`, in `uint32`
arithmetic. -/
def fastWriteSizeTotal (bytesToTransfer options : Nat) : Nat :=
  (0
    + bytesToTransfer * (6 + 5)
    + (if !optionSet options I2C_TRANSFER_OPTIONS_NO_ADDRESS then 11 else 0)
    + (if optionSet options I2C_TRANSFER_OPTIONS_START_BIT then
        (START_DURATION_1 + START_DURATION_2 + 1) * 3 else 0)
    + (if optionSet options I2C_TRANSFER_OPTIONS_STOP_BIT then
        (STOP_DURATION_1 + STOP_DURATION_2 + STOP_DURATION_3 + 1) * 3 else 0)) % UINT32_MOD

/-- The allocation size `sizeTotal` computed by `I2C_FastRead`, in `uint32`
arithmetic. -/
def fastReadSizeTotal (bytesToTransfer options : Nat) : Nat :=
  (0
    + bytesToTransfer * (8 + 6)
    + (if !optionSet options I2C_TRANSFER_OPTIONS_NO_ADDRESS then 11 else 0)
    + (if optionSet options I2C_TRANSFER_OPTIONS_START_BIT then
        (START_DURATION_1 + START_DURATION_2 + 1) * 3 else 0)
    + (if optionSet options I2C_TRANSFER_OPTIONS_STOP_BIT then
        (STOP_DURATION_1 + STOP_DURATION_2 + STOP_DURATION_3 + 1) * 3 else 0)) % UINT32_MOD

/-- The 11 bytes the fast path stores for an address byte or a written data byte:
the commands of `write8Cmd` without the final send-immediate command. -/
def fastWritePhase (K : MpsseConsts) (data : Nat) : List Nat :=
  [ K.MPSSE_CMD_SET_DATA_BITS_LOWBYTE, K.VALUE_SCLLOW_SDALOW, K.DIRECTION_SCLOUT_SDAOUT,
    K.MPSSE_CMD_DATA_OUT_BITS_NEG_EDGE, K.DATA_SIZE_8BITS, data,
    K.MPSSE_CMD_SET_DATA_BITS_LOWBYTE, K.VALUE_SCLLOW_SDALOW, K.DIRECTION_SCLOUT_SDAIN,
    K.MPSSE_CMD_DATA_IN_BITS_POS_EDGE, K.DATA_SIZE_1BIT ]

/-- The data loop `for (j=0; j<bytesToTransfer; j++)` of `I2C_FastWrite`: the bytes
stored from index `j` on when `r = bytesToTransfer - j` iterations remain. -/
def fastWriteData (K : MpsseConsts) (buffer : List Nat) : Nat → Nat → List Nat
  | 0, _ => []
  | r + 1, j => fastWritePhase K (buffer.getD j 0) ++ fastWriteData K buffer r (j + 1)

/-- The bytes `I2C_FastWrite` stores into `outBuffer`, in the order of the stores. -/
def fastWriteCmds (K : MpsseConsts) (deviceAddress bytesToTransfer : Nat)
    (buffer : List Nat) (options : Nat) : List Nat :=
  (if optionSet options I2C_TRANSFER_OPTIONS_START_BIT then startSequence K else [])
  ++ (if !optionSet options I2C_TRANSFER_OPTIONS_NO_ADDRESS then
        fastWritePhase K (addressByte deviceAddress false) else [])
  ++ fastWriteData K buffer bytesToTransfer 0
  ++ (if optionSet options I2C_TRANSFER_OPTIONS_STOP_BIT then stopSequence K else [])

/-- The 14 bytes `I2C_FastRead` stores for data byte `j` of `bytesToTransfer`; the
test `j < bytesToTransfer - 1` is made in `uint32` arithmetic. -/
def fastReadPhase (K : MpsseConsts) (bytesToTransfer j : Nat) : List Nat :=
  [ K.MPSSE_CMD_SET_DATA_BITS_LOWBYTE, K.VALUE_SCLLOW_SDALOW, K.DIRECTION_SCLOUT_SDAIN,
    K.MPSSE_CMD_DATA_IN_BITS_POS_EDGE, K.DATA_SIZE_8BITS ]
  ++ (if j < (bytesToTransfer + UINT32_MOD - 1) % UINT32_MOD then
        [ K.MPSSE_CMD_SET_DATA_BITS_LOWBYTE, K.VALUE_SCLLOW_SDALOW, K.DIRECTION_SCLOUT_SDAOUT,
          K.MPSSE_CMD_DATA_OUT_BITS_NEG_EDGE, K.DATA_SIZE_1BIT, SEND_ACK ]
      else
        [ K.MPSSE_CMD_SET_DATA_BITS_LOWBYTE, K.VALUE_SCLLOW_SDALOW, K.DIRECTION_SCLOUT_SDAIN,
          K.MPSSE_CMD_DATA_OUT_BITS_NEG_EDGE, K.DATA_SIZE_1BIT, SEND_NACK ])
  ++ [ K.MPSSE_CMD_SET_DATA_BITS_LOWBYTE, K.VALUE_SCLLOW_SDALOW, K.DIRECTION_SCLOUT_SDAIN ]

/-- The data loop `for (j=0; j<bytesToTransfer; j++)` of `I2C_FastRead`: the bytes
stored from index `j` on when `r = bytesToTransfer - j` iterations remain. -/
def fastReadData (K : MpsseConsts) (bytesToTransfer : Nat) : Nat → Nat → List Nat
  | 0, _ => []
  | r + 1, j => fastReadPhase K bytesToTransfer j ++ fastReadData K bytesToTransfer r (j + 1)

/-- The bytes `I2C_FastRead` stores into `outBuffer`, in the order of the stores. -/
def fastReadCmds (K : MpsseConsts) (deviceAddress bytesToTransfer options : Nat) :
    List Nat :=
  (if optionSet options I2C_TRANSFER_OPTIONS_START_BIT then startSequence K else [])
  ++ (if !optionSet options I2C_TRANSFER_OPTIONS_NO_ADDRESS then
        fastWritePhase K (addressByte deviceAddress true) else [])
  ++ fastReadData K bytesToTransfer bytesToTransfer 0
  ++ (if optionSet options I2C_TRANSFER_OPTIONS_STOP_BIT then stopSequence K else [])

/-- The bytes `outBuffer[0], ..., outBuffer[i-1]` the fast path hands to the transport
after the stores `stores` have been made through `outBuffer[i++]`, the index `i` being a
`uint32` that starts at 0: `i` is the number of stores modulo `2^32`, and where it has
wrapped, a later store has replaced the earlier one at the same index, so that the
bytes are the last `i` stores.  (In C a store past the allocated size has no defined
behaviour; the model follows the index arithmetic of the code.)  Below `2^32` stores
these are all the stores. -/
def storedUpToIndex (stores : List Nat) : List Nat :=
  stores.drop (stores.length - stores.length % UINT32_MOD)

/-- Result of `I2C_FastWrite` and `I2C_FastRead`: the status and the values of
`*sizeTransferred`, of the data buffer and of the `ack` buffer (absent when the
pointer is `NULL`) after the call. -/
structure FastResult where
  status : FT_STATUS
  sizeTransferred : Nat
  buffer : List Nat
  ack : Option (List Nat)
  chan : Chan

/-- `I2C_FastWrite(handle, deviceAddress, sizeToTransfer, buffer, ack,
&sizeTransferred, options)`.  The transport is handed `outBuffer` with the `uint32`
index `i` as byte count, that is, `storedUpToIndex` of the stores. -/
def I2C_FastWrite (K : MpsseConsts) (T : Transport) (s : Chan)
    (deviceAddress sizeToTransfer : Nat) (buffer : List Nat) (ack : Option (List Nat))
    (sizeTransferred options : Nat) : FastResult :=
  if !optionSet options I2C_TRANSFER_OPTIONS_FAST_TRANSFER_BYTES then
    { status := FT_INVALID_PARAMETER, sizeTransferred := sizeTransferred,
      buffer := buffer, ack := ack, chan := s }
  else
    let bytesToTransfer := sizeToTransfer
    let sizeTotal := fastWriteSizeTotal bytesToTransfer options
    let a := INFRA_MALLOC T s sizeTotal
    if !a.1 then
      { status := FT_INSUFFICIENT_RESOURCES, sizeTransferred := sizeTransferred,
        buffer := buffer, ack := ack, chan := a.2 }
    else
      let outBuffer := storedUpToIndex
        (fastWriteCmds K deviceAddress bytesToTransfer buffer options)
      let w := FT_Channel_Write T a.2 outBuffer
      let sizeTransferred := sizeToTransfer
      if failed w.status then
        { status := w.status, sizeTransferred := sizeTransferred,
          buffer := buffer, ack := ack, chan := w.chan }
      else
        let r1 : FT_STATUS × Chan :=
          if !optionSet options I2C_TRANSFER_OPTIONS_NO_ADDRESS then
            let r := FT_Channel_Read T w.chan 1
            (r.status, r.chan)
          else (w.status, w.chan)
        if failed r1.1 then
          { status := r1.1, sizeTransferred := sizeTransferred,
            buffer := buffer, ack := ack, chan := r1.2 }
        else
          let b := INFRA_MALLOC T r1.2 bytesToTransfer
          if b.1 then
            let r := FT_Channel_Read T b.2 bytesToTransfer
            let ack := if r.status = FT_OK then
                ack.map (fun dst => r.data ++ dst.drop r.transferred) else ack
            { status := r.status, sizeTransferred := sizeTransferred,
              buffer := buffer, ack := ack, chan := r.chan }
          else
            { status := r1.1, sizeTransferred := sizeTransferred,
              buffer := buffer, ack := ack, chan := b.2 }

/-- `I2C_FastRead(handle, deviceAddress, sizeToTransfer, buffer, ack,
&sizeTransferred, options)`.  The transport is handed `outBuffer` with the `uint32`
index `i` as byte count, that is, `storedUpToIndex` of the stores; the bytes the last
read delivers replace the front of `buffer`. -/
def I2C_FastRead (K : MpsseConsts) (T : Transport) (s : Chan)
    (deviceAddress sizeToTransfer : Nat) (buffer : List Nat) (ack : Option (List Nat))
    (sizeTransferred options : Nat) : FastResult :=
  if !optionSet options I2C_TRANSFER_OPTIONS_FAST_TRANSFER_BYTES then
    { status := FT_INVALID_PARAMETER, sizeTransferred := sizeTransferred,
      buffer := buffer, ack := ack, chan := s }
  else
    let bytesToTransfer := sizeToTransfer
    let sizeTotal := fastReadSizeTotal bytesToTransfer options
    let a := INFRA_MALLOC T s sizeTotal
    if !a.1 then
      { status := FT_INSUFFICIENT_RESOURCES, sizeTransferred := sizeTransferred,
        buffer := buffer, ack := ack, chan := a.2 }
    else
      let outBuffer := storedUpToIndex (fastReadCmds K deviceAddress bytesToTransfer options)
      let w := FT_Channel_Write T a.2 outBuffer
      let sizeTransferred := sizeToTransfer
      if failed w.status then
        { status := w.status, sizeTransferred := sizeTransferred,
          buffer := buffer, ack := ack, chan := w.chan }
      else
        let r1 : FT_STATUS × Chan :=
          if !optionSet options I2C_TRANSFER_OPTIONS_NO_ADDRESS then
            let r := FT_Channel_Read T w.chan 1
            (r.status, r.chan)
          else (w.status, w.chan)
        if failed r1.1 then
          { status := r1.1, sizeTransferred := sizeTransferred,
            buffer := buffer, ack := ack, chan := r1.2 }
        else
          let r := FT_Channel_Read T r1.2 bytesToTransfer
          { status := r.status, sizeTransferred := sizeTransferred,
            buffer := r.data ++ buffer.drop r.transferred, ack := ack, chan := r.chan }

/-! ## Transaction orchestrator -/

/-- Result of `I2C_DeviceRead` and `I2C_DeviceWrite`: the status and the values of
`*sizeTransferred` and of the data buffer after the call. -/
structure CallResult where
  status : FT_STATUS
  sizeTransferred : Nat
  buffer : List Nat
  chan : Chan

/-- How the data loop of `I2C_DeviceWrite` is left: by a `return` inside the body
(`returned`), or because its test `(i<sizeToTransfer) && (status == FT_OK)` is false
(`finished`, with the value of `i`). -/
inductive LoopExit where
  | returned (status : FT_STATUS) (chan : Chan)
  | finished (i : Nat) (status : FT_STATUS) (chan : Chan)

/-- The data loop of `I2C_DeviceWrite`, entered with index `i` and `status`;
`r = sizeToTransfer - i` is the number of iterations the test `i<sizeToTransfer`
still allows. -/
def deviceWriteLoop (K : MpsseConsts) (T : Transport) (buffer : List Nat) (options : Nat) :
    Nat → Nat → FT_STATUS → Chan → LoopExit
  | 0, i, status, s => LoopExit.finished i status s
  | r + 1, i, status, s =>
    if status = FT_OK then
      let w := I2C_Write8bitsAndGetAck K T s (buffer.getD i 0) false
      if w.ack then
        if optionSet options I2C_TRANSFER_OPTIONS_BREAK_ON_NACK then
          if optionSet options I2C_TRANSFER_OPTIONS_STOP_BIT then
            let p := I2C_Stop K T w.chan
            if failed p.1 then LoopExit.returned p.1 p.2
            else LoopExit.returned FT_FAILED_TO_WRITE_DEVICE p.2
          else LoopExit.returned FT_FAILED_TO_WRITE_DEVICE w.chan
        else deviceWriteLoop K T buffer options r (i + 1) w.status w.chan
      else deviceWriteLoop K T buffer options r (i + 1) w.status w.chan
    else LoopExit.finished i status s

/-- `I2C_DeviceWrite(handle, deviceAddress, sizeToTransfer, buffer, &sizeTransferred,
options)`. -/
def I2C_DeviceWrite (K : MpsseConsts) (T : Transport) (s : Chan)
    (deviceAddress sizeToTransfer : Nat) (buffer : List Nat)
    (sizeTransferred options : Nat) : CallResult :=
  if deviceAddress > 127 then
    { status := FT_INVALID_PARAMETER, sizeTransferred := sizeTransferred,
      buffer := buffer, chan := s }
  else
    let s := LOCK_CHANNEL s
    let s := Mid_PurgeDevice s
    if optionSet options I2C_TRANSFER_OPTIONS_FAST_TRANSFER then
      let f := I2C_FastWrite K T s deviceAddress sizeToTransfer buffer none
        sizeTransferred options
      { status := f.status, sizeTransferred := f.sizeTransferred, buffer := f.buffer,
        chan := UNLOCK_CHANNEL f.chan }
    else
      let st : FT_STATUS × Chan :=
        if optionSet options I2C_TRANSFER_OPTIONS_START_BIT then I2C_Start K T s
        else (FT_OK, s)
      if failed st.1 then
        { status := st.1, sizeTransferred := sizeTransferred, buffer := buffer,
          chan := st.2 }
      else
        let a := I2C_WriteDeviceAddress K T st.2 deviceAddress false false false
        if failed a.status then
          { status := a.status, sizeTransferred := sizeTransferred, buffer := buffer,
            chan := a.chan }
        else if !a.ack then
          match deviceWriteLoop K T buffer options sizeToTransfer 0 a.status a.chan with
          | LoopExit.returned status chan =>
            { status := status, sizeTransferred := sizeTransferred, buffer := buffer,
              chan := chan }
          | LoopExit.finished i status chan =>
            let sizeTransferred := i
            if sizeTransferred ≠ sizeToTransfer then
              { status := FT_IO_ERROR, sizeTransferred := sizeTransferred,
                buffer := buffer, chan := UNLOCK_CHANNEL chan }
            else if optionSet options I2C_TRANSFER_OPTIONS_STOP_BIT then
              let p := I2C_Stop K T chan
              if failed p.1 then
                { status := p.1, sizeTransferred := sizeTransferred, buffer := buffer,
                  chan := p.2 }
              else
                { status := p.1, sizeTransferred := sizeTransferred, buffer := buffer,
                  chan := UNLOCK_CHANNEL p.2 }
            else
              { status := status, sizeTransferred := sizeTransferred, buffer := buffer,
                chan := UNLOCK_CHANNEL chan }
        else if optionSet options I2C_TRANSFER_OPTIONS_STOP_BIT then
          let p := I2C_Stop K T a.chan
          if failed p.1 then
            { status := p.1, sizeTransferred := sizeTransferred, buffer := buffer,
              chan := p.2 }
          else
            { status := FT_DEVICE_NOT_FOUND, sizeTransferred := sizeTransferred,
              buffer := buffer, chan := UNLOCK_CHANNEL p.2 }
        else
          { status := FT_DEVICE_NOT_FOUND, sizeTransferred := sizeTransferred,
            buffer := buffer, chan := UNLOCK_CHANNEL a.chan }

/-- State of the data loop of `I2C_DeviceRead` when its test
`(i<sizeToTransfer) && (status == FT_OK)` is false. -/
structure ReadLoopExit where
  i : Nat
  status : FT_STATUS
  buffer : List Nat
  chan : Chan

/-- The `ack` argument the data loop of `I2C_DeviceRead` passes for byte `i`:
`(i<(sizeToTransfer-1)) ? TRUE : ((options & NACK_LAST_BYTE) ? FALSE : TRUE)`, the
subtraction being made in `uint32` arithmetic. -/
def readAckArg (sizeToTransfer options i : Nat) : Bool :=
  if i < (sizeToTransfer + UINT32_MOD - 1) % UINT32_MOD then true
  else if optionSet options I2C_TRANSFER_OPTIONS_NACK_LAST_BYTE then false else true

/-- The data loop of `I2C_DeviceRead`, entered with index `i` and `status`;
`r = sizeToTransfer - i` is the number of iterations the test `i<sizeToTransfer`
still allows. -/
def deviceReadLoop (K : MpsseConsts) (T : Transport) (sizeToTransfer options : Nat) :
    Nat → Nat → FT_STATUS → List Nat → Chan → ReadLoopExit
  | 0, i, status, buffer, s => { i := i, status := status, buffer := buffer, chan := s }
  | r + 1, i, status, buffer, s =>
    if status = FT_OK then
      let d := I2C_Read8bitsAndGiveAck K T s (buffer.getD i 0)
        (readAckArg sizeToTransfer options i)
      deviceReadLoop K T sizeToTransfer options r (i + 1) d.status
        (buffer.set i d.data) d.chan
    else { i := i, status := status, buffer := buffer, chan := s }

/-- `I2C_DeviceRead(handle, deviceAddress, sizeToTransfer, buffer, &sizeTransferred,
options)`. -/
def I2C_DeviceRead (K : MpsseConsts) (T : Transport) (s : Chan)
    (deviceAddress sizeToTransfer : Nat) (buffer : List Nat)
    (sizeTransferred options : Nat) : CallResult :=
  if deviceAddress > 127 then
    { status := FT_INVALID_PARAMETER, sizeTransferred := sizeTransferred,
      buffer := buffer, chan := s }
  else
    let s := LOCK_CHANNEL s
    let s := Mid_PurgeDevice s
    if optionSet options I2C_TRANSFER_OPTIONS_FAST_TRANSFER then
      let f := I2C_FastRead K T s deviceAddress sizeToTransfer buffer none
        sizeTransferred options
      { status := f.status, sizeTransferred := f.sizeTransferred, buffer := f.buffer,
        chan := UNLOCK_CHANNEL f.chan }
    else
      let st : FT_STATUS × Chan :=
        if optionSet options I2C_TRANSFER_OPTIONS_START_BIT then I2C_Start K T s
        else (FT_OK, s)
      if failed st.1 then
        { status := st.1, sizeTransferred := sizeTransferred, buffer := buffer,
          chan := st.2 }
      else
        let a := I2C_WriteDeviceAddress K T st.2 deviceAddress true false false
        if failed a.status then
          { status := a.status, sizeTransferred := sizeTransferred, buffer := buffer,
            chan := a.chan }
        else if !a.ack then
          let l := deviceReadLoop K T sizeToTransfer options sizeToTransfer 0 a.status
            buffer a.chan
          let sizeTransferred := l.i
          if sizeTransferred ≠ sizeToTransfer then
            { status := FT_IO_ERROR, sizeTransferred := sizeTransferred,
              buffer := l.buffer, chan := UNLOCK_CHANNEL l.chan }
          else if optionSet options I2C_TRANSFER_OPTIONS_STOP_BIT then
            let p := I2C_Stop K T l.chan
            if failed p.1 then
              { status := p.1, sizeTransferred := sizeTransferred, buffer := l.buffer,
                chan := p.2 }
            else
              { status := p.1, sizeTransferred := sizeTransferred, buffer := l.buffer,
                chan := UNLOCK_CHANNEL p.2 }
          else
            { status := l.status, sizeTransferred := sizeTransferred,
              buffer := l.buffer, chan := UNLOCK_CHANNEL l.chan }
        else if optionSet options I2C_TRANSFER_OPTIONS_STOP_BIT then
          let p := I2C_Stop K T a.chan
          if failed p.1 then
            { status := p.1, sizeTransferred := sizeTransferred, buffer := buffer,
              chan := p.2 }
          else
            { status := FT_DEVICE_NOT_FOUND, sizeTransferred := sizeTransferred,
              buffer := buffer, chan := UNLOCK_CHANNEL p.2 }
        else
          { status := FT_DEVICE_NOT_FOUND, sizeTransferred := sizeTransferred,
            buffer := buffer, chan := UNLOCK_CHANNEL a.chan }

/-! ## Channel configuration -/

/-- The structure `ChannelConfig`. -/
structure ChannelConfig where
  ClockRate : Nat
  LatencyTimer : Nat
  Options : Nat
  deriving DecidableEq, Repr

/-- Result of `I2C_InitChannel`: the status and the value of `*config` after the
call. -/
structure InitResult where
  status : FT_STATUS
  config : ChannelConfig
  chan : Chan

/-- `I2C_SaveChannelConfig(handle, config)`: nothing is stored, `FT_OK` is returned. -/
def I2C_SaveChannelConfig (_config : ChannelConfig) : FT_STATUS := FT_OK

/-- `I2C_InitChannel(handle, config)`; the product `ClockRate * 3` is reduced modulo
`2^32`. -/
def I2C_InitChannel (K : MpsseConsts) (T : Transport) (s : Chan) (config : ChannelConfig) :
    InitResult :=
  let config : ChannelConfig :=
    if !optionSet config.Options I2C_DISABLE_3PHASE_CLOCKING then
      { config with ClockRate := (config.ClockRate * 3 % UINT32_MOD) / 2 }
    else config
  let r := FT_InitChannel T s config.ClockRate config.LatencyTimer config.Options
  if failed r.1 then { status := r.1, config := config, chan := r.2 }
  else
    let e : FT_STATUS × Chan :=
      if !optionSet config.Options I2C_DISABLE_3PHASE_CLOCKING then
        let w := FT_Channel_Write T r.2 [K.MPSSE_CMD_ENABLE_3PHASE_CLOCKING]
        (w.status, w.chan)
      else (r.1, r.2)
    if failed e.1 then { status := e.1, config := config, chan := e.2 }
    else
      let status := I2C_SaveChannelConfig config
      { status := status, config := config, chan := e.2 }

/-! ## Vocabulary of the statements -/

/-- Every transport write succeeds and reports the full byte count. -/
def WritesSucceed (T : Transport) : Prop :=
  ∀ k bytes, T.writeReply k bytes = { status := FT_OK, transferred := bytes.length }

/-- Every transport read succeeds and delivers at least the bytes asked for. -/
def ReadsSucceed (T : Transport) : Prop :=
  ∀ k count, (T.readReply k count).status = FT_OK ∧ count ≤ (T.readReply k count).data.length

/-- The reply byte of the `k`-th read of the channel when one byte is asked for (the
reply of an address or data phase of the normal path). -/
def replyByte (T : Transport) (k : Nat) : Nat := (T.readReply k 1).data.getD 0 0

/-- The channel `s` after the operations `evs`, of which `w` are writes and `r` are
reads, none of them touching the lock. -/
def Chan.after (s : Chan) (evs : List Event) (w r : Nat) : Chan :=
  { trace := s.trace ++ evs, locked := s.locked, nWrites := s.nWrites + w,
    nReads := s.nReads + r, nAllocs := s.nAllocs }

/-- The transport operations of the START stage: one write of the START sequence
when the START option bit is set, nothing otherwise. -/
def startOps (K : MpsseConsts) (options : Nat) : List Event :=
  if optionSet options I2C_TRANSFER_OPTIONS_START_BIT then [Event.write (startSequence K)]
  else []

/-- The transport operations of the STOP stage: one write of the STOP sequence when
the STOP option bit is set, nothing otherwise. -/
def stopOps (K : MpsseConsts) (options : Nat) : List Event :=
  if optionSet options I2C_TRANSFER_OPTIONS_STOP_BIT then [Event.write (stopSequence K)]
  else []

/-- The transport operations of the address phase of the normal path: the write of
the address byte with its direction bit and the read of the one-byte reply. -/
def addressOps (K : MpsseConsts) (deviceAddress : Nat) (direction : Bool) : List Event :=
  [Event.write (write8Cmd K (addressByte deviceAddress direction)), Event.read 1]

/-- The transport operations of the data phases of a normal write for the `r` bytes
`buffer[i], ..., buffer[i+r-1]`: for each byte one write and one one-byte read. -/
def writePhases (K : MpsseConsts) (buffer : List Nat) : Nat → Nat → List Event
  | 0, _ => []
  | r + 1, i =>
    [Event.write (write8Cmd K (buffer.getD i 0)), Event.read 1]
      ++ writePhases K buffer r (i + 1)

/-- The transport operations of the data phases of a normal read of `sizeToTransfer`
bytes for the `r` bytes of index `i, ..., i+r-1`: for each byte one write and one
one-byte read. -/
def readPhases (K : MpsseConsts) (sizeToTransfer options : Nat) : Nat → Nat → List Event
  | 0, _ => []
  | r + 1, i =>
    [Event.write (read8Cmd K (readAckArg sizeToTransfer options i)), Event.read 1]
      ++ readPhases K sizeToTransfer options r (i + 1)

/-- The buffer after `r` data phases of a normal read have stored their reply bytes at
the indices `i, ..., i+r-1`, the first of these replies being that of read `k`. -/
def readFill (T : Transport) : Nat → Nat → Nat → List Nat → List Nat
  | 0, _, _, buffer => buffer
  | r + 1, i, k, buffer => readFill T r (i + 1) (k + 1) (buffer.set i (replyByte T k))

/-- The bytes an operation hands to the transport, when it is a write. -/
def Event.written : Event → Option (List Nat)
  | Event.write bytes => some bytes
  | _ => none

/-- The byte sequences handed to the transport by the writes of a trace, in order. -/
def writesOf (trace : List Event) : List (List Nat) := trace.filterMap Event.written

/-- The byte counts asked for by the reads of a trace, in order. -/
def readsOf (trace : List Event) : List Nat :=
  trace.filterMap (fun e => match e with
    | Event.read count => some count
    | _ => none)

/-- A transport on which every call succeeds in full and whose `k`-th read delivers
bytes of value `reply k`. -/
def scriptedTransport (reply : Nat → Nat) : Transport where
  writeReply := fun _ bytes => { status := FT_OK, transferred := bytes.length }
  readReply := fun k count => { status := FT_OK, data := List.replicate count (reply k) }
  initReply := fun _ _ _ => FT_OK
  malloc := fun _ _ => true

/-- Every allocation succeeds. -/
def AllocationsSucceed (T : Transport) : Prop := ∀ k size, T.malloc k size = true

/-- A transport like `scriptedTransport reply`, except that its `j`-th write reports
success with no byte transferred (a short write). -/
def shortWriteTransport (j : Nat) (reply : Nat → Nat) : Transport where
  writeReply := fun k bytes =>
    if k = j then { status := FT_OK, transferred := 0 }
    else { status := FT_OK, transferred := bytes.length }
  readReply := fun k count => { status := FT_OK, data := List.replicate count (reply k) }
  initReply := fun _ _ _ => FT_OK
  malloc := fun _ _ => true

/-- The byte sequences handed to the transport between the channel state `s` and the
later state `c` of the same channel. -/
def writesSince (s c : Chan) : List (List Nat) :=
  (writesOf c.trace).drop (writesOf s.trace).length

/-- The number of bytes the serializers of the fast path store for a transfer of
`n` data bytes at `perByte` bytes each: the address phase unless NO_ADDRESS is set,
the START block if START is set, the STOP block if STOP is set. -/
def fastByteCount (perByte n options : Nat) : Nat :=
  perByte * n
    + (if optionSet options I2C_TRANSFER_OPTIONS_NO_ADDRESS then 0 else 11)
    + (if optionSet options I2C_TRANSFER_OPTIONS_START_BIT then 93 else 0)
    + (if optionSet options I2C_TRANSFER_OPTIONS_STOP_BIT then 93 else 0)

/-- A transport on which every call reports success but whose reads deliver no byte
(reads short by the whole count). -/
def emptyReadTransport : Transport where
  writeReply := fun _ bytes => { status := FT_OK, transferred := bytes.length }
  readReply := fun _ _ => { status := FT_OK, data := [] }
  initReply := fun _ _ _ => FT_OK
  malloc := fun _ _ => true

/-- A command of the MPSSE command stream the library serializes: set the pin state
(opcode, value, direction), clock bits out (opcode, length code, data), clock bits in
(opcode, length code), flush the replies (opcode alone); `raw` is a byte that starts
none of these. -/
inductive MpsseCmd where
  | setPins (value direction : Nat)
  | clockOut (length data : Nat)
  | clockIn (length : Nat)
  | sendImmediate
  | raw (byte : Nat)
  deriving DecidableEq, Repr

/-- The four opcodes the byte-transfer code uses are pairwise different (as they are
for the FTDI values). -/
def OpcodesDistinct (K : MpsseConsts) : Prop :=
  K.MPSSE_CMD_SET_DATA_BITS_LOWBYTE ≠ K.MPSSE_CMD_DATA_OUT_BITS_NEG_EDGE
    ∧ K.MPSSE_CMD_SET_DATA_BITS_LOWBYTE ≠ K.MPSSE_CMD_DATA_IN_BITS_POS_EDGE
    ∧ K.MPSSE_CMD_SET_DATA_BITS_LOWBYTE ≠ K.MPSSE_CMD_SEND_IMMEDIATE
    ∧ K.MPSSE_CMD_DATA_OUT_BITS_NEG_EDGE ≠ K.MPSSE_CMD_DATA_IN_BITS_POS_EDGE
    ∧ K.MPSSE_CMD_DATA_OUT_BITS_NEG_EDGE ≠ K.MPSSE_CMD_SEND_IMMEDIATE
    ∧ K.MPSSE_CMD_DATA_IN_BITS_POS_EDGE ≠ K.MPSSE_CMD_SEND_IMMEDIATE

instance (K : MpsseConsts) : Decidable (OpcodesDistinct K) := by
  unfold OpcodesDistinct
  infer_instance

/-- The command stream a byte sequence stands for, read from the front: every opcode
takes its operands with it (two after set-pin-state and clock-out, one after clock-in,
none after send-immediate, as `ftdi_i2c.c` stores them everywhere), so that an
operand is never taken for an opcode. -/
def decodeCmds (K : MpsseConsts) : List Nat → List MpsseCmd
  | [] => []
  | op :: rest =>
    if op = K.MPSSE_CMD_SET_DATA_BITS_LOWBYTE then
      match rest with
      | v :: d :: rest2 => MpsseCmd.setPins v d :: decodeCmds K rest2
      | _ => MpsseCmd.raw op :: rest.map MpsseCmd.raw
    else if op = K.MPSSE_CMD_DATA_OUT_BITS_NEG_EDGE then
      match rest with
      | l :: x :: rest2 => MpsseCmd.clockOut l x :: decodeCmds K rest2
      | _ => MpsseCmd.raw op :: rest.map MpsseCmd.raw
    else if op = K.MPSSE_CMD_DATA_IN_BITS_POS_EDGE then
      match rest with
      | l :: rest2 => MpsseCmd.clockIn l :: decodeCmds K rest2
      | _ => [MpsseCmd.raw op]
    else if op = K.MPSSE_CMD_SEND_IMMEDIATE then MpsseCmd.sendImmediate :: decodeCmds K rest
    else MpsseCmd.raw op :: decodeCmds K rest

/-- The bytes of a command. -/
def MpsseCmd.bytes (K : MpsseConsts) : MpsseCmd → List Nat
  | MpsseCmd.setPins v d => [K.MPSSE_CMD_SET_DATA_BITS_LOWBYTE, v, d]
  | MpsseCmd.clockOut l x => [K.MPSSE_CMD_DATA_OUT_BITS_NEG_EDGE, l, x]
  | MpsseCmd.clockIn l => [K.MPSSE_CMD_DATA_IN_BITS_POS_EDGE, l]
  | MpsseCmd.sendImmediate => [K.MPSSE_CMD_SEND_IMMEDIATE]
  | MpsseCmd.raw b => [b]

/-- A byte sequence with every send-immediate command removed: the commands are
decoded, the send-immediate commands dropped, the others stored again.  A data or
operand byte that happens to have the value of the opcode stays. -/
def withoutSendImmediate (K : MpsseConsts) (stream : List Nat) : List Nat :=
  ((decodeCmds K stream).filter (fun c => c != MpsseCmd.sendImmediate)).flatMap
    (MpsseCmd.bytes K)

/-- Whether a command clocks bits in, that is, makes the device queue one reply
byte. -/
def MpsseCmd.isClockIn : MpsseCmd → Bool
  | MpsseCmd.clockIn _ => true
  | _ => false

/-- The number of clock-in commands in a byte sequence. -/
def clockInCount (K : MpsseConsts) (stream : List Nat) : Nat :=
  ((decodeCmds K stream).filter MpsseCmd.isClockIn).length

/-- The byte counts asked for by the reads between the channel state `s` and the later
state `c` of the same channel. -/
def readsSince (s c : Chan) : List Nat :=
  (readsOf c.trace).drop (readsOf s.trace).length

/-- The outcome of the START stage of `I2C_DeviceRead` and `I2C_DeviceWrite` on the
normal path: the channel is locked and purged, then `I2C_Start` is called if the START
option bit is set. -/
def startStage (K : MpsseConsts) (T : Transport) (s : Chan) (options : Nat) :
    FT_STATUS × Chan :=
  if optionSet options I2C_TRANSFER_OPTIONS_START_BIT then
    I2C_Start K T (Mid_PurgeDevice (LOCK_CHANNEL s))
  else (FT_OK, Mid_PurgeDevice (LOCK_CHANNEL s))

/-- The outcome of the address phase of the normal path, made after the START stage
has not failed. -/
def addressStage (K : MpsseConsts) (T : Transport) (s : Chan) (deviceAddress : Nat)
    (direction : Bool) (options : Nat) : AckResult :=
  I2C_WriteDeviceAddress K T (startStage K T s options).2 deviceAddress direction false false

/-- A transport like `scriptedTransport reply`, except that every write fails with
`FT_IO_ERROR`. -/
def failingWriteTransport (reply : Nat → Nat) : Transport where
  writeReply := fun _ _ => { status := FT_IO_ERROR, transferred := 0 }
  readReply := fun k count => { status := FT_OK, data := List.replicate count (reply k) }
  initReply := fun _ _ _ => FT_OK
  malloc := fun _ _ => true

/-- A transport like `scriptedTransport reply`, except that the second allocation made
on the channel fails (on a fresh channel: the reply buffer of `I2C_FastWrite`). -/
def replyAllocFailsTransport (reply : Nat → Nat) : Transport where
  writeReply := fun _ bytes => { status := FT_OK, transferred := bytes.length }
  readReply := fun k count => { status := FT_OK, data := List.replicate count (reply k) }
  initReply := fun _ _ _ => FT_OK
  malloc := fun k _ => k != 1

/-- The channel state with which the data loop of `I2C_DeviceWrite` is left. -/
def LoopExit.chan : LoopExit → Chan
  | LoopExit.returned _ chan => chan
  | LoopExit.finished _ _ chan => chan

/-! ## Basic facts -/

theorem failed_ok : failed FT_OK = false := rfl

theorem failed_eq_false_iff (st : FT_STATUS) : failed st = false ↔ st = FT_OK := by
  cases st <;> simp [failed]

theorem optionSet_fast_of_bits (options : Nat)
    (h : optionSet options I2C_TRANSFER_OPTIONS_FAST_TRANSFER_BITS = true) :
    optionSet options I2C_TRANSFER_OPTIONS_FAST_TRANSFER = true := by
  unfold optionSet at *
  simp only [bne_iff_ne, ne_eq] at *
  intro h0
  apply h
  have e : options &&& I2C_TRANSFER_OPTIONS_FAST_TRANSFER_BITS
      = (options &&& I2C_TRANSFER_OPTIONS_FAST_TRANSFER)
          &&& I2C_TRANSFER_OPTIONS_FAST_TRANSFER_BITS := by
    rw [Nat.and_assoc]; rfl
  rw [e, h0]; simp

theorem scripted_writes (reply : Nat → Nat) : WritesSucceed (scriptedTransport reply) :=
  fun _ _ => rfl

theorem scripted_reads (reply : Nat → Nat) : ReadsSucceed (scriptedTransport reply) :=
  fun _ _ => ⟨rfl, by simp [scriptedTransport]⟩

theorem scripted_replyByte (reply : Nat → Nat) (k : Nat) :
    replyByte (scriptedTransport reply) k = reply k := rfl

/-! ## Parameter checking and the fast-transfer flag -/

/-- Claim C1: with a device address above 127, `I2C_DeviceRead` and `I2C_DeviceWrite`
return `FT_INVALID_PARAMETER` and leave the channel exactly as it was: nothing is
recorded in the trace (no lock, purge, write or read) and the lock flag is untouched,
whatever the length, the data, the options word and the transport are. -/
theorem C1_address_above_127_rejected (K : MpsseConsts) (T : Transport) (s : Chan)
    (deviceAddress sizeToTransfer : Nat) (buffer : List Nat)
    (sizeTransferred options : Nat) (h : deviceAddress > 127) :
    (I2C_DeviceRead K T s deviceAddress sizeToTransfer buffer sizeTransferred
        options).status = FT_INVALID_PARAMETER
    ∧ (I2C_DeviceRead K T s deviceAddress sizeToTransfer buffer sizeTransferred
        options).chan = s
    ∧ (I2C_DeviceWrite K T s deviceAddress sizeToTransfer buffer sizeTransferred
        options).status = FT_INVALID_PARAMETER
    ∧ (I2C_DeviceWrite K T s deviceAddress sizeToTransfer buffer sizeTransferred
        options).chan = s := by
  simp [I2C_DeviceRead, I2C_DeviceWrite, h]

/-- Witness of C1 at address 128 with the fast-transfer and no-address bits set. -/
theorem C1_address_above_127_rejected_witness :
    128 > 127
    ∧ (I2C_DeviceRead ftdiConsts (scriptedTransport (fun _ => 0)) Chan.fresh 128 4
        [0, 0, 0, 0] 0 0x53).status = FT_INVALID_PARAMETER
    ∧ (I2C_DeviceRead ftdiConsts (scriptedTransport (fun _ => 0)) Chan.fresh 128 4
        [0, 0, 0, 0] 0 0x53).chan = Chan.fresh
    ∧ (I2C_DeviceWrite ftdiConsts (scriptedTransport (fun _ => 0)) Chan.fresh 128 4
        [0, 0, 0, 0] 0 0x53).status = FT_INVALID_PARAMETER
    ∧ (I2C_DeviceWrite ftdiConsts (scriptedTransport (fun _ => 0)) Chan.fresh 128 4
        [0, 0, 0, 0] 0 0x53).chan = Chan.fresh :=
  ⟨by decide, C1_address_above_127_rejected ftdiConsts (scriptedTransport (fun _ => 0))
    Chan.fresh 128 4 [0, 0, 0, 0] 0 0x53 (by decide)⟩

/-- Claim C9: for an address in [0,127], with the fast-transfer bits flag set and the
fast-transfer bytes flag clear, `I2C_DeviceRead` and `I2C_DeviceWrite` return
`FT_INVALID_PARAMETER`; the only operations on the channel are the lock, the purge
and the unlock, so no byte is written to the transport and nothing is read from it. -/
theorem C9_fast_bits_rejected (K : MpsseConsts) (T : Transport) (s : Chan)
    (deviceAddress sizeToTransfer : Nat) (buffer : List Nat)
    (sizeTransferred options : Nat) (ha : deviceAddress ≤ 127)
    (hbits : optionSet options I2C_TRANSFER_OPTIONS_FAST_TRANSFER_BITS = true)
    (hbytes : optionSet options I2C_TRANSFER_OPTIONS_FAST_TRANSFER_BYTES = false) :
    (I2C_DeviceRead K T s deviceAddress sizeToTransfer buffer sizeTransferred
        options).status = FT_INVALID_PARAMETER
    ∧ (I2C_DeviceRead K T s deviceAddress sizeToTransfer buffer sizeTransferred
        options).chan.trace = s.trace ++ [Event.lock, Event.purge, Event.unlock]
    ∧ (I2C_DeviceWrite K T s deviceAddress sizeToTransfer buffer sizeTransferred
        options).status = FT_INVALID_PARAMETER
    ∧ (I2C_DeviceWrite K T s deviceAddress sizeToTransfer buffer sizeTransferred
        options).chan.trace = s.trace ++ [Event.lock, Event.purge, Event.unlock] := by
  have hf := optionSet_fast_of_bits options hbits
  have hna : ¬ deviceAddress > 127 := by omega
  simp [I2C_DeviceRead, I2C_DeviceWrite, I2C_FastRead, I2C_FastWrite, hna, hf, hbytes,
    LOCK_CHANNEL, Mid_PurgeDevice, UNLOCK_CHANNEL]

/-- Witness of C9 at address 0x50 with options START, STOP and fast-transfer bits. -/
theorem C9_fast_bits_rejected_witness :
    (I2C_DeviceRead ftdiConsts (scriptedTransport (fun _ => 0)) Chan.fresh 0x50 4
        [0, 0, 0, 0] 0 0x23).status = FT_INVALID_PARAMETER
    ∧ (I2C_DeviceRead ftdiConsts (scriptedTransport (fun _ => 0)) Chan.fresh 0x50 4
        [0, 0, 0, 0] 0 0x23).chan.trace
        = Chan.fresh.trace ++ [Event.lock, Event.purge, Event.unlock]
    ∧ (I2C_DeviceWrite ftdiConsts (scriptedTransport (fun _ => 0)) Chan.fresh 0x50 4
        [0, 0, 0, 0] 0 0x23).status = FT_INVALID_PARAMETER
    ∧ (I2C_DeviceWrite ftdiConsts (scriptedTransport (fun _ => 0)) Chan.fresh 0x50 4
        [0, 0, 0, 0] 0 0x23).chan.trace
        = Chan.fresh.trace ++ [Event.lock, Event.purge, Event.unlock] :=
  C9_fast_bits_rejected ftdiConsts (scriptedTransport (fun _ => 0)) Chan.fresh 0x50 4
    [0, 0, 0, 0] 0 0x23 (by decide) (by decide) (by decide)

/-! ## The byte primitives on a transport that answers in full -/

theorem after_after (s : Chan) (e1 e2 : List Event) (w1 r1 w2 r2 : Nat) :
    (s.after e1 w1 r1).after e2 w2 r2 = s.after (e1 ++ e2) (w1 + w2) (r1 + r2) := by
  simp [Chan.after, Nat.add_assoc]

theorem channel_write_full (T : Transport) (s : Chan) (bytes : List Nat)
    (hW : WritesSucceed T) :
    FT_Channel_Write T s bytes
      = { status := FT_OK, transferred := bytes.length,
          chan := s.after [Event.write bytes] 1 0 } := by
  simp [FT_Channel_Write, hW _ _, Chan.after]

theorem channel_read_one (T : Transport) (s : Chan) (hR : ReadsSucceed T) :
    FT_Channel_Read T s 1
      = { status := FT_OK, data := [replyByte T s.nReads], transferred := 1,
          chan := s.after [Event.read 1] 0 1 } := by
  have h1 := (hR s.nReads 1).1
  have h2 := (hR s.nReads 1).2
  unfold FT_Channel_Read replyByte Chan.after
  generalize T.readReply s.nReads 1 = rr at h1 h2
  obtain ⟨st, d⟩ := rr
  cases d with
  | nil => simp at h2
  | cons b tl => simp at h1; simp [h1]

theorem write8_full (K : MpsseConsts) (T : Transport) (s : Chan) (data : Nat) (ack : Bool)
    (hW : WritesSucceed T) (hR : ReadsSucceed T) :
    I2C_Write8bitsAndGetAck K T s data ack
      = { status := FT_OK, ack := decide (replyByte T s.nReads % 2 = 1),
          chan := s.after [Event.write (write8Cmd K data), Event.read 1] 1 1 } := by
  unfold I2C_Write8bitsAndGetAck
  simp only [channel_write_full T _ _ hW, channel_read_one T _ hR, after_after]
  rcases Nat.mod_two_eq_zero_or_one (replyByte T s.nReads) with h | h <;>
    simp [Chan.after, h]

theorem read8_full (K : MpsseConsts) (T : Transport) (s : Chan) (data : Nat) (ack : Bool)
    (hW : WritesSucceed T) (hR : ReadsSucceed T) :
    I2C_Read8bitsAndGiveAck K T s data ack
      = { status := FT_OK, data := replyByte T s.nReads,
          chan := s.after [Event.write (read8Cmd K ack), Event.read 1] 1 1 } := by
  unfold I2C_Read8bitsAndGiveAck
  simp only [channel_write_full T _ _ hW, channel_read_one T _ hR, after_after]
  simp [Chan.after]

theorem stop_full (K : MpsseConsts) (T : Transport) (s : Chan) (hW : WritesSucceed T) :
    I2C_Stop K T s = (FT_OK, s.after [Event.write (stopSequence K)] 1 0) := by
  simp [I2C_Stop, FT_Channel_Write, hW _ _, Chan.after]

theorem start_full (K : MpsseConsts) (T : Transport) (s : Chan) (hW : WritesSucceed T) :
    I2C_Start K T s = (FT_OK, s.after [Event.write (startSequence K)] 1 0) := by
  simp [I2C_Start, FT_Channel_Write, hW _ _, Chan.after]

theorem after_nil (s : Chan) : s.after [] 0 0 = s := by
  simp [Chan.after]

theorem after_nReads (s : Chan) (e : List Event) (w r : Nat) :
    (s.after e w r).nReads = s.nReads + r := rfl

theorem after_trace (s : Chan) (e : List Event) (w r : Nat) :
    (s.after e w r).trace = s.trace ++ e := rfl

/-! ## The data loops on a transport that answers in full -/

theorem deviceWriteLoop_runs (K : MpsseConsts) (T : Transport) (buffer : List Nat)
    (options : Nat) (hW : WritesSucceed T) (hR : ReadsSucceed T) :
    ∀ (r i : Nat) (s : Chan),
      (∀ j, j < r → replyByte T (s.nReads + j) % 2 = 0
        ∨ optionSet options I2C_TRANSFER_OPTIONS_BREAK_ON_NACK = false) →
      deviceWriteLoop K T buffer options r i FT_OK s
        = LoopExit.finished (i + r) FT_OK (s.after (writePhases K buffer r i) r r) := by
  intro r
  induction r with
  | zero => intro i s _; simp [deviceWriteLoop, writePhases, after_nil]
  | succ r ih =>
    intro i s h
    have ih1 := ih (i + 1) (s.after [Event.write (write8Cmd K (buffer.getD i 0)),
      Event.read 1] 1 1) (by
        intro j hj
        have := h (j + 1) (by omega)
        simpa [after_nReads, Nat.add_assoc, Nat.add_comm 1 j] using this)
    have h0 := h 0 (by omega)
    simp only [Nat.add_zero] at h0
    unfold deviceWriteLoop
    simp only [write8_full K T _ _ _ hW hR, if_true]
    rw [ih1, after_after]
    have e1 : i + 1 + r = i + (r + 1) := by omega
    have e2 : 1 + r = r + 1 := by omega
    rcases h0 with h0 | h0
    · simp [h0, writePhases, e1, e2]
    · simp [h0, writePhases, e1, e2]

theorem deviceWriteLoop_breaks (K : MpsseConsts) (T : Transport) (buffer : List Nat)
    (options : Nat) (hW : WritesSucceed T) (hR : ReadsSucceed T)
    (hb : optionSet options I2C_TRANSFER_OPTIONS_BREAK_ON_NACK = true) :
    ∀ (k r i : Nat) (s : Chan), k < r →
      (∀ j, j < k → replyByte T (s.nReads + j) % 2 = 0) →
      replyByte T (s.nReads + k) % 2 = 1 →
      deviceWriteLoop K T buffer options r i FT_OK s
        = LoopExit.returned FT_FAILED_TO_WRITE_DEVICE
            (s.after (writePhases K buffer (k + 1) i ++ stopOps K options)
              (k + 1 + (stopOps K options).length) (k + 1)) := by
  intro k
  induction k with
  | zero =>
    intro r i s hr _ hk
    obtain ⟨r, rfl⟩ : ∃ r0, r = r0 + 1 := ⟨r - 1, by omega⟩
    simp only [Nat.add_zero] at hk
    unfold deviceWriteLoop
    simp only [write8_full K T _ _ _ hW hR, if_true]
    by_cases hs : optionSet options I2C_TRANSFER_OPTIONS_STOP_BIT = true
    · simp [hk, hb, hs, stop_full K T _ hW, failed_ok, after_after, writePhases, stopOps]
    · simp [hk, hb, hs, writePhases, stopOps]
  | succ k ih =>
    intro r i s hr hj hk
    obtain ⟨r, rfl⟩ : ∃ r0, r = r0 + 1 := ⟨r - 1, by omega⟩
    have ih1 := ih r (i + 1) (s.after [Event.write (write8Cmd K (buffer.getD i 0)),
      Event.read 1] 1 1) (by omega) (by
        intro j hj1
        have := hj (j + 1) (by omega)
        simpa [after_nReads, Nat.add_assoc, Nat.add_comm 1 j] using this) (by
        simpa [after_nReads, Nat.add_assoc, Nat.add_comm 1 k] using hk)
    have h0 := hj 0 (by omega)
    simp only [Nat.add_zero] at h0
    unfold deviceWriteLoop
    simp only [write8_full K T _ _ _ hW hR, if_true]
    rw [ih1, after_after]
    have e1 : 1 + (k + 1 + (stopOps K options).length)
        = k + 1 + 1 + (stopOps K options).length := by omega
    have e2 : 1 + (k + 1) = k + 1 + 1 := by omega
    simp [h0, writePhases, e1, e2]

theorem deviceReadLoop_runs (K : MpsseConsts) (T : Transport) (sizeToTransfer options : Nat)
    (hW : WritesSucceed T) (hR : ReadsSucceed T) :
    ∀ (r i : Nat) (buffer : List Nat) (s : Chan),
      deviceReadLoop K T sizeToTransfer options r i FT_OK buffer s
        = { i := i + r, status := FT_OK, buffer := readFill T r i s.nReads buffer,
            chan := s.after (readPhases K sizeToTransfer options r i) r r } := by
  intro r
  induction r with
  | zero => intro i buffer s; simp [deviceReadLoop, readPhases, readFill, after_nil]
  | succ r ih =>
    intro i buffer s
    unfold deviceReadLoop
    simp only [read8_full K T _ _ _ hW hR, if_true]
    rw [ih, after_after]
    have e1 : i + 1 + r = i + (r + 1) := by omega
    have e2 : 1 + r = r + 1 := by omega
    simp [readPhases, readFill, after_nReads, e1, e2]

/-! ## The normal path of the orchestrator on a transport that answers in full -/

theorem entry_nReads (s : Chan) : (Mid_PurgeDevice (LOCK_CHANNEL s)).nReads = s.nReads := rfl

theorem deviceWrite_normal_runs (K : MpsseConsts) (T : Transport) (s : Chan)
    (deviceAddress sizeToTransfer : Nat) (buffer : List Nat) (sizeTransferred options : Nat)
    (ha : deviceAddress ≤ 127)
    (hfast : optionSet options I2C_TRANSFER_OPTIONS_FAST_TRANSFER = false)
    (hW : WritesSucceed T) (hR : ReadsSucceed T)
    (hack : replyByte T s.nReads % 2 = 0)
    (hrun : ∀ j, j < sizeToTransfer → replyByte T (s.nReads + 1 + j) % 2 = 0
      ∨ optionSet options I2C_TRANSFER_OPTIONS_BREAK_ON_NACK = false) :
    I2C_DeviceWrite K T s deviceAddress sizeToTransfer buffer sizeTransferred options
      = { status := FT_OK, sizeTransferred := sizeToTransfer, buffer := buffer,
          chan := UNLOCK_CHANNEL ((Mid_PurgeDevice (LOCK_CHANNEL s)).after
            (startOps K options ++ addressOps K deviceAddress false
              ++ writePhases K buffer sizeToTransfer 0 ++ stopOps K options)
            ((startOps K options).length + 1 + sizeToTransfer
              + (stopOps K options).length) (1 + sizeToTransfer)) } := by
  have hna : ¬ deviceAddress > 127 := by omega
  have hnack : ¬ replyByte T s.nReads % 2 = 1 := by omega
  unfold I2C_DeviceWrite I2C_WriteDeviceAddress
  by_cases hs : optionSet options I2C_TRANSFER_OPTIONS_START_BIT = true <;>
  by_cases hp : optionSet options I2C_TRANSFER_OPTIONS_STOP_BIT = true
  all_goals
    simp only [hna, hfast, hs, if_true, if_false, start_full K T _ hW, failed_ok,
      write8_full K T _ _ _ hW hR, after_after, after_nReads, entry_nReads, hnack,
      Bool.not_false, Bool.not_true, decide_False, Bool.false_eq_true, Nat.add_zero,
      Nat.zero_add]
    rw [deviceWriteLoop_runs K T buffer options hW hR]
    · simp [hp, stop_full K T _ hW, failed_ok, after_after, startOps, stopOps, addressOps,
        hs, Nat.add_assoc]
    · intro j hj
      simpa [after_nReads, entry_nReads, Nat.add_assoc] using hrun j hj

theorem deviceWrite_normal_breaks (K : MpsseConsts) (T : Transport) (s : Chan)
    (deviceAddress sizeToTransfer : Nat) (buffer : List Nat) (sizeTransferred options : Nat)
    (k : Nat) (ha : deviceAddress ≤ 127)
    (hfast : optionSet options I2C_TRANSFER_OPTIONS_FAST_TRANSFER = false)
    (hb : optionSet options I2C_TRANSFER_OPTIONS_BREAK_ON_NACK = true)
    (hW : WritesSucceed T) (hR : ReadsSucceed T)
    (hack : replyByte T s.nReads % 2 = 0) (hk : k < sizeToTransfer)
    (hrun : ∀ j, j < k → replyByte T (s.nReads + 1 + j) % 2 = 0)
    (hnackk : replyByte T (s.nReads + 1 + k) % 2 = 1) :
    I2C_DeviceWrite K T s deviceAddress sizeToTransfer buffer sizeTransferred options
      = { status := FT_FAILED_TO_WRITE_DEVICE, sizeTransferred := sizeTransferred,
          buffer := buffer,
          chan := (Mid_PurgeDevice (LOCK_CHANNEL s)).after
            (startOps K options ++ addressOps K deviceAddress false
              ++ writePhases K buffer (k + 1) 0 ++ stopOps K options)
            ((startOps K options).length + 1 + (k + 1)
              + (stopOps K options).length) (1 + (k + 1)) } := by
  have hna : ¬ deviceAddress > 127 := by omega
  have hnack : ¬ replyByte T s.nReads % 2 = 1 := by omega
  unfold I2C_DeviceWrite I2C_WriteDeviceAddress
  by_cases hs : optionSet options I2C_TRANSFER_OPTIONS_START_BIT = true
  all_goals
    simp only [hna, hfast, hs, if_true, if_false, start_full K T _ hW, failed_ok,
      write8_full K T _ _ _ hW hR, after_after, after_nReads, entry_nReads, hnack,
      Bool.not_false, Bool.not_true, decide_False, Bool.false_eq_true, Nat.add_zero,
      Nat.zero_add]
    rw [deviceWriteLoop_breaks K T buffer options hW hR hb k _ _ _ hk]
    · simp [after_after, startOps, addressOps, hs, Nat.add_assoc]
    · intro j hj
      simpa [after_nReads, entry_nReads, Nat.add_assoc] using hrun j hj
    · simpa [after_nReads, entry_nReads, Nat.add_assoc] using hnackk

theorem deviceWrite_normal_nack (K : MpsseConsts) (T : Transport) (s : Chan)
    (deviceAddress sizeToTransfer : Nat) (buffer : List Nat) (sizeTransferred options : Nat)
    (ha : deviceAddress ≤ 127)
    (hfast : optionSet options I2C_TRANSFER_OPTIONS_FAST_TRANSFER = false)
    (hW : WritesSucceed T) (hR : ReadsSucceed T)
    (hnack : replyByte T s.nReads % 2 = 1) :
    I2C_DeviceWrite K T s deviceAddress sizeToTransfer buffer sizeTransferred options
      = { status := FT_DEVICE_NOT_FOUND, sizeTransferred := sizeTransferred,
          buffer := buffer,
          chan := UNLOCK_CHANNEL ((Mid_PurgeDevice (LOCK_CHANNEL s)).after
            (startOps K options ++ addressOps K deviceAddress false ++ stopOps K options)
            ((startOps K options).length + 1 + (stopOps K options).length) 1) } := by
  have hna : ¬ deviceAddress > 127 := by omega
  unfold I2C_DeviceWrite I2C_WriteDeviceAddress
  by_cases hs : optionSet options I2C_TRANSFER_OPTIONS_START_BIT = true <;>
  by_cases hp : optionSet options I2C_TRANSFER_OPTIONS_STOP_BIT = true
  all_goals
    simp [hna, hfast, hs, hp, start_full K T _ hW, stop_full K T _ hW, failed_ok,
      write8_full K T _ _ _ hW hR, after_after, after_nReads, entry_nReads, hnack,
      startOps, stopOps, addressOps]

theorem deviceRead_normal_runs (K : MpsseConsts) (T : Transport) (s : Chan)
    (deviceAddress sizeToTransfer : Nat) (buffer : List Nat) (sizeTransferred options : Nat)
    (ha : deviceAddress ≤ 127)
    (hfast : optionSet options I2C_TRANSFER_OPTIONS_FAST_TRANSFER = false)
    (hW : WritesSucceed T) (hR : ReadsSucceed T)
    (hack : replyByte T s.nReads % 2 = 0) :
    I2C_DeviceRead K T s deviceAddress sizeToTransfer buffer sizeTransferred options
      = { status := FT_OK, sizeTransferred := sizeToTransfer,
          buffer := readFill T sizeToTransfer 0 (s.nReads + 1) buffer,
          chan := UNLOCK_CHANNEL ((Mid_PurgeDevice (LOCK_CHANNEL s)).after
            (startOps K options ++ addressOps K deviceAddress true
              ++ readPhases K sizeToTransfer options sizeToTransfer 0 ++ stopOps K options)
            ((startOps K options).length + 1 + sizeToTransfer
              + (stopOps K options).length) (1 + sizeToTransfer)) } := by
  have hna : ¬ deviceAddress > 127 := by omega
  have hnack : ¬ replyByte T s.nReads % 2 = 1 := by omega
  unfold I2C_DeviceRead I2C_WriteDeviceAddress
  by_cases hs : optionSet options I2C_TRANSFER_OPTIONS_START_BIT = true <;>
  by_cases hp : optionSet options I2C_TRANSFER_OPTIONS_STOP_BIT = true
  all_goals
    simp [hna, hfast, hs, hp, start_full K T _ hW, stop_full K T _ hW, failed_ok,
      write8_full K T _ _ _ hW hR, after_after, after_nReads, entry_nReads, hnack,
      deviceReadLoop_runs K T _ _ hW hR, startOps, stopOps, addressOps, Nat.add_assoc]

theorem deviceRead_normal_nack (K : MpsseConsts) (T : Transport) (s : Chan)
    (deviceAddress sizeToTransfer : Nat) (buffer : List Nat) (sizeTransferred options : Nat)
    (ha : deviceAddress ≤ 127)
    (hfast : optionSet options I2C_TRANSFER_OPTIONS_FAST_TRANSFER = false)
    (hW : WritesSucceed T) (hR : ReadsSucceed T)
    (hnack : replyByte T s.nReads % 2 = 1) :
    I2C_DeviceRead K T s deviceAddress sizeToTransfer buffer sizeTransferred options
      = { status := FT_DEVICE_NOT_FOUND, sizeTransferred := sizeTransferred,
          buffer := buffer,
          chan := UNLOCK_CHANNEL ((Mid_PurgeDevice (LOCK_CHANNEL s)).after
            (startOps K options ++ addressOps K deviceAddress true ++ stopOps K options)
            ((startOps K options).length + 1 + (stopOps K options).length) 1) } := by
  have hna : ¬ deviceAddress > 127 := by omega
  unfold I2C_DeviceRead I2C_WriteDeviceAddress
  by_cases hs : optionSet options I2C_TRANSFER_OPTIONS_START_BIT = true <;>
  by_cases hp : optionSet options I2C_TRANSFER_OPTIONS_STOP_BIT = true
  all_goals
    simp [hna, hfast, hs, hp, start_full K T _ hW, stop_full K T _ hW, failed_ok,
      write8_full K T _ _ _ hW hR, after_after, after_nReads, entry_nReads, hnack,
      startOps, stopOps, addressOps]

theorem entry_trace (s : Chan) (e : List Event) (w r : Nat) :
    ((Mid_PurgeDevice (LOCK_CHANNEL s)).after e w r).trace
      = s.trace ++ [Event.lock, Event.purge] ++ e := by
  simp [Chan.after, Mid_PurgeDevice, LOCK_CHANNEL]

theorem unlock_trace (s : Chan) : (UNLOCK_CHANNEL s).trace = s.trace ++ [Event.unlock] := rfl

/-! ## What the traces of the data phases contain -/

theorem writesOf_append (a b : List Event) : writesOf (a ++ b) = writesOf a ++ writesOf b := by
  simp [writesOf, List.filterMap_append]

theorem writesOf_startOps (K : MpsseConsts) (options : Nat) :
    writesOf (startOps K options)
      = if optionSet options I2C_TRANSFER_OPTIONS_START_BIT then [startSequence K] else [] := by
  unfold startOps writesOf
  split <;> simp [Event.written]

theorem writesOf_stopOps (K : MpsseConsts) (options : Nat) :
    writesOf (stopOps K options)
      = if optionSet options I2C_TRANSFER_OPTIONS_STOP_BIT then [stopSequence K] else [] := by
  unfold stopOps writesOf
  split <;> simp [Event.written]

theorem writesOf_addressOps (K : MpsseConsts) (deviceAddress : Nat) (direction : Bool) :
    writesOf (addressOps K deviceAddress direction)
      = [write8Cmd K (addressByte deviceAddress direction)] := by
  simp [addressOps, writesOf, Event.written]

theorem writesOf_writePhases (K : MpsseConsts) (buffer : List Nat) :
    ∀ (r i : Nat), i + r ≤ buffer.length →
      writesOf (writePhases K buffer r i)
        = ((buffer.drop i).take r).map (write8Cmd K) := by
  intro r
  induction r with
  | zero => intro i _; simp [writePhases, writesOf]
  | succ r ih =>
    intro i h
    have hi : i < buffer.length := by omega
    have ih1 := ih (i + 1) (by omega)
    rw [List.drop_eq_getElem_cons hi]
    simp only [writePhases, writesOf_append, ih1, List.take_succ_cons, List.map_cons]
    simp [writesOf, Event.written, List.getD_eq_getElem?_getD, List.getElem?_eq_getElem hi]

theorem writesOf_readPhases (K : MpsseConsts) (sizeToTransfer options : Nat) :
    ∀ (r i : Nat),
      writesOf (readPhases K sizeToTransfer options r i)
        = (List.range' i r).map (fun j => read8Cmd K (readAckArg sizeToTransfer options j)) := by
  intro r
  induction r with
  | zero => intro i; simp [readPhases, writesOf]
  | succ r ih =>
    intro i
    simp only [readPhases, writesOf_append, ih (i + 1), List.range'_succ, List.map_cons]
    simp [writesOf, Event.written]

theorem readFill_length (T : Transport) :
    ∀ (r i k : Nat) (buffer : List Nat), (readFill T r i k buffer).length = buffer.length := by
  intro r
  induction r with
  | zero => intro i k buffer; rfl
  | succ r ih => intro i k buffer; simp [readFill, ih]

theorem readFill_getElem? (T : Transport) :
    ∀ (r i k : Nat) (buffer : List Nat) (j : Nat), j < buffer.length →
      (readFill T r i k buffer)[j]?
        = if i ≤ j ∧ j < i + r then some (replyByte T (k + (j - i))) else buffer[j]? := by
  intro r
  induction r with
  | zero =>
    intro i k buffer j _
    have : ¬ (i ≤ j ∧ j < i) := by omega
    simp [readFill, this]
  | succ r ih =>
    intro i k buffer j hj
    have hlen : j < (buffer.set i (replyByte T k)).length := by simpa using hj
    rw [readFill, ih (i + 1) (k + 1) _ j hlen]
    by_cases h1 : i + 1 ≤ j ∧ j < i + 1 + r
    · have h2 : i ≤ j ∧ j < i + (r + 1) := by omega
      have e : k + 1 + (j - (i + 1)) = k + (j - i) := by omega
      simp [h1, h2, e]
    · by_cases h3 : i = j
      · subst h3
        have h2 : i ≤ i ∧ i < i + (r + 1) := by omega
        simp [h1, h2, List.getElem?_set, hj]
      · have h2 : ¬ (i ≤ j ∧ j < i + (r + 1)) := by omega
        simp [h1, h2, List.getElem?_set, h3]

theorem getElem?_middle {α : Type} (A M B : List α) (i : Nat) (L : List α) (n : Nat)
    (hL : L = A ++ (M ++ B)) (h : i < M.length) (hn : n = A.length + i) :
    L[n]? = M[i]? := by
  subst hL hn
  rw [List.getElem?_append_right (by omega)]
  simp [List.getElem?_append_left h]

theorem readAckArg_eq (sizeToTransfer options i : Nat) (h1 : 1 ≤ sizeToTransfer)
    (h2 : sizeToTransfer < UINT32_MOD) :
    readAckArg sizeToTransfer options i
      = (decide (i < sizeToTransfer - 1)
          || !optionSet options I2C_TRANSFER_OPTIONS_NACK_LAST_BYTE) := by
  have e : (sizeToTransfer + UINT32_MOD - 1) % UINT32_MOD = sizeToTransfer - 1 := by
    have : sizeToTransfer + UINT32_MOD - 1 = (sizeToTransfer - 1) + UINT32_MOD := by omega
    rw [this, Nat.add_mod_right, Nat.mod_eq_of_lt (by omega)]
  unfold readAckArg
  rw [e]
  by_cases h : i < sizeToTransfer - 1 <;>
    cases optionSet options I2C_TRANSFER_OPTIONS_NACK_LAST_BYTE <;> simp [h]

/-! ## Normal path: the claims -/

/-- Claim C2: on the normal (non-fast) path of `I2C_DeviceWrite`, for every address in
[0,127], every length (0 included), every data buffer and every setting of the START
and STOP bits, when every transport call succeeds in full and every reply byte has low
bit 0, the call returns `FT_OK` and `*sizeTransferred` is the length. -/
theorem C2_write_all_acked (K : MpsseConsts) (T : Transport) (s : Chan)
    (deviceAddress sizeToTransfer : Nat) (buffer : List Nat) (sizeTransferred options : Nat)
    (ha : deviceAddress ≤ 127)
    (hfast : optionSet options I2C_TRANSFER_OPTIONS_FAST_TRANSFER = false)
    (hW : WritesSucceed T) (hR : ReadsSucceed T)
    (hack : ∀ k, replyByte T k % 2 = 0) :
    (I2C_DeviceWrite K T s deviceAddress sizeToTransfer buffer sizeTransferred
        options).status = FT_OK
    ∧ (I2C_DeviceWrite K T s deviceAddress sizeToTransfer buffer sizeTransferred
        options).sizeTransferred = sizeToTransfer := by
  rw [deviceWrite_normal_runs K T s deviceAddress sizeToTransfer buffer sizeTransferred
    options ha hfast hW hR (hack _) (fun j _ => Or.inl (hack _))]
  exact ⟨rfl, rfl⟩

/-- Witness of C2: three bytes to address 0x50 with START and STOP. -/
theorem C2_write_all_acked_witness :
    (I2C_DeviceWrite ftdiConsts (scriptedTransport (fun _ => 0)) Chan.fresh 0x50 3
        [0xA0, 0xA1, 0xA2] 99 0x03).status = FT_OK
    ∧ (I2C_DeviceWrite ftdiConsts (scriptedTransport (fun _ => 0)) Chan.fresh 0x50 3
        [0xA0, 0xA1, 0xA2] 99 0x03).sizeTransferred = 3 :=
  C2_write_all_acked ftdiConsts (scriptedTransport (fun _ => 0)) Chan.fresh 0x50 3
    [0xA0, 0xA1, 0xA2] 99 0x03 (by decide) (by decide) (scripted_writes _)
    (scripted_reads _) (fun _ => rfl)

/-- Claim C3: on the normal path of `I2C_DeviceRead`, for every address in [0,127] and
every length (0 included), when the address reply has low bit 0 and every transport
call succeeds in full, the call returns `FT_OK`, `*sizeTransferred` is the length,
and `buffer[i]` holds, for every `i` below the length, the reply byte of the `i`-th
data phase, unmodified. -/
theorem C3_read_stores_replies (K : MpsseConsts) (T : Transport) (s : Chan)
    (deviceAddress sizeToTransfer : Nat) (buffer : List Nat) (sizeTransferred options : Nat)
    (ha : deviceAddress ≤ 127)
    (hfast : optionSet options I2C_TRANSFER_OPTIONS_FAST_TRANSFER = false)
    (hlen : sizeToTransfer ≤ buffer.length)
    (hW : WritesSucceed T) (hR : ReadsSucceed T)
    (hack : replyByte T s.nReads % 2 = 0) :
    (I2C_DeviceRead K T s deviceAddress sizeToTransfer buffer sizeTransferred
        options).status = FT_OK
    ∧ (I2C_DeviceRead K T s deviceAddress sizeToTransfer buffer sizeTransferred
        options).sizeTransferred = sizeToTransfer
    ∧ ∀ i, i < sizeToTransfer →
        (I2C_DeviceRead K T s deviceAddress sizeToTransfer buffer sizeTransferred
          options).buffer[i]? = some (replyByte T (s.nReads + 1 + i)) := by
  rw [deviceRead_normal_runs K T s deviceAddress sizeToTransfer buffer sizeTransferred
    options ha hfast hW hR hack]
  refine ⟨rfl, rfl, ?_⟩
  intro i hi
  have h := readFill_getElem? T sizeToTransfer 0 (s.nReads + 1) buffer i (by omega)
  simpa [hi] using h

/-- Witness of C3: two bytes read from address 0x50, the replies being 0, 0x11, 0x22. -/
theorem C3_read_stores_replies_witness :
    (I2C_DeviceRead ftdiConsts (scriptedTransport (fun k => 0x11 * k)) Chan.fresh 0x50 2
        [0, 0] 99 0x03).status = FT_OK
    ∧ (I2C_DeviceRead ftdiConsts (scriptedTransport (fun k => 0x11 * k)) Chan.fresh 0x50 2
        [0, 0] 99 0x03).sizeTransferred = 2
    ∧ ∀ i, i < 2 →
        (I2C_DeviceRead ftdiConsts (scriptedTransport (fun k => 0x11 * k)) Chan.fresh 0x50 2
          [0, 0] 99 0x03).buffer[i]?
          = some (replyByte (scriptedTransport (fun k => 0x11 * k))
              (Chan.fresh.nReads + 1 + i)) :=
  C3_read_stores_replies ftdiConsts (scriptedTransport (fun k => 0x11 * k)) Chan.fresh 0x50 2
    [0, 0] 99 0x03 (by decide) (by decide) (by decide) (scripted_writes _)
    (scripted_reads _) rfl

/-- Claim C4: on the normal path of `I2C_DeviceRead` and `I2C_DeviceWrite`, for every
address in [0,127], when the address reply has low bit 1 and every transport call
succeeds, the call returns `FT_DEVICE_NOT_FOUND`; the operations on the channel are
the lock, the purge, the START stage, the address phase, then one write of the STOP
sequence when the STOP bit is set and nothing when it is clear, then the unlock: no
data phase is sent. -/
theorem C4_address_nack (K : MpsseConsts) (T : Transport) (s : Chan)
    (deviceAddress sizeToTransfer : Nat) (buffer : List Nat) (sizeTransferred options : Nat)
    (ha : deviceAddress ≤ 127)
    (hfast : optionSet options I2C_TRANSFER_OPTIONS_FAST_TRANSFER = false)
    (hW : WritesSucceed T) (hR : ReadsSucceed T)
    (hnack : replyByte T s.nReads % 2 = 1) :
    (I2C_DeviceRead K T s deviceAddress sizeToTransfer buffer sizeTransferred
        options).status = FT_DEVICE_NOT_FOUND
    ∧ (I2C_DeviceRead K T s deviceAddress sizeToTransfer buffer sizeTransferred
        options).chan.trace
        = s.trace ++ [Event.lock, Event.purge] ++ startOps K options
          ++ addressOps K deviceAddress true
          ++ (if optionSet options I2C_TRANSFER_OPTIONS_STOP_BIT
              then [Event.write (stopSequence K)] else [])
          ++ [Event.unlock]
    ∧ (I2C_DeviceWrite K T s deviceAddress sizeToTransfer buffer sizeTransferred
        options).status = FT_DEVICE_NOT_FOUND
    ∧ (I2C_DeviceWrite K T s deviceAddress sizeToTransfer buffer sizeTransferred
        options).chan.trace
        = s.trace ++ [Event.lock, Event.purge] ++ startOps K options
          ++ addressOps K deviceAddress false
          ++ (if optionSet options I2C_TRANSFER_OPTIONS_STOP_BIT
              then [Event.write (stopSequence K)] else [])
          ++ [Event.unlock] := by
  rw [deviceRead_normal_nack K T s deviceAddress sizeToTransfer buffer sizeTransferred
    options ha hfast hW hR hnack,
    deviceWrite_normal_nack K T s deviceAddress sizeToTransfer buffer sizeTransferred
    options ha hfast hW hR hnack]
  simp [unlock_trace, entry_trace, stopOps, List.append_assoc]

/-- Witness of C4: address 0x50 does not answer, START and STOP are asked for. -/
theorem C4_address_nack_witness :
    (I2C_DeviceRead ftdiConsts (scriptedTransport (fun _ => 1)) Chan.fresh 0x50 4
        [0, 0, 0, 0] 99 0x03).status = FT_DEVICE_NOT_FOUND
    ∧ (I2C_DeviceRead ftdiConsts (scriptedTransport (fun _ => 1)) Chan.fresh 0x50 4
        [0, 0, 0, 0] 99 0x03).chan.trace
        = Chan.fresh.trace ++ [Event.lock, Event.purge] ++ startOps ftdiConsts 0x03
          ++ addressOps ftdiConsts 0x50 true
          ++ (if optionSet 0x03 I2C_TRANSFER_OPTIONS_STOP_BIT
              then [Event.write (stopSequence ftdiConsts)] else [])
          ++ [Event.unlock]
    ∧ (I2C_DeviceWrite ftdiConsts (scriptedTransport (fun _ => 1)) Chan.fresh 0x50 4
        [0, 0, 0, 0] 99 0x03).status = FT_DEVICE_NOT_FOUND
    ∧ (I2C_DeviceWrite ftdiConsts (scriptedTransport (fun _ => 1)) Chan.fresh 0x50 4
        [0, 0, 0, 0] 99 0x03).chan.trace
        = Chan.fresh.trace ++ [Event.lock, Event.purge] ++ startOps ftdiConsts 0x03
          ++ addressOps ftdiConsts 0x50 false
          ++ (if optionSet 0x03 I2C_TRANSFER_OPTIONS_STOP_BIT
              then [Event.write (stopSequence ftdiConsts)] else [])
          ++ [Event.unlock] :=
  C4_address_nack ftdiConsts (scriptedTransport (fun _ => 1)) Chan.fresh 0x50 4
    [0, 0, 0, 0] 99 0x03 (by decide) (by decide) (scripted_writes _)
    (scripted_reads _) rfl

/-- Claim C5: on the normal path of `I2C_DeviceWrite` with BREAK_ON_NACK set, when the
address and the data bytes `0..k-1` are acknowledged, data byte `k` (below the length)
is not, and every transport call succeeds, the call returns
`FT_FAILED_TO_WRITE_DEVICE`; the operations on the channel are the lock, the purge,
the START stage, the address phase, the data phases of the bytes `0..k` and of no
later byte, then one write of the STOP sequence when the STOP bit is set and nothing
when it is clear. -/
theorem C5_break_on_nack (K : MpsseConsts) (T : Transport) (s : Chan)
    (deviceAddress sizeToTransfer : Nat) (buffer : List Nat) (sizeTransferred options : Nat)
    (k : Nat) (ha : deviceAddress ≤ 127)
    (hfast : optionSet options I2C_TRANSFER_OPTIONS_FAST_TRANSFER = false)
    (hb : optionSet options I2C_TRANSFER_OPTIONS_BREAK_ON_NACK = true)
    (hW : WritesSucceed T) (hR : ReadsSucceed T)
    (hack : replyByte T s.nReads % 2 = 0) (hk : k < sizeToTransfer)
    (hrun : ∀ j, j < k → replyByte T (s.nReads + 1 + j) % 2 = 0)
    (hnackk : replyByte T (s.nReads + 1 + k) % 2 = 1) :
    (I2C_DeviceWrite K T s deviceAddress sizeToTransfer buffer sizeTransferred
        options).status = FT_FAILED_TO_WRITE_DEVICE
    ∧ (I2C_DeviceWrite K T s deviceAddress sizeToTransfer buffer sizeTransferred
        options).chan.trace
        = s.trace ++ [Event.lock, Event.purge] ++ startOps K options
          ++ addressOps K deviceAddress false
          ++ writePhases K buffer (k + 1) 0
          ++ (if optionSet options I2C_TRANSFER_OPTIONS_STOP_BIT
              then [Event.write (stopSequence K)] else []) := by
  rw [deviceWrite_normal_breaks K T s deviceAddress sizeToTransfer buffer sizeTransferred
    options k ha hfast hb hW hR hack hk hrun hnackk]
  simp [entry_trace, stopOps, List.append_assoc]

/-- Witness of C5: five bytes, byte 2 not acknowledged, START, STOP and BREAK_ON_NACK. -/
theorem C5_break_on_nack_witness :
    (I2C_DeviceWrite ftdiConsts (scriptedTransport (fun k => if k = 3 then 1 else 0))
        Chan.fresh 0x50 5 [0xA0, 0xA1, 0xA2, 0xA3, 0xA4] 99 0x07).status
        = FT_FAILED_TO_WRITE_DEVICE
    ∧ (I2C_DeviceWrite ftdiConsts (scriptedTransport (fun k => if k = 3 then 1 else 0))
        Chan.fresh 0x50 5 [0xA0, 0xA1, 0xA2, 0xA3, 0xA4] 99 0x07).chan.trace
        = Chan.fresh.trace ++ [Event.lock, Event.purge] ++ startOps ftdiConsts 0x07
          ++ addressOps ftdiConsts 0x50 false
          ++ writePhases ftdiConsts [0xA0, 0xA1, 0xA2, 0xA3, 0xA4] (2 + 1) 0
          ++ (if optionSet 0x07 I2C_TRANSFER_OPTIONS_STOP_BIT
              then [Event.write (stopSequence ftdiConsts)] else []) :=
  C5_break_on_nack ftdiConsts (scriptedTransport (fun k => if k = 3 then 1 else 0))
    Chan.fresh 0x50 5 [0xA0, 0xA1, 0xA2, 0xA3, 0xA4] 99 0x07 2 (by decide) (by decide)
    (by decide) (scripted_writes _) (scripted_reads _) rfl (by decide)
    (by intro j hj; interval_cases j <;> rfl) rfl

/-- Counterexample to C6 as stated: five bytes are written with START, STOP and
BREAK_ON_NACK, and data byte 2 is not acknowledged.  The command carrying the byte of
index 2 is handed to the transport, and the writes are not those of the bytes 0 and 1
alone. -/
theorem C6_counterexample :
    (I2C_DeviceWrite ftdiConsts (scriptedTransport (fun k => if k = 3 then 1 else 0))
        Chan.fresh 0x50 5 [0xA0, 0xA1, 0xA2, 0xA3, 0xA4] 99 0x07).status
        = FT_FAILED_TO_WRITE_DEVICE
    ∧ write8Cmd ftdiConsts 0xA2
        ∈ writesOf (I2C_DeviceWrite ftdiConsts
            (scriptedTransport (fun k => if k = 3 then 1 else 0))
            Chan.fresh 0x50 5 [0xA0, 0xA1, 0xA2, 0xA3, 0xA4] 99 0x07).chan.trace
    ∧ writesOf (I2C_DeviceWrite ftdiConsts
            (scriptedTransport (fun k => if k = 3 then 1 else 0))
            Chan.fresh 0x50 5 [0xA0, 0xA1, 0xA2, 0xA3, 0xA4] 99 0x07).chan.trace
        ≠ [startSequence ftdiConsts, write8Cmd ftdiConsts (addressByte 0x50 false),
            write8Cmd ftdiConsts 0xA0, write8Cmd ftdiConsts 0xA1,
            stopSequence ftdiConsts] := by
  decide

/-- Claim C6, amended: on the normal path of `I2C_DeviceWrite` with BREAK_ON_NACK set,
when the slave does not acknowledge data byte `k`, the byte sequences handed to the
transport are the START sequence (if asked for), the address command, the commands
carrying the data bytes of index `0..k` in order, the byte of index `k` included and
no later one, and the STOP sequence (if asked for). -/
theorem C6_break_on_nack_wire (K : MpsseConsts) (T : Transport) (s : Chan)
    (deviceAddress sizeToTransfer : Nat) (buffer : List Nat) (sizeTransferred options : Nat)
    (k : Nat) (ha : deviceAddress ≤ 127)
    (hfast : optionSet options I2C_TRANSFER_OPTIONS_FAST_TRANSFER = false)
    (hb : optionSet options I2C_TRANSFER_OPTIONS_BREAK_ON_NACK = true)
    (hlen : sizeToTransfer ≤ buffer.length)
    (hW : WritesSucceed T) (hR : ReadsSucceed T)
    (hack : replyByte T s.nReads % 2 = 0) (hk : k < sizeToTransfer)
    (hrun : ∀ j, j < k → replyByte T (s.nReads + 1 + j) % 2 = 0)
    (hnackk : replyByte T (s.nReads + 1 + k) % 2 = 1) :
    writesOf (I2C_DeviceWrite K T s deviceAddress sizeToTransfer buffer sizeTransferred
        options).chan.trace
      = writesOf s.trace
        ++ (if optionSet options I2C_TRANSFER_OPTIONS_START_BIT then [startSequence K] else [])
        ++ [write8Cmd K (addressByte deviceAddress false)]
        ++ (buffer.take (k + 1)).map (write8Cmd K)
        ++ (if optionSet options I2C_TRANSFER_OPTIONS_STOP_BIT then [stopSequence K] else []) := by
  rw [deviceWrite_normal_breaks K T s deviceAddress sizeToTransfer buffer sizeTransferred
    options k ha hfast hb hW hR hack hk hrun hnackk]
  have hw := writesOf_writePhases K buffer (k + 1) 0 (by omega)
  simp only [List.drop_zero] at hw
  simp only [entry_trace, writesOf_append, writesOf_startOps, writesOf_stopOps,
    writesOf_addressOps, hw]
  simp [writesOf, Event.written]

/-- Witness of the amended C6: five bytes, byte 2 not acknowledged; the bytes 0, 1 and
2 are on the wire. -/
theorem C6_break_on_nack_wire_witness :
    writesOf (I2C_DeviceWrite ftdiConsts
        (scriptedTransport (fun k => if k = 3 then 1 else 0))
        Chan.fresh 0x50 5 [0xA0, 0xA1, 0xA2, 0xA3, 0xA4] 99 0x07).chan.trace
      = writesOf Chan.fresh.trace
        ++ (if optionSet 0x07 I2C_TRANSFER_OPTIONS_START_BIT
            then [startSequence ftdiConsts] else [])
        ++ [write8Cmd ftdiConsts (addressByte 0x50 false)]
        ++ ([0xA0, 0xA1, 0xA2, 0xA3, 0xA4].take (2 + 1)).map (write8Cmd ftdiConsts)
        ++ (if optionSet 0x07 I2C_TRANSFER_OPTIONS_STOP_BIT
            then [stopSequence ftdiConsts] else []) :=
  C6_break_on_nack_wire ftdiConsts (scriptedTransport (fun k => if k = 3 then 1 else 0))
    Chan.fresh 0x50 5 [0xA0, 0xA1, 0xA2, 0xA3, 0xA4] 99 0x07 2 (by decide) (by decide)
    (by decide) (by decide) (scripted_writes _) (scripted_reads _) rfl (by decide)
    (by intro j hj; interval_cases j <;> rfl) rfl

/-- Claim C7: on the normal path of `I2C_DeviceWrite` with BREAK_ON_NACK clear, for
every data buffer and whatever the data-phase replies are (any of them may be a NACK),
when the address is acknowledged and every transport call succeeds, the status is
`FT_OK`, `*sizeTransferred` is the length, and the byte sequences handed to the
transport are the START sequence (if asked for), the address command, the commands
carrying all the data bytes in index order, and the STOP sequence (if asked for). -/
theorem C7_write_ignores_nack (K : MpsseConsts) (T : Transport) (s : Chan)
    (deviceAddress sizeToTransfer : Nat) (buffer : List Nat) (sizeTransferred options : Nat)
    (ha : deviceAddress ≤ 127)
    (hfast : optionSet options I2C_TRANSFER_OPTIONS_FAST_TRANSFER = false)
    (hb : optionSet options I2C_TRANSFER_OPTIONS_BREAK_ON_NACK = false)
    (hlen : buffer.length = sizeToTransfer)
    (hW : WritesSucceed T) (hR : ReadsSucceed T)
    (hack : replyByte T s.nReads % 2 = 0) :
    (I2C_DeviceWrite K T s deviceAddress sizeToTransfer buffer sizeTransferred
        options).status = FT_OK
    ∧ (I2C_DeviceWrite K T s deviceAddress sizeToTransfer buffer sizeTransferred
        options).sizeTransferred = sizeToTransfer
    ∧ writesOf (I2C_DeviceWrite K T s deviceAddress sizeToTransfer buffer sizeTransferred
        options).chan.trace
      = writesOf s.trace
        ++ (if optionSet options I2C_TRANSFER_OPTIONS_START_BIT then [startSequence K] else [])
        ++ [write8Cmd K (addressByte deviceAddress false)]
        ++ buffer.map (write8Cmd K)
        ++ (if optionSet options I2C_TRANSFER_OPTIONS_STOP_BIT then [stopSequence K] else []) := by
  rw [deviceWrite_normal_runs K T s deviceAddress sizeToTransfer buffer sizeTransferred
    options ha hfast hW hR hack (fun j _ => Or.inr hb)]
  refine ⟨rfl, rfl, ?_⟩
  have hw := writesOf_writePhases K buffer sizeToTransfer 0 (by omega)
  simp only [List.drop_zero] at hw
  rw [← hlen, List.take_length] at hw
  simp only [unlock_trace, entry_trace, writesOf_append, writesOf_startOps, writesOf_stopOps,
    writesOf_addressOps, ← hlen, hw]
  simp [writesOf, Event.written]

/-- Witness of C7: five bytes, byte 2 not acknowledged, BREAK_ON_NACK clear. -/
theorem C7_write_ignores_nack_witness :
    (I2C_DeviceWrite ftdiConsts (scriptedTransport (fun k => if k = 3 then 1 else 0))
        Chan.fresh 0x50 5 [0xA0, 0xA1, 0xA2, 0xA3, 0xA4] 99 0x03).status = FT_OK
    ∧ (I2C_DeviceWrite ftdiConsts (scriptedTransport (fun k => if k = 3 then 1 else 0))
        Chan.fresh 0x50 5 [0xA0, 0xA1, 0xA2, 0xA3, 0xA4] 99 0x03).sizeTransferred = 5
    ∧ writesOf (I2C_DeviceWrite ftdiConsts
        (scriptedTransport (fun k => if k = 3 then 1 else 0))
        Chan.fresh 0x50 5 [0xA0, 0xA1, 0xA2, 0xA3, 0xA4] 99 0x03).chan.trace
      = writesOf Chan.fresh.trace
        ++ (if optionSet 0x03 I2C_TRANSFER_OPTIONS_START_BIT
            then [startSequence ftdiConsts] else [])
        ++ [write8Cmd ftdiConsts (addressByte 0x50 false)]
        ++ [0xA0, 0xA1, 0xA2, 0xA3, 0xA4].map (write8Cmd ftdiConsts)
        ++ (if optionSet 0x03 I2C_TRANSFER_OPTIONS_STOP_BIT
            then [stopSequence ftdiConsts] else []) :=
  C7_write_ignores_nack ftdiConsts (scriptedTransport (fun k => if k = 3 then 1 else 0))
    Chan.fresh 0x50 5 [0xA0, 0xA1, 0xA2, 0xA3, 0xA4] 99 0x03 (by decide) (by decide)
    (by decide) rfl (scripted_writes _) (scripted_reads _) rfl

/-- Claim C8: on the normal path of `I2C_DeviceRead`, for every length `n ≥ 1` and every
`i < n`, the command buffer written for data byte `i` drives ACK (SDA switched to
output, clocked-out bit `0x00`) when `i < n-1`; for the last byte it drives NACK (SDA
left as input, clocked-out bit `0x80`) when NACK_LAST_BYTE is set and ACK otherwise.
The buffer for data byte `i` is the write that follows the writes made before the
call, the START sequence (if asked for), the address command and the buffers of the
data bytes before `i`. -/
theorem C8_read_ack_policy (K : MpsseConsts) (T : Transport) (s : Chan)
    (deviceAddress sizeToTransfer : Nat) (buffer : List Nat) (sizeTransferred options : Nat)
    (i : Nat) (ha : deviceAddress ≤ 127)
    (hfast : optionSet options I2C_TRANSFER_OPTIONS_FAST_TRANSFER = false)
    (hn : 1 ≤ sizeToTransfer) (h32 : sizeToTransfer < UINT32_MOD) (hi : i < sizeToTransfer)
    (hW : WritesSucceed T) (hR : ReadsSucceed T)
    (hack : replyByte T s.nReads % 2 = 0) :
    (writesOf (I2C_DeviceRead K T s deviceAddress sizeToTransfer buffer sizeTransferred
        options).chan.trace)[(writesOf s.trace).length
          + (if optionSet options I2C_TRANSFER_OPTIONS_START_BIT then 1 else 0) + 1 + i]?
      = some
        (if i < sizeToTransfer - 1 then
          [ K.MPSSE_CMD_SET_DATA_BITS_LOWBYTE, K.VALUE_SCLLOW_SDALOW, K.DIRECTION_SCLOUT_SDAIN,
            K.MPSSE_CMD_DATA_IN_BITS_POS_EDGE, K.DATA_SIZE_8BITS,
            K.MPSSE_CMD_SET_DATA_BITS_LOWBYTE, K.VALUE_SCLLOW_SDALOW, K.DIRECTION_SCLOUT_SDAOUT,
            K.MPSSE_CMD_DATA_OUT_BITS_NEG_EDGE, K.DATA_SIZE_1BIT, 0x00,
            K.MPSSE_CMD_SET_DATA_BITS_LOWBYTE, K.VALUE_SCLLOW_SDALOW, K.DIRECTION_SCLOUT_SDAIN,
            K.MPSSE_CMD_SEND_IMMEDIATE ]
        else if optionSet options I2C_TRANSFER_OPTIONS_NACK_LAST_BYTE then
          [ K.MPSSE_CMD_SET_DATA_BITS_LOWBYTE, K.VALUE_SCLLOW_SDALOW, K.DIRECTION_SCLOUT_SDAIN,
            K.MPSSE_CMD_DATA_IN_BITS_POS_EDGE, K.DATA_SIZE_8BITS,
            K.MPSSE_CMD_SET_DATA_BITS_LOWBYTE, K.VALUE_SCLLOW_SDALOW, K.DIRECTION_SCLOUT_SDAIN,
            K.MPSSE_CMD_DATA_OUT_BITS_NEG_EDGE, K.DATA_SIZE_1BIT, 0x80,
            K.MPSSE_CMD_SET_DATA_BITS_LOWBYTE, K.VALUE_SCLLOW_SDALOW, K.DIRECTION_SCLOUT_SDAIN,
            K.MPSSE_CMD_SEND_IMMEDIATE ]
        else
          [ K.MPSSE_CMD_SET_DATA_BITS_LOWBYTE, K.VALUE_SCLLOW_SDALOW, K.DIRECTION_SCLOUT_SDAIN,
            K.MPSSE_CMD_DATA_IN_BITS_POS_EDGE, K.DATA_SIZE_8BITS,
            K.MPSSE_CMD_SET_DATA_BITS_LOWBYTE, K.VALUE_SCLLOW_SDALOW, K.DIRECTION_SCLOUT_SDAOUT,
            K.MPSSE_CMD_DATA_OUT_BITS_NEG_EDGE, K.DATA_SIZE_1BIT, 0x00,
            K.MPSSE_CMD_SET_DATA_BITS_LOWBYTE, K.VALUE_SCLLOW_SDALOW, K.DIRECTION_SCLOUT_SDAIN,
            K.MPSSE_CMD_SEND_IMMEDIATE ]) := by
  rw [deviceRead_normal_runs K T s deviceAddress sizeToTransfer buffer sizeTransferred
    options ha hfast hW hR hack]
  simp only [unlock_trace, entry_trace, writesOf_append, writesOf_startOps, writesOf_stopOps,
    writesOf_addressOps, writesOf_readPhases]
  have e0 : writesOf [Event.lock, Event.purge] = [] := rfl
  have e1 : writesOf [Event.unlock] = [] := rfl
  rw [e0, e1, List.append_nil, List.append_nil]
  rw [getElem?_middle
    (writesOf s.trace
      ++ (if optionSet options I2C_TRANSFER_OPTIONS_START_BIT then [startSequence K] else [])
      ++ [write8Cmd K (addressByte deviceAddress true)])
    ((List.range' 0 sizeToTransfer).map
      (fun j => read8Cmd K (readAckArg sizeToTransfer options j)))
    (if optionSet options I2C_TRANSFER_OPTIONS_STOP_BIT then [stopSequence K] else []) i]
  rotate_left
  · simp [List.append_assoc]
  · simpa using hi
  · by_cases hs : optionSet options I2C_TRANSFER_OPTIONS_START_BIT = true <;> simp [hs]
  rw [List.getElem?_map, List.getElem?_range' _ _ hi]
  simp only [Option.map_some', Nat.zero_add, Nat.one_mul, readAckArg_eq _ _ _ hn h32]
  by_cases h : i < sizeToTransfer - 1 <;>
    cases optionSet options I2C_TRANSFER_OPTIONS_NACK_LAST_BYTE <;>
    simp [h, read8Cmd, SEND_ACK, SEND_NACK]

/-- Witness of C8: four bytes read with START, STOP and NACK_LAST_BYTE; the buffers of
the bytes 0, 1 and 2 drive ACK, the buffer of the last byte (index 3) drives NACK. -/
theorem C8_read_ack_policy_witness :
    ((writesOf (I2C_DeviceRead ftdiConsts (scriptedTransport (fun _ => 0)) Chan.fresh 0x50 4
        [0, 0, 0, 0] 99 0x0B).chan.trace)[(writesOf Chan.fresh.trace).length
          + (if optionSet 0x0B I2C_TRANSFER_OPTIONS_START_BIT then 1 else 0) + 1 + 0]?
      = some [0x80, 0x00, 0x11, 0x22, 0x07, 0x80, 0x00, 0x13, 0x13, 0x00, 0x00,
          0x80, 0x00, 0x11, 0x87])
    ∧ ((writesOf (I2C_DeviceRead ftdiConsts (scriptedTransport (fun _ => 0)) Chan.fresh 0x50 4
        [0, 0, 0, 0] 99 0x0B).chan.trace)[(writesOf Chan.fresh.trace).length
          + (if optionSet 0x0B I2C_TRANSFER_OPTIONS_START_BIT then 1 else 0) + 1 + 1]?
      = some [0x80, 0x00, 0x11, 0x22, 0x07, 0x80, 0x00, 0x13, 0x13, 0x00, 0x00,
          0x80, 0x00, 0x11, 0x87])
    ∧ ((writesOf (I2C_DeviceRead ftdiConsts (scriptedTransport (fun _ => 0)) Chan.fresh 0x50 4
        [0, 0, 0, 0] 99 0x0B).chan.trace)[(writesOf Chan.fresh.trace).length
          + (if optionSet 0x0B I2C_TRANSFER_OPTIONS_START_BIT then 1 else 0) + 1 + 2]?
      = some [0x80, 0x00, 0x11, 0x22, 0x07, 0x80, 0x00, 0x13, 0x13, 0x00, 0x00,
          0x80, 0x00, 0x11, 0x87])
    ∧ ((writesOf (I2C_DeviceRead ftdiConsts (scriptedTransport (fun _ => 0)) Chan.fresh 0x50 4
        [0, 0, 0, 0] 99 0x0B).chan.trace)[(writesOf Chan.fresh.trace).length
          + (if optionSet 0x0B I2C_TRANSFER_OPTIONS_START_BIT then 1 else 0) + 1 + 3]?
      = some [0x80, 0x00, 0x11, 0x22, 0x07, 0x80, 0x00, 0x11, 0x13, 0x00, 0x80,
          0x80, 0x00, 0x11, 0x87]) :=
  ⟨C8_read_ack_policy ftdiConsts (scriptedTransport (fun _ => 0)) Chan.fresh 0x50 4
      [0, 0, 0, 0] 99 0x0B 0 (by decide) (by decide) (by decide) (by decide) (by decide)
      (scripted_writes _) (scripted_reads _) rfl,
    C8_read_ack_policy ftdiConsts (scriptedTransport (fun _ => 0)) Chan.fresh 0x50 4
      [0, 0, 0, 0] 99 0x0B 1 (by decide) (by decide) (by decide) (by decide) (by decide)
      (scripted_writes _) (scripted_reads _) rfl,
    C8_read_ack_policy ftdiConsts (scriptedTransport (fun _ => 0)) Chan.fresh 0x50 4
      [0, 0, 0, 0] 99 0x0B 2 (by decide) (by decide) (by decide) (by decide) (by decide)
      (scripted_writes _) (scripted_reads _) rfl,
    C8_read_ack_policy ftdiConsts (scriptedTransport (fun _ => 0)) Chan.fresh 0x50 4
      [0, 0, 0, 0] 99 0x0B 3 (by decide) (by decide) (by decide) (by decide) (by decide)
      (scripted_writes _) (scripted_reads _) rfl⟩

/-! ## Channel initialisation -/

/-- Claim C10: `I2C_InitChannel`.  When the I2C_DISABLE_3PHASE_CLOCKING bit of the
options is clear and `3 * ClockRate` does not overflow, the transport initialiser is
called with the rate `ClockRate * 3 / 2`, and when it succeeds it is followed by
exactly one transport write, of the single byte MPSSE_CMD_ENABLE_3PHASE_CLOCKING (when
it fails nothing follows).  When the bit is set, the initialiser is called with the
rate `ClockRate` and no transport write is made. -/
theorem C10_init_clock_rate (K : MpsseConsts) (T : Transport) (s : Chan)
    (config : ChannelConfig) :
    (optionSet config.Options I2C_DISABLE_3PHASE_CLOCKING = false →
      config.ClockRate * 3 < UINT32_MOD →
      (I2C_InitChannel K T s config).chan.trace
        = s.trace
          ++ [Event.init (config.ClockRate * 3 / 2) config.LatencyTimer config.Options]
          ++ (if T.initReply (config.ClockRate * 3 / 2) config.LatencyTimer config.Options
                = FT_OK
              then [Event.write [K.MPSSE_CMD_ENABLE_3PHASE_CLOCKING]] else []))
    ∧ (optionSet config.Options I2C_DISABLE_3PHASE_CLOCKING = true →
      (I2C_InitChannel K T s config).chan.trace
        = s.trace ++ [Event.init config.ClockRate config.LatencyTimer config.Options]) := by
  constructor
  · intro h3 hov
    have hm : config.ClockRate * 3 % UINT32_MOD = config.ClockRate * 3 :=
      Nat.mod_eq_of_lt hov
    by_cases hok : T.initReply (config.ClockRate * 3 / 2) config.LatencyTimer
        config.Options = FT_OK
    · simp [I2C_InitChannel, FT_InitChannel, FT_Channel_Write, h3, hm, hok, failed]
      split <;> rfl
    · simp [I2C_InitChannel, FT_InitChannel, h3, hm, hok, failed]
  · intro h3
    by_cases hok : T.initReply config.ClockRate config.LatencyTimer config.Options = FT_OK
    · simp [I2C_InitChannel, FT_InitChannel, h3, hok, failed, I2C_SaveChannelConfig]
    · simp [I2C_InitChannel, FT_InitChannel, h3, hok, failed]

/-- Witness of C10: 100 kHz asked for with 3-phase clocking enabled gives 150 kHz and
the enable command; with it disabled the rate stays 100 kHz and nothing is written. -/
theorem C10_init_clock_rate_witness :
    ((I2C_InitChannel ftdiConsts (scriptedTransport (fun _ => 0)) Chan.fresh
        { ClockRate := 100000, LatencyTimer := 16, Options := 0 }).chan.trace
      = [Event.init 150000 16 0, Event.write [0x8C]])
    ∧ ((I2C_InitChannel ftdiConsts (scriptedTransport (fun _ => 0)) Chan.fresh
        { ClockRate := 100000, LatencyTimer := 16, Options := 1 }).chan.trace
      = [Event.init 100000 16 1]) :=
  ⟨(C10_init_clock_rate ftdiConsts (scriptedTransport (fun _ => 0)) Chan.fresh
      { ClockRate := 100000, LatencyTimer := 16, Options := 0 }).1 (by decide) (by decide),
    (C10_init_clock_rate ftdiConsts (scriptedTransport (fun _ => 0)) Chan.fresh
      { ClockRate := 100000, LatencyTimer := 16, Options := 1 }).2 (by decide)⟩

/-! ## Fast path: size of the command buffer -/

theorem startSequence_length (K : MpsseConsts) : (startSequence K).length = 93 := rfl

theorem stopSequence_length (K : MpsseConsts) : (stopSequence K).length = 93 := rfl

theorem fastWritePhase_length (K : MpsseConsts) (data : Nat) :
    (fastWritePhase K data).length = 11 := rfl

theorem fastReadPhase_length (K : MpsseConsts) (n j : Nat) :
    (fastReadPhase K n j).length = 14 := by
  unfold fastReadPhase
  split <;> rfl

theorem fastWriteData_length (K : MpsseConsts) (buffer : List Nat) :
    ∀ (r j : Nat), (fastWriteData K buffer r j).length = 11 * r := by
  intro r
  induction r with
  | zero => intro j; rfl
  | succ r ih =>
    intro j
    rw [fastWriteData, List.length_append, ih, fastWritePhase_length]
    omega

theorem fastReadData_length (K : MpsseConsts) (n : Nat) :
    ∀ (r j : Nat), (fastReadData K n r j).length = 14 * r := by
  intro r
  induction r with
  | zero => intro j; rfl
  | succ r ih =>
    intro j
    rw [fastReadData, List.length_append, ih, fastReadPhase_length]
    omega

theorem fastWriteCmds_length (K : MpsseConsts) (deviceAddress n : Nat) (buffer : List Nat)
    (options : Nat) :
    (fastWriteCmds K deviceAddress n buffer options).length = fastByteCount 11 n options := by
  unfold fastWriteCmds fastByteCount
  cases optionSet options I2C_TRANSFER_OPTIONS_START_BIT <;>
    cases optionSet options I2C_TRANSFER_OPTIONS_NO_ADDRESS <;>
    cases optionSet options I2C_TRANSFER_OPTIONS_STOP_BIT <;>
    simp [fastWriteData_length, startSequence_length, stopSequence_length,
      fastWritePhase_length] <;> omega

theorem fastReadCmds_length (K : MpsseConsts) (deviceAddress n options : Nat) :
    (fastReadCmds K deviceAddress n options).length = fastByteCount 14 n options := by
  unfold fastReadCmds fastByteCount
  cases optionSet options I2C_TRANSFER_OPTIONS_START_BIT <;>
    cases optionSet options I2C_TRANSFER_OPTIONS_NO_ADDRESS <;>
    cases optionSet options I2C_TRANSFER_OPTIONS_STOP_BIT <;>
    simp [fastReadData_length, startSequence_length, stopSequence_length,
      fastWritePhase_length] <;> omega

theorem fastWriteSizeTotal_eq (n options : Nat) :
    fastWriteSizeTotal n options = fastByteCount 11 n options % UINT32_MOD := by
  unfold fastWriteSizeTotal fastByteCount
  cases optionSet options I2C_TRANSFER_OPTIONS_START_BIT <;>
    cases optionSet options I2C_TRANSFER_OPTIONS_NO_ADDRESS <;>
    cases optionSet options I2C_TRANSFER_OPTIONS_STOP_BIT <;>
    simp [START_DURATION_1, START_DURATION_2, STOP_DURATION_1, STOP_DURATION_2,
      STOP_DURATION_3, Nat.mul_comm]

theorem fastReadSizeTotal_eq (n options : Nat) :
    fastReadSizeTotal n options = fastByteCount 14 n options % UINT32_MOD := by
  unfold fastReadSizeTotal fastByteCount
  cases optionSet options I2C_TRANSFER_OPTIONS_START_BIT <;>
    cases optionSet options I2C_TRANSFER_OPTIONS_NO_ADDRESS <;>
    cases optionSet options I2C_TRANSFER_OPTIONS_STOP_BIT <;>
    simp [START_DURATION_1, START_DURATION_2, STOP_DURATION_1, STOP_DURATION_2,
      STOP_DURATION_3, Nat.mul_comm]

theorem storedUpToIndex_length (stores : List Nat) :
    (storedUpToIndex stores).length = stores.length % UINT32_MOD := by
  unfold storedUpToIndex
  rw [List.length_drop]
  have h := Nat.mod_le stores.length UINT32_MOD
  omega

theorem storedUpToIndex_of_lt (stores : List Nat) (h : stores.length < UINT32_MOD) :
    storedUpToIndex stores = stores := by
  unfold storedUpToIndex
  rw [Nat.mod_eq_of_lt h, Nat.sub_self, List.drop_zero]

/-- The allocation size `sizeTotal` of `I2C_FastWrite` is the number of bytes its
serializer stores, reduced modulo `2^32`; that number is
`11*n + (11 if NO_ADDRESS is clear) + (93 if START is set) + (93 if STOP is set)`, and
whenever it is below `2^32` the allocation size equals it exactly. -/
theorem fastWrite_size_matches_stores (K : MpsseConsts) (deviceAddress n : Nat) (buffer : List Nat)
    (options : Nat) :
    (fastWriteCmds K deviceAddress n buffer options).length
        = 11 * n
          + (if optionSet options I2C_TRANSFER_OPTIONS_NO_ADDRESS then 0 else 11)
          + (if optionSet options I2C_TRANSFER_OPTIONS_START_BIT then 93 else 0)
          + (if optionSet options I2C_TRANSFER_OPTIONS_STOP_BIT then 93 else 0)
    ∧ fastWriteSizeTotal n options
        = (fastWriteCmds K deviceAddress n buffer options).length % UINT32_MOD
    ∧ ((fastWriteCmds K deviceAddress n buffer options).length < UINT32_MOD →
        fastWriteSizeTotal n options
          = (fastWriteCmds K deviceAddress n buffer options).length) := by
  rw [fastWriteCmds_length, fastWriteSizeTotal_eq]
  refine ⟨rfl, rfl, ?_⟩
  intro h
  exact Nat.mod_eq_of_lt h

/-- Five bytes with START, STOP and an address phase make 252 bytes, which is also the
allocation size. -/
theorem fastWrite_size_matches_stores_example :
    (fastWriteCmds ftdiConsts 0x50 5 [1, 2, 3, 4, 5] 0x13).length < UINT32_MOD
    ∧ fastWriteSizeTotal 5 0x13 = 252
    ∧ fastWriteSizeTotal 5 0x13 = (fastWriteCmds ftdiConsts 0x50 5 [1, 2, 3, 4, 5] 0x13).length :=
  ⟨by rw [fastWriteCmds_length]; decide, by decide,
    (fastWrite_size_matches_stores ftdiConsts 0x50 5 [1, 2, 3, 4, 5] 0x13).2.2
      (by rw [fastWriteCmds_length]; decide)⟩

/-- The allocation size `sizeTotal` of `I2C_FastRead` is the number
of bytes its serializer stores, reduced modulo `2^32`; that number is
`14*n + (11 if NO_ADDRESS is clear) + (93 if START is set) + (93 if STOP is set)`,
whether a data phase has the ACK or the NACK shape, and whenever it is below `2^32`
the allocation size equals it exactly. -/
theorem fastRead_size_matches_stores (K : MpsseConsts) (deviceAddress n options : Nat) :
    (fastReadCmds K deviceAddress n options).length
        = 14 * n
          + (if optionSet options I2C_TRANSFER_OPTIONS_NO_ADDRESS then 0 else 11)
          + (if optionSet options I2C_TRANSFER_OPTIONS_START_BIT then 93 else 0)
          + (if optionSet options I2C_TRANSFER_OPTIONS_STOP_BIT then 93 else 0)
    ∧ fastReadSizeTotal n options
        = (fastReadCmds K deviceAddress n options).length % UINT32_MOD
    ∧ ((fastReadCmds K deviceAddress n options).length < UINT32_MOD →
        fastReadSizeTotal n options = (fastReadCmds K deviceAddress n options).length) := by
  rw [fastReadCmds_length, fastReadSizeTotal_eq]
  refine ⟨rfl, rfl, ?_⟩
  intro h
  exact Nat.mod_eq_of_lt h

/-- Four bytes with START, STOP and an address phase make 253 bytes, which is also the
allocation size. -/
theorem fastRead_size_matches_stores_example :
    (fastReadCmds ftdiConsts 0x50 4 0x13).length < UINT32_MOD
    ∧ fastReadSizeTotal 4 0x13 = 253
    ∧ fastReadSizeTotal 4 0x13 = (fastReadCmds ftdiConsts 0x50 4 0x13).length :=
  ⟨by rw [fastReadCmds_length]; decide, by decide,
    (fastRead_size_matches_stores ftdiConsts 0x50 4 0x13).2.2
      (by rw [fastReadCmds_length]; decide)⟩

/-! ## Fast path: contents of the command buffer -/

theorem segment_eq {α : Type} (A M B L : List α) (off len : Nat)
    (hL : L = A ++ (M ++ B)) (hoff : off = A.length) (hlen : len = M.length) :
    (L.drop off).take len = M := by
  subst hL hoff hlen
  simp

theorem fastReadData_split (K : MpsseConsts) (n : Nat) :
    ∀ (a b i : Nat),
      fastReadData K n (a + b) i = fastReadData K n a i ++ fastReadData K n b (i + a) := by
  intro a
  induction a with
  | zero => intro b i; simp [fastReadData]
  | succ a ih =>
    intro b i
    have e : a + 1 + b = (a + b) + 1 := by omega
    have e2 : i + 1 + a = i + (a + 1) := by omega
    rw [e, fastReadData, fastReadData, ih b (i + 1), e2, List.append_assoc]

theorem fastReadData_at (K : MpsseConsts) (n r j : Nat) (hj : j < r) :
    fastReadData K n r 0
      = fastReadData K n j 0
        ++ (fastReadPhase K n j ++ fastReadData K n (r - j - 1) (j + 1)) := by
  obtain ⟨m, rfl⟩ : ∃ m, r = j + (1 + m) := ⟨r - j - 1, by omega⟩
  have e : j + (1 + m) - j - 1 = m := by omega
  rw [fastReadData_split K n j (1 + m) 0, fastReadData_split K n 1 m (0 + j), e]
  simp [fastReadData, Nat.add_comm]

theorem fastReadPhase_eq (K : MpsseConsts) (n j : Nat) (h1 : 1 ≤ n) (h2 : n < UINT32_MOD) :
    fastReadPhase K n j
      = if j < n - 1 then
          [ K.MPSSE_CMD_SET_DATA_BITS_LOWBYTE, K.VALUE_SCLLOW_SDALOW, K.DIRECTION_SCLOUT_SDAIN,
            K.MPSSE_CMD_DATA_IN_BITS_POS_EDGE, K.DATA_SIZE_8BITS,
            K.MPSSE_CMD_SET_DATA_BITS_LOWBYTE, K.VALUE_SCLLOW_SDALOW, K.DIRECTION_SCLOUT_SDAOUT,
            K.MPSSE_CMD_DATA_OUT_BITS_NEG_EDGE, K.DATA_SIZE_1BIT, SEND_ACK,
            K.MPSSE_CMD_SET_DATA_BITS_LOWBYTE, K.VALUE_SCLLOW_SDALOW, K.DIRECTION_SCLOUT_SDAIN ]
        else
          [ K.MPSSE_CMD_SET_DATA_BITS_LOWBYTE, K.VALUE_SCLLOW_SDALOW, K.DIRECTION_SCLOUT_SDAIN,
            K.MPSSE_CMD_DATA_IN_BITS_POS_EDGE, K.DATA_SIZE_8BITS,
            K.MPSSE_CMD_SET_DATA_BITS_LOWBYTE, K.VALUE_SCLLOW_SDALOW, K.DIRECTION_SCLOUT_SDAIN,
            K.MPSSE_CMD_DATA_OUT_BITS_NEG_EDGE, K.DATA_SIZE_1BIT, SEND_NACK,
            K.MPSSE_CMD_SET_DATA_BITS_LOWBYTE, K.VALUE_SCLLOW_SDALOW, K.DIRECTION_SCLOUT_SDAIN ] := by
  have e : (n + UINT32_MOD - 1) % UINT32_MOD = n - 1 := by
    have : n + UINT32_MOD - 1 = (n - 1) + UINT32_MOD := by omega
    rw [this, Nat.add_mod_right, Nat.mod_eq_of_lt (by omega)]
  unfold fastReadPhase
  rw [e]
  by_cases h : j < n - 1 <;> simp [h]

/-- Claim C13: in the buffer `I2C_FastRead` serializes for `n ≥ 1` data bytes, the 14
bytes of the data phase of byte `j` (they follow the START block and the address
phase, when present, and the phases of the bytes before `j`) drive ACK (SDA switched
to output with value low, clock-out data SEND_ACK) for every `j < n-1` and NACK (SDA
left as input, clock-out data SEND_NACK) for `j = n-1`, whatever the options word is;
for `n = 1` the single byte is NACKed. -/
theorem C13_fast_read_ack_policy (K : MpsseConsts) (deviceAddress n options j : Nat)
    (h1 : 1 ≤ n) (h32 : n < UINT32_MOD) (hj : j < n) :
    ((fastReadCmds K deviceAddress n options).drop
        ((if optionSet options I2C_TRANSFER_OPTIONS_START_BIT then 93 else 0)
          + (if optionSet options I2C_TRANSFER_OPTIONS_NO_ADDRESS then 0 else 11)
          + 14 * j)).take 14
      = if j < n - 1 then
          [ K.MPSSE_CMD_SET_DATA_BITS_LOWBYTE, K.VALUE_SCLLOW_SDALOW, K.DIRECTION_SCLOUT_SDAIN,
            K.MPSSE_CMD_DATA_IN_BITS_POS_EDGE, K.DATA_SIZE_8BITS,
            K.MPSSE_CMD_SET_DATA_BITS_LOWBYTE, K.VALUE_SCLLOW_SDALOW, K.DIRECTION_SCLOUT_SDAOUT,
            K.MPSSE_CMD_DATA_OUT_BITS_NEG_EDGE, K.DATA_SIZE_1BIT, SEND_ACK,
            K.MPSSE_CMD_SET_DATA_BITS_LOWBYTE, K.VALUE_SCLLOW_SDALOW, K.DIRECTION_SCLOUT_SDAIN ]
        else
          [ K.MPSSE_CMD_SET_DATA_BITS_LOWBYTE, K.VALUE_SCLLOW_SDALOW, K.DIRECTION_SCLOUT_SDAIN,
            K.MPSSE_CMD_DATA_IN_BITS_POS_EDGE, K.DATA_SIZE_8BITS,
            K.MPSSE_CMD_SET_DATA_BITS_LOWBYTE, K.VALUE_SCLLOW_SDALOW, K.DIRECTION_SCLOUT_SDAIN,
            K.MPSSE_CMD_DATA_OUT_BITS_NEG_EDGE, K.DATA_SIZE_1BIT, SEND_NACK,
            K.MPSSE_CMD_SET_DATA_BITS_LOWBYTE, K.VALUE_SCLLOW_SDALOW, K.DIRECTION_SCLOUT_SDAIN ] := by
  rw [← fastReadPhase_eq K n j h1 h32]
  have hd := fastReadData_at K n n j hj
  apply segment_eq
    ((if optionSet options I2C_TRANSFER_OPTIONS_START_BIT then startSequence K else [])
      ++ (if !optionSet options I2C_TRANSFER_OPTIONS_NO_ADDRESS then
            fastWritePhase K (addressByte deviceAddress true) else [])
      ++ fastReadData K n j 0)
    (fastReadPhase K n j)
    (fastReadData K n (n - j - 1) (j + 1)
      ++ (if optionSet options I2C_TRANSFER_OPTIONS_STOP_BIT then stopSequence K else []))
  · unfold fastReadCmds
    rw [hd]
    simp [List.append_assoc]
  · cases optionSet options I2C_TRANSFER_OPTIONS_START_BIT <;>
      cases optionSet options I2C_TRANSFER_OPTIONS_NO_ADDRESS <;>
      simp [fastReadData_length, startSequence_length, fastWritePhase_length]
    all_goals omega
  · rw [fastReadPhase_length]

/-- Witness of C13: a fast read of one byte NACKs it, and in a fast read of four bytes
with START and an address phase the byte of index 2 is ACKed. -/
theorem C13_fast_read_ack_policy_witness :
    (((fastReadCmds ftdiConsts 0x50 1 0x10).drop
        ((if optionSet 0x10 I2C_TRANSFER_OPTIONS_START_BIT then 93 else 0)
          + (if optionSet 0x10 I2C_TRANSFER_OPTIONS_NO_ADDRESS then 0 else 11)
          + 14 * 0)).take 14
      = [0x80, 0x00, 0x11, 0x22, 0x07, 0x80, 0x00, 0x11, 0x13, 0x00, 0x80, 0x80, 0x00, 0x11])
    ∧ (((fastReadCmds ftdiConsts 0x50 4 0x11).drop
        ((if optionSet 0x11 I2C_TRANSFER_OPTIONS_START_BIT then 93 else 0)
          + (if optionSet 0x11 I2C_TRANSFER_OPTIONS_NO_ADDRESS then 0 else 11)
          + 14 * 2)).take 14
      = [0x80, 0x00, 0x11, 0x22, 0x07, 0x80, 0x00, 0x13, 0x13, 0x00, 0x00, 0x80, 0x00, 0x11]) :=
  ⟨C13_fast_read_ack_policy ftdiConsts 0x50 1 0x10 0 (by decide) (by decide) (by decide),
    C13_fast_read_ack_policy ftdiConsts 0x50 4 0x11 2 (by decide) (by decide) (by decide)⟩

theorem fastWriteData_eq_flatMap (K : MpsseConsts) (buffer : List Nat) :
    ∀ (r j : Nat), j + r ≤ buffer.length →
      fastWriteData K buffer r j = ((buffer.drop j).take r).flatMap (fastWritePhase K) := by
  intro r
  induction r with
  | zero => intro j _; simp [fastWriteData]
  | succ r ih =>
    intro j h
    have hj : j < buffer.length := by omega
    rw [fastWriteData, ih (j + 1) (by omega), List.drop_eq_getElem_cons hj,
      List.take_succ_cons, List.flatMap_cons, List.getD_eq_getElem?_getD,
      List.getElem?_eq_getElem hj, Option.getD_some]

theorem addressByte_write (deviceAddress : Nat) (h : deviceAddress ≤ 127) :
    addressByte deviceAddress false = (deviceAddress <<< 1) &&& 0xFE := by
  revert deviceAddress
  decide

theorem writesOf_drop (a b : List Event) :
    (writesOf (a ++ b)).drop (writesOf a).length = writesOf b := by
  simp [writesOf_append]

theorem optionSet_fast_of_bytes (options : Nat)
    (h : optionSet options I2C_TRANSFER_OPTIONS_FAST_TRANSFER_BYTES = true) :
    optionSet options I2C_TRANSFER_OPTIONS_FAST_TRANSFER = true := by
  unfold optionSet at *
  simp only [bne_iff_ne, ne_eq] at *
  intro h0
  apply h
  have e : options &&& I2C_TRANSFER_OPTIONS_FAST_TRANSFER_BYTES
      = (options &&& I2C_TRANSFER_OPTIONS_FAST_TRANSFER)
          &&& I2C_TRANSFER_OPTIONS_FAST_TRANSFER_BYTES := by
    rw [Nat.and_assoc]; rfl
  rw [e, h0]; simp

/-- The writes `I2C_FastWrite` makes, whatever the transport answers: none when the
buffer cannot be allocated, the one write of the serialized buffer otherwise. -/
theorem fastWrite_writes (K : MpsseConsts) (T : Transport) (s : Chan)
    (deviceAddress n : Nat) (buffer : List Nat) (ack : Option (List Nat))
    (sizeTransferred options : Nat)
    (hbytes : optionSet options I2C_TRANSFER_OPTIONS_FAST_TRANSFER_BYTES = true) :
    writesOf (I2C_FastWrite K T s deviceAddress n buffer ack sizeTransferred
        options).chan.trace
      = writesOf s.trace
        ++ (if T.malloc s.nAllocs (fastWriteSizeTotal n options) = true
            then [storedUpToIndex (fastWriteCmds K deviceAddress n buffer options)]
            else []) := by
  unfold I2C_FastWrite
  simp only [hbytes, INFRA_MALLOC, FT_Channel_Write, FT_Channel_Read, Bool.not_true,
    Bool.false_eq_true, if_false]
  by_cases hm : T.malloc s.nAllocs (fastWriteSizeTotal n options) = true
  · simp only [hm, Bool.not_true, Bool.false_eq_true, if_false, if_true]
    repeat' split
    all_goals simp [writesOf_append, writesOf, Event.written]
  · simp [hm]

/-- For an address in [0,127], a data buffer of length `n` whose command bytes number
fewer than `2^32` and options with FAST_TRANSFER_BYTES set: once the command buffer is
allocated `I2C_FastWrite` makes one
transport write, and the bytes it hands over are exactly: the START sequence (iff the
START bit is set), the 11-byte address phase carrying `(address << 1) & 0xFE` (iff
NO_ADDRESS is clear), then for each data byte in index order the 11-byte phase
[set pins low with both pins output, clock out 8 bits of the byte on the negative
edge, set SDA to input, clock in 1 bit on the positive edge], then the STOP sequence
(iff the STOP bit is set); there is no other byte and no send-immediate command. -/
theorem fastWrite_buffer_below_wrap (K : MpsseConsts) (T : Transport) (s : Chan)
    (deviceAddress n : Nat) (buffer : List Nat) (ack : Option (List Nat))
    (sizeTransferred options : Nat)
    (ha : deviceAddress ≤ 127) (hlen : buffer.length = n)
    (hbytes : optionSet options I2C_TRANSFER_OPTIONS_FAST_TRANSFER_BYTES = true)
    (hm : T.malloc s.nAllocs (fastWriteSizeTotal n options) = true)
    (hfit : fastByteCount 11 n options < UINT32_MOD) :
    writesOf (I2C_FastWrite K T s deviceAddress n buffer ack sizeTransferred
        options).chan.trace
      = writesOf s.trace ++
        [ (if optionSet options I2C_TRANSFER_OPTIONS_START_BIT then startSequence K else [])
          ++ (if optionSet options I2C_TRANSFER_OPTIONS_NO_ADDRESS then []
              else
                [ K.MPSSE_CMD_SET_DATA_BITS_LOWBYTE, K.VALUE_SCLLOW_SDALOW,
                  K.DIRECTION_SCLOUT_SDAOUT,
                  K.MPSSE_CMD_DATA_OUT_BITS_NEG_EDGE, K.DATA_SIZE_8BITS,
                  (deviceAddress <<< 1) &&& 0xFE,
                  K.MPSSE_CMD_SET_DATA_BITS_LOWBYTE, K.VALUE_SCLLOW_SDALOW,
                  K.DIRECTION_SCLOUT_SDAIN,
                  K.MPSSE_CMD_DATA_IN_BITS_POS_EDGE, K.DATA_SIZE_1BIT ])
          ++ buffer.flatMap (fun d =>
                [ K.MPSSE_CMD_SET_DATA_BITS_LOWBYTE, K.VALUE_SCLLOW_SDALOW,
                  K.DIRECTION_SCLOUT_SDAOUT,
                  K.MPSSE_CMD_DATA_OUT_BITS_NEG_EDGE, K.DATA_SIZE_8BITS, d,
                  K.MPSSE_CMD_SET_DATA_BITS_LOWBYTE, K.VALUE_SCLLOW_SDALOW,
                  K.DIRECTION_SCLOUT_SDAIN,
                  K.MPSSE_CMD_DATA_IN_BITS_POS_EDGE, K.DATA_SIZE_1BIT ])
          ++ (if optionSet options I2C_TRANSFER_OPTIONS_STOP_BIT then stopSequence K else []) ] := by
  subst hlen
  rw [fastWrite_writes K T s deviceAddress buffer.length buffer ack sizeTransferred options
    hbytes, storedUpToIndex_of_lt _ (by rw [fastWriteCmds_length]; exact hfit)]
  have hd := fastWriteData_eq_flatMap K buffer buffer.length 0 (by omega)
  rw [List.drop_zero, List.take_length] at hd
  simp only [hm, if_true, fastWriteCmds, hd, addressByte_write deviceAddress ha]
  cases optionSet options I2C_TRANSFER_OPTIONS_NO_ADDRESS <;> rfl

/-- Two bytes written to address 0x50 without START or STOP. -/
theorem fastWrite_buffer_below_wrap_example :
    writesOf (I2C_FastWrite ftdiConsts (scriptedTransport (fun _ => 0)) Chan.fresh 0x50 2
        [0xA0, 0xA1] none 99 0x10).chan.trace
      = [[0x80, 0x00, 0x13, 0x13, 0x07, 0xA0, 0x80, 0x00, 0x11, 0x22, 0x00,
          0x80, 0x00, 0x13, 0x13, 0x07, 0xA0, 0x80, 0x00, 0x11, 0x22, 0x00,
          0x80, 0x00, 0x13, 0x13, 0x07, 0xA1, 0x80, 0x00, 0x11, 0x22, 0x00]] :=
  fastWrite_buffer_below_wrap ftdiConsts (scriptedTransport (fun _ => 0)) Chan.fresh 0x50 2
    [0xA0, 0xA1] none 99 0x10 (by decide) rfl (by decide) rfl (by decide)

/-- Claim C15: on the fast path with FAST_TRANSFER_BYTES set, when the allocations and
all transport calls succeed, `I2C_FastWrite` and `I2C_FastRead` perform exactly one
transport write, followed by a read of one byte and a read of `n` bytes when
NO_ADDRESS is clear, and by the read of `n` bytes alone when NO_ADDRESS is set. -/
theorem C15_fast_path_round_trips (K : MpsseConsts) (T : Transport) (s : Chan)
    (deviceAddress n : Nat) (buffer : List Nat) (ack : Option (List Nat))
    (sizeTransferred options : Nat)
    (hbytes : optionSet options I2C_TRANSFER_OPTIONS_FAST_TRANSFER_BYTES = true)
    (hA : AllocationsSucceed T) (hW : WritesSucceed T) (hR : ReadsSucceed T) :
    (I2C_FastWrite K T s deviceAddress n buffer ack sizeTransferred options).chan.trace
      = s.trace
        ++ [Event.write (storedUpToIndex (fastWriteCmds K deviceAddress n buffer options))]
        ++ (if optionSet options I2C_TRANSFER_OPTIONS_NO_ADDRESS then [] else [Event.read 1])
        ++ [Event.read n]
    ∧ (I2C_FastRead K T s deviceAddress n buffer ack sizeTransferred options).chan.trace
      = s.trace ++ [Event.write (storedUpToIndex (fastReadCmds K deviceAddress n options))]
        ++ (if optionSet options I2C_TRANSFER_OPTIONS_NO_ADDRESS then [] else [Event.read 1])
        ++ [Event.read n] := by
  have hr : ∀ k c, (T.readReply k c).status = FT_OK := fun k c => (hR k c).1
  constructor
  · unfold I2C_FastWrite
    cases hna : optionSet options I2C_TRANSFER_OPTIONS_NO_ADDRESS <;>
      simp [hbytes, INFRA_MALLOC, hA _ _, FT_Channel_Write, hW _ _, FT_Channel_Read, hr,
        failed_ok]
  · unfold I2C_FastRead
    cases hna : optionSet options I2C_TRANSFER_OPTIONS_NO_ADDRESS <;>
      simp [hbytes, INFRA_MALLOC, hA _ _, FT_Channel_Write, hW _ _, FT_Channel_Read, hr,
        failed_ok]

theorem scripted_allocations (reply : Nat → Nat) : AllocationsSucceed (scriptedTransport reply) :=
  fun _ _ => rfl

/-- Witness of C15: a fast write of two bytes with the address phase makes one write
and two reads; a fast read of two bytes with NO_ADDRESS makes one write and one read. -/
theorem C15_fast_path_round_trips_witness :
    (I2C_FastWrite ftdiConsts (scriptedTransport (fun _ => 0)) Chan.fresh 0x50 2
        [0xA0, 0xA1] none 99 0x10).chan.trace
      = Chan.fresh.trace
        ++ [Event.write (storedUpToIndex (fastWriteCmds ftdiConsts 0x50 2 [0xA0, 0xA1] 0x10))]
        ++ (if optionSet 0x10 I2C_TRANSFER_OPTIONS_NO_ADDRESS then [] else [Event.read 1])
        ++ [Event.read 2]
    ∧ (I2C_FastRead ftdiConsts (scriptedTransport (fun _ => 0)) Chan.fresh 0x50 2
        [0, 0] none 99 0x50).chan.trace
      = Chan.fresh.trace
        ++ [Event.write (storedUpToIndex (fastReadCmds ftdiConsts 0x50 2 0x50))]
        ++ (if optionSet 0x50 I2C_TRANSFER_OPTIONS_NO_ADDRESS then [] else [Event.read 1])
        ++ [Event.read 2] :=
  ⟨(C15_fast_path_round_trips ftdiConsts (scriptedTransport (fun _ => 0)) Chan.fresh 0x50 2
      [0xA0, 0xA1] none 99 0x10 (by decide) (scripted_allocations _) (scripted_writes _)
      (scripted_reads _)).1,
    (C15_fast_path_round_trips ftdiConsts (scriptedTransport (fun _ => 0)) Chan.fresh 0x50 2
      [0, 0] none 99 0x50 (by decide) (scripted_allocations _) (scripted_writes _)
      (scripted_reads _)).2⟩

/-- The writes a fast `I2C_DeviceWrite` makes, whatever the transport answers: none
when the address is above 127 or the buffer cannot be allocated, the one write of
the serialized buffer otherwise. -/
theorem deviceWrite_fast_writes (K : MpsseConsts) (T : Transport) (s : Chan)
    (deviceAddress n : Nat) (buffer : List Nat) (sizeTransferred options : Nat)
    (hbytes : optionSet options I2C_TRANSFER_OPTIONS_FAST_TRANSFER_BYTES = true) :
    writesSince s (I2C_DeviceWrite K T s deviceAddress n buffer sizeTransferred options).chan
      = if deviceAddress ≤ 127 ∧ T.malloc s.nAllocs (fastWriteSizeTotal n options) = true
        then [storedUpToIndex (fastWriteCmds K deviceAddress n buffer options)]
        else [] := by
  have hf := optionSet_fast_of_bytes options hbytes
  unfold writesSince I2C_DeviceWrite
  by_cases ha : deviceAddress > 127
  · have hna : ¬ deviceAddress ≤ 127 := by omega
    simp [ha, hna]
  · have hna : deviceAddress ≤ 127 := by omega
    simp only [ha, hf, if_true, if_false, unlock_trace, writesOf_append,
      fastWrite_writes K T _ deviceAddress n buffer none sizeTransferred options hbytes]
    have e : (Mid_PurgeDevice (LOCK_CHANNEL s)).trace = s.trace ++ [Event.lock, Event.purge] := by
      simp [Mid_PurgeDevice, LOCK_CHANNEL]
    have e2 : (Mid_PurgeDevice (LOCK_CHANNEL s)).nAllocs = s.nAllocs := rfl
    rw [e, e2, writesOf_append]
    by_cases hm : T.malloc s.nAllocs (fastWriteSizeTotal n options) = true <;>
      simp [hm, hna, writesOf, Event.written]

theorem fastWriteCmds_congr (K : MpsseConsts) (deviceAddress n : Nat) (buffer : List Nat)
    (o1 o2 : Nat)
    (hS : optionSet o1 I2C_TRANSFER_OPTIONS_START_BIT
      = optionSet o2 I2C_TRANSFER_OPTIONS_START_BIT)
    (hP : optionSet o1 I2C_TRANSFER_OPTIONS_STOP_BIT
      = optionSet o2 I2C_TRANSFER_OPTIONS_STOP_BIT)
    (hN : optionSet o1 I2C_TRANSFER_OPTIONS_NO_ADDRESS
      = optionSet o2 I2C_TRANSFER_OPTIONS_NO_ADDRESS) :
    fastWriteCmds K deviceAddress n buffer o1 = fastWriteCmds K deviceAddress n buffer o2 := by
  unfold fastWriteCmds
  rw [hS, hP, hN]

/-- Claim C16: two runs of `I2C_DeviceWrite` with FAST_TRANSFER_BYTES set that agree on
the address, the data, the length and the START, STOP and NO_ADDRESS bits emit
byte-identical command buffers, whatever the other option bits (BREAK_ON_NACK and
NACK_LAST_BYTE among them), the channel states and the transports of the two runs
are: any buffer written in one run equals any buffer written in the other, and when
the address is in [0,127] and the allocation succeeds in both runs, each run writes
exactly one buffer and the two runs write the same. -/
theorem C16_fast_write_buffer_determined (K : MpsseConsts) (T1 T2 : Transport) (s1 s2 : Chan)
    (deviceAddress n : Nat) (buffer : List Nat) (st1 st2 o1 o2 : Nat)
    (h1 : optionSet o1 I2C_TRANSFER_OPTIONS_FAST_TRANSFER_BYTES = true)
    (h2 : optionSet o2 I2C_TRANSFER_OPTIONS_FAST_TRANSFER_BYTES = true)
    (hS : optionSet o1 I2C_TRANSFER_OPTIONS_START_BIT
      = optionSet o2 I2C_TRANSFER_OPTIONS_START_BIT)
    (hP : optionSet o1 I2C_TRANSFER_OPTIONS_STOP_BIT
      = optionSet o2 I2C_TRANSFER_OPTIONS_STOP_BIT)
    (hN : optionSet o1 I2C_TRANSFER_OPTIONS_NO_ADDRESS
      = optionSet o2 I2C_TRANSFER_OPTIONS_NO_ADDRESS) :
    (∀ w1 w2,
      w1 ∈ writesSince s1 (I2C_DeviceWrite K T1 s1 deviceAddress n buffer st1 o1).chan →
      w2 ∈ writesSince s2 (I2C_DeviceWrite K T2 s2 deviceAddress n buffer st2 o2).chan →
      w1 = w2)
    ∧ (deviceAddress ≤ 127 →
        T1.malloc s1.nAllocs (fastWriteSizeTotal n o1) = true →
        T2.malloc s2.nAllocs (fastWriteSizeTotal n o2) = true →
        writesSince s1 (I2C_DeviceWrite K T1 s1 deviceAddress n buffer st1 o1).chan
          = writesSince s2 (I2C_DeviceWrite K T2 s2 deviceAddress n buffer st2 o2).chan
        ∧ (writesSince s1
            (I2C_DeviceWrite K T1 s1 deviceAddress n buffer st1 o1).chan).length = 1) := by
  rw [deviceWrite_fast_writes K T1 s1 deviceAddress n buffer st1 o1 h1,
    deviceWrite_fast_writes K T2 s2 deviceAddress n buffer st2 o2 h2,
    fastWriteCmds_congr K deviceAddress n buffer o1 o2 hS hP hN]
  constructor
  · intro w1 w2 hw1 hw2
    split at hw1 <;> split at hw2 <;> simp_all
  · intro ha hm1 hm2
    simp [ha, hm1, hm2]

/-- Witness of C16: one run with BREAK_ON_NACK and NACK_LAST_BYTE on a transport that
acknowledges, the other without them on a transport that does not. -/
theorem C16_fast_write_buffer_determined_witness :
    writesSince Chan.fresh
        (I2C_DeviceWrite ftdiConsts (scriptedTransport (fun _ => 0)) Chan.fresh 0x50 2
          [0xA0, 0xA1] 0 0x1F).chan
      = writesSince Chan.fresh
        (I2C_DeviceWrite ftdiConsts (scriptedTransport (fun _ => 1)) Chan.fresh 0x50 2
          [0xA0, 0xA1] 7 0x13).chan
    ∧ (writesSince Chan.fresh
        (I2C_DeviceWrite ftdiConsts (scriptedTransport (fun _ => 0)) Chan.fresh 0x50 2
          [0xA0, 0xA1] 0 0x1F).chan).length = 1 :=
  (C16_fast_write_buffer_determined ftdiConsts (scriptedTransport (fun _ => 0))
    (scriptedTransport (fun _ => 1)) Chan.fresh Chan.fresh 0x50 2 [0xA0, 0xA1] 0 7 0x1F 0x13
    (by decide) (by decide) (by decide) (by decide) (by decide)).2 (by decide) rfl rfl

/-! ## Transport errors and the channel lock: what the code does -/

set_option maxRecDepth 4096 in
/-- Evaluation for C17: a normal write of one byte with START and STOP on a transport
whose first write (the START sequence) reports success with 0 of 93 bytes
transferred returns `FT_OK` and goes on with the address phase, the data phase and
the STOP sequence; a fast write whose single write (the batched buffer) is short in
the same way returns `FT_OK` and goes on with the two reads. -/
theorem C17_short_write_not_detected :
    (I2C_DeviceWrite ftdiConsts (shortWriteTransport 0 (fun _ => 0)) Chan.fresh 0x50 1
        [0x11] 99 0x03).status = FT_OK
    ∧ (I2C_DeviceWrite ftdiConsts (shortWriteTransport 0 (fun _ => 0)) Chan.fresh 0x50 1
        [0x11] 99 0x03).chan.trace
      = [Event.lock, Event.purge, Event.write (startSequence ftdiConsts),
          Event.write (write8Cmd ftdiConsts 0xA0), Event.read 1,
          Event.write (write8Cmd ftdiConsts 0x11), Event.read 1,
          Event.write (stopSequence ftdiConsts), Event.unlock]
    ∧ (I2C_DeviceWrite ftdiConsts (shortWriteTransport 0 (fun _ => 0)) Chan.fresh 0x50 1
        [0x11] 99 0x13).status = FT_OK
    ∧ (I2C_DeviceWrite ftdiConsts (shortWriteTransport 0 (fun _ => 0)) Chan.fresh 0x50 1
        [0x11] 99 0x13).chan.trace
      = [Event.lock, Event.purge,
          Event.write (fastWriteCmds ftdiConsts 0x50 1 [0x11] 0x13),
          Event.read 1, Event.read 1, Event.unlock] := by
  decide

/-- Evaluation for C18: a normal transfer of one byte with START and STOP, the
address acknowledged, on a transport whose third write (the command of data byte 0,
the last byte) is short: `I2C_DeviceWrite` and `I2C_DeviceRead` both send the STOP
sequence and return `FT_OK`. -/
theorem C18_last_byte_failure_masked :
    (I2C_DeviceWrite ftdiConsts (shortWriteTransport 2 (fun _ => 0)) Chan.fresh 0x50 1
        [0x11] 99 0x03).status = FT_OK
    ∧ (I2C_DeviceWrite ftdiConsts (shortWriteTransport 2 (fun _ => 0)) Chan.fresh 0x50 1
        [0x11] 99 0x03).chan.trace
      = [Event.lock, Event.purge, Event.write (startSequence ftdiConsts),
          Event.write (write8Cmd ftdiConsts 0xA0), Event.read 1,
          Event.write (write8Cmd ftdiConsts 0x11),
          Event.write (stopSequence ftdiConsts), Event.unlock]
    ∧ (I2C_DeviceRead ftdiConsts (shortWriteTransport 2 (fun _ => 0)) Chan.fresh 0x50 1
        [0] 99 0x03).status = FT_OK
    ∧ (I2C_DeviceRead ftdiConsts (shortWriteTransport 2 (fun _ => 0)) Chan.fresh 0x50 1
        [0] 99 0x03).chan.trace
      = [Event.lock, Event.purge, Event.write (startSequence ftdiConsts),
          Event.write (write8Cmd ftdiConsts 0xA1), Event.read 1,
          Event.write (read8Cmd ftdiConsts true),
          Event.write (stopSequence ftdiConsts), Event.unlock] := by
  decide

/-- Evaluation for C19: a normal write of three bytes, the address acknowledged, on a
transport whose third write (the command of data byte 1) is short: byte 0 alone
completed, the call returns `FT_IO_ERROR` and `*sizeTransferred` is 2. -/
theorem C19_count_after_failure :
    (I2C_DeviceWrite ftdiConsts (shortWriteTransport 2 (fun _ => 0)) Chan.fresh 0x50 3
        [0x11, 0x22, 0x33] 99 0x00).status = FT_IO_ERROR
    ∧ (I2C_DeviceWrite ftdiConsts (shortWriteTransport 2 (fun _ => 0)) Chan.fresh 0x50 3
        [0x11, 0x22, 0x33] 99 0x00).sizeTransferred = 2
    ∧ (I2C_DeviceWrite ftdiConsts (shortWriteTransport 2 (fun _ => 0)) Chan.fresh 0x50 3
        [0x11, 0x22, 0x33] 99 0x00).chan.trace
      = [Event.lock, Event.purge,
          Event.write (write8Cmd ftdiConsts 0xA0), Event.read 1,
          Event.write (write8Cmd ftdiConsts 0x11), Event.read 1,
          Event.write (write8Cmd ftdiConsts 0x22), Event.unlock] := by
  decide

/-- Evaluation for C20: a normal write of one byte with BREAK_ON_NACK, the address
acknowledged and data byte 0 not acknowledged, returns `FT_FAILED_TO_WRITE_DEVICE`
with the channel lock still held: the trace has the lock and no unlock. -/
theorem C20_lock_held_after_break :
    Chan.fresh.locked = false
    ∧ (I2C_DeviceWrite ftdiConsts (scriptedTransport (fun k => if k = 1 then 1 else 0))
        Chan.fresh 0x50 1 [0x11] 99 0x04).status = FT_FAILED_TO_WRITE_DEVICE
    ∧ (I2C_DeviceWrite ftdiConsts (scriptedTransport (fun k => if k = 1 then 1 else 0))
        Chan.fresh 0x50 1 [0x11] 99 0x04).chan.locked = true
    ∧ (I2C_DeviceWrite ftdiConsts (scriptedTransport (fun k => if k = 1 then 1 else 0))
        Chan.fresh 0x50 1 [0x11] 99 0x04).chan.trace
      = [Event.lock, Event.purge,
          Event.write (write8Cmd ftdiConsts 0xA0), Event.read 1,
          Event.write (write8Cmd ftdiConsts 0x11), Event.read 1] := by
  decide

/-! ## Bus conditions: the START and STOP sequences -/

/-- Claim C28: `I2C_Start` makes exactly one transport write, of exactly 93 bytes, which
are 31 three-byte set-pin-state commands in this order: 10 commands with value
SCL-high/SDA-high (SDA being an input), then 20 commands with value SCL-high/SDA-low
and both pins output, then 1 command with value SCL-low/SDA-low and both pins output.
SDA falls while SCL is still high, and SCL is low in the last command only. -/
theorem C28_start_sequence (K : MpsseConsts) (T : Transport) (s : Chan) :
    (I2C_Start K T s).2.trace = s.trace ++ [Event.write (startSequence K)]
    ∧ (startSequence K).length = 93
    ∧ startSequence K
      = (List.replicate 10
            [K.MPSSE_CMD_SET_DATA_BITS_LOWBYTE, K.VALUE_SCLHIGH_SDAHIGH,
              K.DIRECTION_SCLOUT_SDAIN]
          ++ List.replicate 20
            [K.MPSSE_CMD_SET_DATA_BITS_LOWBYTE, K.VALUE_SCLHIGH_SDALOW,
              K.DIRECTION_SCLOUT_SDAOUT]
          ++ [[K.MPSSE_CMD_SET_DATA_BITS_LOWBYTE, K.VALUE_SCLLOW_SDALOW,
              K.DIRECTION_SCLOUT_SDAOUT]]).flatten := by
  refine ⟨?_, rfl, rfl⟩
  simp [I2C_Start, FT_Channel_Write]

/-- Claim C30: `I2C_Stop` makes exactly one transport write, of exactly 93 bytes, which
are 31 three-byte set-pin-state commands in this order: 10 with SCL-low/SDA-low and
both pins output, 10 with SCL-high/SDA-low and both pins output, 10 with
SCL-high/SDA-high and SDA as input, and a last command whose direction operand is the
both-pins-input (tri-state) mask.  SCL rises before SDA and the tri-state command is
the last one. -/
theorem C30_stop_sequence (K : MpsseConsts) (T : Transport) (s : Chan) :
    (I2C_Stop K T s).2.trace = s.trace ++ [Event.write (stopSequence K)]
    ∧ (stopSequence K).length = 93
    ∧ stopSequence K
      = (List.replicate 10
            [K.MPSSE_CMD_SET_DATA_BITS_LOWBYTE, K.VALUE_SCLLOW_SDALOW,
              K.DIRECTION_SCLOUT_SDAOUT]
          ++ List.replicate 10
            [K.MPSSE_CMD_SET_DATA_BITS_LOWBYTE, K.VALUE_SCLHIGH_SDALOW,
              K.DIRECTION_SCLOUT_SDAOUT]
          ++ List.replicate 10
            [K.MPSSE_CMD_SET_DATA_BITS_LOWBYTE, K.VALUE_SCLHIGH_SDAHIGH,
              K.DIRECTION_SCLOUT_SDAIN]
          ++ [[K.MPSSE_CMD_SET_DATA_BITS_LOWBYTE, K.VALUE_SCLHIGH_SDAHIGH,
              K.DIRECTION_SCLIN_SDAIN]]).flatten := by
  refine ⟨?_, rfl, rfl⟩
  simp [I2C_Stop, FT_Channel_Write]

/-- Counterexample to C29 as stated: with the masks 0x10 (both pins input) and 0x11 (SCL
output, SDA input), the direction operand of the first command of the START sequence
is 0x11, not the both-pins-input mask. -/
theorem C29_counterexample :
    (startSequence ftdiConsts)[2]? = some 0x11
    ∧ ftdiConsts.DIRECTION_SCLIN_SDAIN = 0x10
    ∧ (startSequence ftdiConsts)[2]? ≠ some ftdiConsts.DIRECTION_SCLIN_SDAIN := by
  decide

theorem startSequence_direction (K : MpsseConsts) (j : Nat) (hj : j < 10) :
    (startSequence K)[3 * j + 1]? = some K.VALUE_SCLHIGH_SDAHIGH
    ∧ (startSequence K)[3 * j + 2]? = some K.DIRECTION_SCLOUT_SDAIN := by
  interval_cases j <;> exact ⟨rfl, rfl⟩

/-- Claim C29, amended: in each of the first 10 set-pin-state commands of the START
sequence, in `I2C_Start` and in the START block of the two fast-path buffers alike,
the value operand is SCL-high/SDA-high and the direction operand is the mask
DIRECTION_SCLOUT_SDAIN: SDA is an input, SCL stays an output. -/
theorem C29_start_dwell_direction (K : MpsseConsts) (deviceAddress n : Nat)
    (buffer : List Nat) (options j : Nat) (hj : j < 10) :
    (startSequence K)[3 * j + 1]? = some K.VALUE_SCLHIGH_SDAHIGH
    ∧ (startSequence K)[3 * j + 2]? = some K.DIRECTION_SCLOUT_SDAIN
    ∧ (optionSet options I2C_TRANSFER_OPTIONS_START_BIT = true →
        (fastWriteCmds K deviceAddress n buffer options)[3 * j + 2]?
          = some K.DIRECTION_SCLOUT_SDAIN
        ∧ (fastReadCmds K deviceAddress n options)[3 * j + 2]?
          = some K.DIRECTION_SCLOUT_SDAIN) := by
  have h := startSequence_direction K j hj
  refine ⟨h.1, h.2, ?_⟩
  intro hs
  have hlt : 3 * j + 2 < (startSequence K).length := by
    rw [startSequence_length]; omega
  constructor
  · unfold fastWriteCmds
    simp only [hs, if_true, List.append_assoc]
    rw [List.getElem?_append_left hlt]
    exact h.2
  · unfold fastReadCmds
    simp only [hs, if_true, List.append_assoc]
    rw [List.getElem?_append_left hlt]
    exact h.2

/-- Witness of the amended C29: the last command of the first dwell (index 9), in
`I2C_Start` and in a fast write and a fast read with START. -/
theorem C29_start_dwell_direction_witness :
    (startSequence ftdiConsts)[3 * 9 + 1]? = some 0x03
    ∧ (startSequence ftdiConsts)[3 * 9 + 2]? = some 0x11
    ∧ (fastWriteCmds ftdiConsts 0x50 1 [0x11] 0x11)[3 * 9 + 2]? = some 0x11
    ∧ (fastReadCmds ftdiConsts 0x50 1 0x11)[3 * 9 + 2]? = some 0x11 :=
  ⟨(C29_start_dwell_direction ftdiConsts 0x50 1 [0x11] 0x11 9 (by decide)).1,
    (C29_start_dwell_direction ftdiConsts 0x50 1 [0x11] 0x11 9 (by decide)).2.1,
    (C29_start_dwell_direction ftdiConsts 0x50 1 [0x11] 0x11 9 (by decide)).2.2 (by decide)⟩

/-! ## Address byte, configuration, failures of the byte primitives -/

theorem addressByte_eq (deviceAddress : Nat) (direction : Bool) (h : deviceAddress ≤ 127) :
    addressByte deviceAddress direction = 2 * deviceAddress + direction.toNat := by
  cases direction <;> (revert deviceAddress; decide)

theorem addressByte_decode (deviceAddress : Nat) (direction : Bool)
    (h : deviceAddress ≤ 127) :
    (2 * deviceAddress + direction.toNat) >>> 1 = deviceAddress
    ∧ (2 * deviceAddress + direction.toNat) &&& 1 = direction.toNat := by
  cases direction <;> (revert deviceAddress; decide)

/-- Claim C27: for every address `a` in [0,127] and direction `d` (1 = read, 0 = write)
the address byte is `2*a + d`, so that shifting it right by one gives `a` and its low
bit is `d`.  `I2C_WriteDeviceAddress` hands exactly this byte to the write-and-get-ack
primitive and returns that primitive's status, ack value and channel unchanged;
the address phase serialized by `I2C_FastWrite` carries `2*a` and the one serialized
by `I2C_FastRead` carries `2*a + 1`. -/
theorem C27_address_byte (K : MpsseConsts) (T : Transport) (s : Chan)
    (deviceAddress n : Nat) (buffer : List Nat) (options : Nat) (direction ack : Bool)
    (ha : deviceAddress ≤ 127) :
    addressByte deviceAddress direction = 2 * deviceAddress + direction.toNat
    ∧ (2 * deviceAddress + direction.toNat) >>> 1 = deviceAddress
    ∧ (2 * deviceAddress + direction.toNat) &&& 1 = direction.toNat
    ∧ I2C_WriteDeviceAddress K T s deviceAddress direction false ack
        = I2C_Write8bitsAndGetAck K T s (2 * deviceAddress + direction.toNat) ack
    ∧ (optionSet options I2C_TRANSFER_OPTIONS_NO_ADDRESS = false →
        fastWriteCmds K deviceAddress n buffer options
          = (if optionSet options I2C_TRANSFER_OPTIONS_START_BIT then startSequence K else [])
            ++ [ K.MPSSE_CMD_SET_DATA_BITS_LOWBYTE, K.VALUE_SCLLOW_SDALOW,
                 K.DIRECTION_SCLOUT_SDAOUT,
                 K.MPSSE_CMD_DATA_OUT_BITS_NEG_EDGE, K.DATA_SIZE_8BITS, 2 * deviceAddress,
                 K.MPSSE_CMD_SET_DATA_BITS_LOWBYTE, K.VALUE_SCLLOW_SDALOW,
                 K.DIRECTION_SCLOUT_SDAIN,
                 K.MPSSE_CMD_DATA_IN_BITS_POS_EDGE, K.DATA_SIZE_1BIT ]
            ++ fastWriteData K buffer n 0
            ++ (if optionSet options I2C_TRANSFER_OPTIONS_STOP_BIT then stopSequence K else [])
        ∧ fastReadCmds K deviceAddress n options
          = (if optionSet options I2C_TRANSFER_OPTIONS_START_BIT then startSequence K else [])
            ++ [ K.MPSSE_CMD_SET_DATA_BITS_LOWBYTE, K.VALUE_SCLLOW_SDALOW,
                 K.DIRECTION_SCLOUT_SDAOUT,
                 K.MPSSE_CMD_DATA_OUT_BITS_NEG_EDGE, K.DATA_SIZE_8BITS, 2 * deviceAddress + 1,
                 K.MPSSE_CMD_SET_DATA_BITS_LOWBYTE, K.VALUE_SCLLOW_SDALOW,
                 K.DIRECTION_SCLOUT_SDAIN,
                 K.MPSSE_CMD_DATA_IN_BITS_POS_EDGE, K.DATA_SIZE_1BIT ]
            ++ fastReadData K n n 0
            ++ (if optionSet options I2C_TRANSFER_OPTIONS_STOP_BIT
                then stopSequence K else [])) := by
  have hd := addressByte_decode deviceAddress direction ha
  refine ⟨addressByte_eq deviceAddress direction ha, hd.1, hd.2, ?_, ?_⟩
  · simp [I2C_WriteDeviceAddress, addressByte_eq deviceAddress direction ha]
  · intro hna
    have hw := addressByte_eq deviceAddress false ha
    have hr := addressByte_eq deviceAddress true ha
    simp only [Bool.toNat_false, Bool.toNat_true, Nat.add_zero] at hw hr
    constructor
    · simp [fastWriteCmds, hna, hw, fastWritePhase]
    · simp [fastReadCmds, hna, hr, fastWritePhase]

/-- Witness of C27: address 0x50 gives 0xA0 for a write and 0xA1 for a read. -/
theorem C27_address_byte_witness :
    addressByte 0x50 true = 2 * 0x50 + true.toNat
    ∧ (2 * 0x50 + true.toNat) >>> 1 = 0x50
    ∧ (2 * 0x50 + true.toNat) &&& 1 = true.toNat
    ∧ I2C_WriteDeviceAddress ftdiConsts (scriptedTransport (fun _ => 0)) Chan.fresh 0x50
        true false false
      = I2C_Write8bitsAndGetAck ftdiConsts (scriptedTransport (fun _ => 0)) Chan.fresh
        (2 * 0x50 + true.toNat) false :=
  ⟨(C27_address_byte ftdiConsts (scriptedTransport (fun _ => 0)) Chan.fresh 0x50 1 [0x11]
      0x10 true false (by decide)).1,
    (C27_address_byte ftdiConsts (scriptedTransport (fun _ => 0)) Chan.fresh 0x50 1 [0x11]
      0x10 true false (by decide)).2.1,
    (C27_address_byte ftdiConsts (scriptedTransport (fun _ => 0)) Chan.fresh 0x50 1 [0x11]
      0x10 true false (by decide)).2.2.1,
    (C27_address_byte ftdiConsts (scriptedTransport (fun _ => 0)) Chan.fresh 0x50 1 [0x11]
      0x10 true false (by decide)).2.2.2.1⟩

/-- Counterexample to C25 as stated: after `I2C_InitChannel` with 100 kHz asked for and
3-phase clocking enabled, the configuration object holds the clock rate 150000, not
the rate that was asked for. -/
theorem C25_counterexample :
    (I2C_InitChannel ftdiConsts (scriptedTransport (fun _ => 0)) Chan.fresh
        { ClockRate := 100000, LatencyTimer := 16, Options := 0 }).status = FT_OK
    ∧ (I2C_InitChannel ftdiConsts (scriptedTransport (fun _ => 0)) Chan.fresh
        { ClockRate := 100000, LatencyTimer := 16, Options := 0 }).config.ClockRate = 150000
    ∧ (I2C_InitChannel ftdiConsts (scriptedTransport (fun _ => 0)) Chan.fresh
        { ClockRate := 100000, LatencyTimer := 16, Options := 0 }).config.ClockRate
      ≠ 100000 := by
  decide

/-- Claim C25, amended: for every configuration with 3-phase clocking enabled, after
`I2C_InitChannel` returns (with whatever status) the configuration object of the
caller, which is also the one handed to `I2C_SaveChannelConfig`, has its ClockRate
replaced by the adjusted rate `ClockRate * 3 / 2` (the product taken in `uint32`
arithmetic); LatencyTimer and Options are unchanged. -/
theorem C25_config_after_init (K : MpsseConsts) (T : Transport) (s : Chan)
    (config : ChannelConfig)
    (h3 : optionSet config.Options I2C_DISABLE_3PHASE_CLOCKING = false) :
    (I2C_InitChannel K T s config).config.ClockRate
      = (config.ClockRate * 3 % UINT32_MOD) / 2
    ∧ (config.ClockRate * 3 < UINT32_MOD →
        (I2C_InitChannel K T s config).config.ClockRate = config.ClockRate * 3 / 2)
    ∧ (I2C_InitChannel K T s config).config.LatencyTimer = config.LatencyTimer
    ∧ (I2C_InitChannel K T s config).config.Options = config.Options := by
  have hc : (I2C_InitChannel K T s config).config
      = { ClockRate := (config.ClockRate * 3 % UINT32_MOD) / 2,
          LatencyTimer := config.LatencyTimer, Options := config.Options } := by
    unfold I2C_InitChannel
    simp only [h3, Bool.not_false, if_true]
    repeat' split
    all_goals rfl
  rw [hc]
  refine ⟨rfl, ?_, rfl, rfl⟩
  intro hov
  simp [Nat.mod_eq_of_lt hov]

/-- Witness of the amended C25: 100 kHz with 3-phase clocking enabled. -/
theorem C25_config_after_init_witness :
    (I2C_InitChannel ftdiConsts (scriptedTransport (fun _ => 0)) Chan.fresh
        { ClockRate := 100000, LatencyTimer := 16, Options := 0 }).config.ClockRate
      = 100000 * 3 / 2
    ∧ (I2C_InitChannel ftdiConsts (scriptedTransport (fun _ => 0)) Chan.fresh
        { ClockRate := 100000, LatencyTimer := 16, Options := 0 }).config.LatencyTimer = 16
    ∧ (I2C_InitChannel ftdiConsts (scriptedTransport (fun _ => 0)) Chan.fresh
        { ClockRate := 100000, LatencyTimer := 16, Options := 0 }).config.Options = 0 :=
  ⟨(C25_config_after_init ftdiConsts (scriptedTransport (fun _ => 0)) Chan.fresh
      { ClockRate := 100000, LatencyTimer := 16, Options := 0 } (by decide)).2.1 (by decide),
    (C25_config_after_init ftdiConsts (scriptedTransport (fun _ => 0)) Chan.fresh
      { ClockRate := 100000, LatencyTimer := 16, Options := 0 } (by decide)).2.2.1,
    (C25_config_after_init ftdiConsts (scriptedTransport (fun _ => 0)) Chan.fresh
      { ClockRate := 100000, LatencyTimer := 16, Options := 0 } (by decide)).2.2.2⟩

/-- Claim C24: on the fast path with FAST_TRANSFER_BYTES set, when the allocations and
all transport calls succeed, `I2C_FastWrite` and `I2C_FastRead`, and with them
`I2C_DeviceWrite` and `I2C_DeviceRead` for an address in [0,127], return `FT_OK` with
`*sizeTransferred` equal to the length, whatever bytes the transport delivers as
address and data replies; in particular they return neither `FT_DEVICE_NOT_FOUND`
nor `FT_FAILED_TO_WRITE_DEVICE`. -/
theorem C24_fast_path_ignores_acks (K : MpsseConsts) (T : Transport) (s : Chan)
    (deviceAddress n : Nat) (buffer : List Nat) (ack : Option (List Nat))
    (sizeTransferred options : Nat)
    (hbytes : optionSet options I2C_TRANSFER_OPTIONS_FAST_TRANSFER_BYTES = true)
    (hA : AllocationsSucceed T) (hW : WritesSucceed T) (hR : ReadsSucceed T) :
    (I2C_FastWrite K T s deviceAddress n buffer ack sizeTransferred options).status = FT_OK
    ∧ (I2C_FastWrite K T s deviceAddress n buffer ack sizeTransferred
        options).sizeTransferred = n
    ∧ (I2C_FastRead K T s deviceAddress n buffer ack sizeTransferred options).status = FT_OK
    ∧ (I2C_FastRead K T s deviceAddress n buffer ack sizeTransferred
        options).sizeTransferred = n
    ∧ (deviceAddress ≤ 127 →
        (I2C_DeviceWrite K T s deviceAddress n buffer sizeTransferred options).status = FT_OK
        ∧ (I2C_DeviceWrite K T s deviceAddress n buffer sizeTransferred
            options).sizeTransferred = n
        ∧ (I2C_DeviceRead K T s deviceAddress n buffer sizeTransferred options).status
            = FT_OK
        ∧ (I2C_DeviceRead K T s deviceAddress n buffer sizeTransferred
            options).sizeTransferred = n) := by
  have hr : ∀ k c, (T.readReply k c).status = FT_OK := fun k c => (hR k c).1
  have hw : ∀ (s0 : Chan) (a0 : Option (List Nat)) (st0 : Nat),
      (I2C_FastWrite K T s0 deviceAddress n buffer a0 st0 options).status = FT_OK
      ∧ (I2C_FastWrite K T s0 deviceAddress n buffer a0 st0 options).sizeTransferred = n := by
    intro s0 a0 st0
    unfold I2C_FastWrite
    cases hna : optionSet options I2C_TRANSFER_OPTIONS_NO_ADDRESS <;>
      simp [hbytes, INFRA_MALLOC, hA _ _, FT_Channel_Write, hW _ _, FT_Channel_Read, hr,
        failed_ok]
  have hrd : ∀ (s0 : Chan) (a0 : Option (List Nat)) (st0 : Nat),
      (I2C_FastRead K T s0 deviceAddress n buffer a0 st0 options).status = FT_OK
      ∧ (I2C_FastRead K T s0 deviceAddress n buffer a0 st0 options).sizeTransferred = n := by
    intro s0 a0 st0
    unfold I2C_FastRead
    cases hna : optionSet options I2C_TRANSFER_OPTIONS_NO_ADDRESS <;>
      simp [hbytes, INFRA_MALLOC, hA _ _, FT_Channel_Write, hW _ _, FT_Channel_Read, hr,
        failed_ok]
  refine ⟨(hw s ack sizeTransferred).1, (hw s ack sizeTransferred).2,
    (hrd s ack sizeTransferred).1, (hrd s ack sizeTransferred).2, ?_⟩
  intro ha
  have hna : ¬ deviceAddress > 127 := by omega
  have hf := optionSet_fast_of_bytes options hbytes
  refine ⟨?_, ?_, ?_, ?_⟩
  · simp only [I2C_DeviceWrite, hna, hf, if_true, if_false]
    exact (hw _ none sizeTransferred).1
  · simp only [I2C_DeviceWrite, hna, hf, if_true, if_false]
    exact (hw _ none sizeTransferred).2
  · simp only [I2C_DeviceRead, hna, hf, if_true, if_false]
    exact (hrd _ none sizeTransferred).1
  · simp only [I2C_DeviceRead, hna, hf, if_true, if_false]
    exact (hrd _ none sizeTransferred).2

/-- Witness of C24: a fast write and a fast read of two bytes on a transport whose
every reply byte is 0xFF (nothing is acknowledged). -/
theorem C24_fast_path_ignores_acks_witness :
    (I2C_DeviceWrite ftdiConsts (scriptedTransport (fun _ => 0xFF)) Chan.fresh 0x50 2
        [0x11, 0x22] 99 0x17).status = FT_OK
    ∧ (I2C_DeviceWrite ftdiConsts (scriptedTransport (fun _ => 0xFF)) Chan.fresh 0x50 2
        [0x11, 0x22] 99 0x17).sizeTransferred = 2
    ∧ (I2C_DeviceRead ftdiConsts (scriptedTransport (fun _ => 0xFF)) Chan.fresh 0x50 2
        [0x11, 0x22] 99 0x17).status = FT_OK
    ∧ (I2C_DeviceRead ftdiConsts (scriptedTransport (fun _ => 0xFF)) Chan.fresh 0x50 2
        [0x11, 0x22] 99 0x17).sizeTransferred = 2 :=
  (C24_fast_path_ignores_acks ftdiConsts (scriptedTransport (fun _ => 0xFF)) Chan.fresh 0x50 2
    [0x11, 0x22] none 99 0x17 (by decide) (scripted_allocations _) (scripted_writes _)
    (scripted_reads _)).2.2.2.2 (by decide)

/-- Claim C26: the byte primitives `I2C_Write8bitsAndGetAck` and
`I2C_Read8bitsAndGiveAck`.  If the transport write fails or reports a count other than
the count asked for, no read is attempted (the write is the only operation), the
status returned is not `FT_OK`, and it is `FT_IO_ERROR` when the write itself
reported success.  If the write succeeds in full and the one-byte read reports
success but delivers no byte, the status is `FT_IO_ERROR`.  Whenever the status
returned is not `FT_OK`, the output (`*ack` or `*data`) keeps the value it had. -/
theorem C26_primitive_failures (K : MpsseConsts) (T : Transport) (s : Chan)
    (data : Nat) (ack ackArg : Bool) :
    (((T.writeReply s.nWrites (write8Cmd K data)).status ≠ FT_OK
        ∨ (T.writeReply s.nWrites (write8Cmd K data)).transferred ≠ 12) →
      (I2C_Write8bitsAndGetAck K T s data ack).chan.trace
          = s.trace ++ [Event.write (write8Cmd K data)]
      ∧ (I2C_Write8bitsAndGetAck K T s data ack).status ≠ FT_OK
      ∧ ((T.writeReply s.nWrites (write8Cmd K data)).status = FT_OK →
          (I2C_Write8bitsAndGetAck K T s data ack).status = FT_IO_ERROR))
    ∧ (T.writeReply s.nWrites (write8Cmd K data) = { status := FT_OK, transferred := 12 } →
        T.readReply s.nReads 1 = { status := FT_OK, data := [] } →
        (I2C_Write8bitsAndGetAck K T s data ack).status = FT_IO_ERROR)
    ∧ ((I2C_Write8bitsAndGetAck K T s data ack).status ≠ FT_OK →
        (I2C_Write8bitsAndGetAck K T s data ack).ack = ack)
    ∧ (((T.writeReply s.nWrites (read8Cmd K ackArg)).status ≠ FT_OK
        ∨ (T.writeReply s.nWrites (read8Cmd K ackArg)).transferred ≠ 15) →
      (I2C_Read8bitsAndGiveAck K T s data ackArg).chan.trace
          = s.trace ++ [Event.write (read8Cmd K ackArg)]
      ∧ (I2C_Read8bitsAndGiveAck K T s data ackArg).status ≠ FT_OK
      ∧ ((T.writeReply s.nWrites (read8Cmd K ackArg)).status = FT_OK →
          (I2C_Read8bitsAndGiveAck K T s data ackArg).status = FT_IO_ERROR))
    ∧ (T.writeReply s.nWrites (read8Cmd K ackArg) = { status := FT_OK, transferred := 15 } →
        T.readReply s.nReads 1 = { status := FT_OK, data := [] } →
        (I2C_Read8bitsAndGiveAck K T s data ackArg).status = FT_IO_ERROR)
    ∧ ((I2C_Read8bitsAndGiveAck K T s data ackArg).status ≠ FT_OK →
        (I2C_Read8bitsAndGiveAck K T s data ackArg).data = data) := by
  have l12 : (write8Cmd K data).length = 12 := rfl
  have l15 : (read8Cmd K ackArg).length = 15 := by cases ackArg <;> rfl
  refine ⟨?_, ?_, ?_, ?_, ?_, ?_⟩
  · intro h
    unfold I2C_Write8bitsAndGetAck
    by_cases h1 : (T.writeReply s.nWrites (write8Cmd K data)).status = FT_OK
    · have h2 : (T.writeReply s.nWrites (write8Cmd K data)).transferred ≠ 12 := by
        rcases h with h | h
        · exact absurd h1 h
        · exact h
      have h3 : ¬ (12 = (T.writeReply s.nWrites (write8Cmd K data)).transferred) :=
        fun e => h2 e.symm
      simp [FT_Channel_Write, h1, l12, h3]
    · simp [FT_Channel_Write, h1]
  · intro hw hr
    unfold I2C_Write8bitsAndGetAck
    simp [FT_Channel_Write, FT_Channel_Read, hw, hr, l12]
  · intro h
    unfold I2C_Write8bitsAndGetAck at h ⊢
    dsimp only at h ⊢
    split_ifs at h ⊢ <;> first | rfl | exact absurd rfl h
  · intro h
    unfold I2C_Read8bitsAndGiveAck
    by_cases h1 : (T.writeReply s.nWrites (read8Cmd K ackArg)).status = FT_OK
    · have h2 : (T.writeReply s.nWrites (read8Cmd K ackArg)).transferred ≠ 15 := by
        rcases h with h | h
        · exact absurd h1 h
        · exact h
      have h3 : ¬ (15 = (T.writeReply s.nWrites (read8Cmd K ackArg)).transferred) :=
        fun e => h2 e.symm
      simp [FT_Channel_Write, h1, l15, h3]
    · simp [FT_Channel_Write, h1]
  · intro hw hr
    unfold I2C_Read8bitsAndGiveAck
    simp [FT_Channel_Write, FT_Channel_Read, hw, hr, l15]
  · intro h
    unfold I2C_Read8bitsAndGiveAck at h ⊢
    dsimp only at h ⊢
    split_ifs at h ⊢ <;> first | rfl | exact absurd rfl h

/-- Witness of C26: a short write of the command, and a reply read that delivers no
byte, for both primitives; the outputs keep the values `true` and `0x5A`. -/
theorem C26_primitive_failures_witness :
    ((I2C_Write8bitsAndGetAck ftdiConsts (shortWriteTransport 0 (fun _ => 0)) Chan.fresh
        0x11 true).chan.trace = Chan.fresh.trace ++ [Event.write (write8Cmd ftdiConsts 0x11)]
      ∧ (I2C_Write8bitsAndGetAck ftdiConsts (shortWriteTransport 0 (fun _ => 0)) Chan.fresh
        0x11 true).status = FT_IO_ERROR)
    ∧ (I2C_Write8bitsAndGetAck ftdiConsts emptyReadTransport Chan.fresh 0x11 true).status
        = FT_IO_ERROR
    ∧ (I2C_Write8bitsAndGetAck ftdiConsts emptyReadTransport Chan.fresh 0x11 true).ack = true
    ∧ ((I2C_Read8bitsAndGiveAck ftdiConsts (shortWriteTransport 0 (fun _ => 0)) Chan.fresh
        0x5A true).chan.trace = Chan.fresh.trace ++ [Event.write (read8Cmd ftdiConsts true)]
      ∧ (I2C_Read8bitsAndGiveAck ftdiConsts (shortWriteTransport 0 (fun _ => 0)) Chan.fresh
        0x5A true).status = FT_IO_ERROR)
    ∧ (I2C_Read8bitsAndGiveAck ftdiConsts emptyReadTransport Chan.fresh 0x5A true).status
        = FT_IO_ERROR
    ∧ (I2C_Read8bitsAndGiveAck ftdiConsts emptyReadTransport Chan.fresh 0x5A true).data
        = 0x5A :=
  ⟨⟨((C26_primitive_failures ftdiConsts (shortWriteTransport 0 (fun _ => 0)) Chan.fresh
        0x11 true true).1 (Or.inr (by decide))).1,
      ((C26_primitive_failures ftdiConsts (shortWriteTransport 0 (fun _ => 0)) Chan.fresh
        0x11 true true).1 (Or.inr (by decide))).2.2 rfl⟩,
    (C26_primitive_failures ftdiConsts emptyReadTransport Chan.fresh 0x11 true true).2.1
      rfl rfl,
    (C26_primitive_failures ftdiConsts emptyReadTransport Chan.fresh 0x11 true true).2.2.1
      (by decide),
    ⟨((C26_primitive_failures ftdiConsts (shortWriteTransport 0 (fun _ => 0)) Chan.fresh
        0x5A true true).2.2.2.1 (Or.inr (by decide))).1,
      ((C26_primitive_failures ftdiConsts (shortWriteTransport 0 (fun _ => 0)) Chan.fresh
        0x5A true true).2.2.2.1 (Or.inr (by decide))).2.2 rfl⟩,
    (C26_primitive_failures ftdiConsts emptyReadTransport Chan.fresh 0x5A true true).2.2.2.2.1
      rfl rfl,
    (C26_primitive_failures ftdiConsts emptyReadTransport Chan.fresh 0x5A true true).2.2.2.2.2
      (by decide)⟩

/-! ## Fast path: the address argument and the acknowledgement of the last byte -/

theorem fastWriteCmds_no_address (K : MpsseConsts) (a1 a2 n : Nat) (buffer : List Nat)
    (options : Nat) (hna : optionSet options I2C_TRANSFER_OPTIONS_NO_ADDRESS = true) :
    fastWriteCmds K a1 n buffer options = fastWriteCmds K a2 n buffer options := by
  simp [fastWriteCmds, hna]

theorem fastReadCmds_no_address (K : MpsseConsts) (a1 a2 n options : Nat)
    (hna : optionSet options I2C_TRANSFER_OPTIONS_NO_ADDRESS = true) :
    fastReadCmds K a1 n options = fastReadCmds K a2 n options := by
  simp [fastReadCmds, hna]

/-- Counterexample to C22 as stated: with FAST_TRANSFER_BYTES and NO_ADDRESS set and
everything else equal, the address 0x50 gives `FT_OK` and one command buffer, the
address 200 gives `FT_INVALID_PARAMETER` and no command byte. -/
theorem C22_counterexample :
    (I2C_DeviceWrite ftdiConsts (scriptedTransport (fun _ => 0)) Chan.fresh 0x50 1
        [0x11] 99 0x50).status = FT_OK
    ∧ (I2C_DeviceWrite ftdiConsts (scriptedTransport (fun _ => 0)) Chan.fresh 200 1
        [0x11] 99 0x50).status = FT_INVALID_PARAMETER
    ∧ writesOf (I2C_DeviceWrite ftdiConsts (scriptedTransport (fun _ => 0)) Chan.fresh 0x50 1
        [0x11] 99 0x50).chan.trace
      = [[0x80, 0x00, 0x13, 0x13, 0x07, 0x11, 0x80, 0x00, 0x11, 0x22, 0x00]]
    ∧ writesOf (I2C_DeviceWrite ftdiConsts (scriptedTransport (fun _ => 0)) Chan.fresh 200 1
        [0x11] 99 0x50).chan.trace = [] := by
  decide

/-- Claim C22, amended: for a fast transfer with FAST_TRANSFER_BYTES and NO_ADDRESS set,
`I2C_FastWrite` and `I2C_FastRead` ignore the deviceAddress argument altogether, and
`I2C_DeviceWrite` and `I2C_DeviceRead` give the same result (status, transferred
count, data and transport operations) for any two addresses in [0,127] with otherwise
identical arguments and transport behaviour. -/
theorem C22_address_ignored (K : MpsseConsts) (T : Transport) (s : Chan)
    (a1 a2 n : Nat) (buffer : List Nat) (ack : Option (List Nat))
    (sizeTransferred options : Nat)
    (hbytes : optionSet options I2C_TRANSFER_OPTIONS_FAST_TRANSFER_BYTES = true)
    (hna : optionSet options I2C_TRANSFER_OPTIONS_NO_ADDRESS = true) :
    I2C_FastWrite K T s a1 n buffer ack sizeTransferred options
      = I2C_FastWrite K T s a2 n buffer ack sizeTransferred options
    ∧ I2C_FastRead K T s a1 n buffer ack sizeTransferred options
      = I2C_FastRead K T s a2 n buffer ack sizeTransferred options
    ∧ (a1 ≤ 127 → a2 ≤ 127 →
        I2C_DeviceWrite K T s a1 n buffer sizeTransferred options
          = I2C_DeviceWrite K T s a2 n buffer sizeTransferred options
        ∧ I2C_DeviceRead K T s a1 n buffer sizeTransferred options
          = I2C_DeviceRead K T s a2 n buffer sizeTransferred options) := by
  have hw : ∀ (s0 : Chan) (a0 : Option (List Nat)),
      I2C_FastWrite K T s0 a1 n buffer a0 sizeTransferred options
        = I2C_FastWrite K T s0 a2 n buffer a0 sizeTransferred options := by
    intro s0 a0
    unfold I2C_FastWrite
    dsimp only
    rw [fastWriteCmds_no_address K a1 a2 n buffer options hna]
  have hr : ∀ (s0 : Chan) (a0 : Option (List Nat)),
      I2C_FastRead K T s0 a1 n buffer a0 sizeTransferred options
        = I2C_FastRead K T s0 a2 n buffer a0 sizeTransferred options := by
    intro s0 a0
    unfold I2C_FastRead
    dsimp only
    rw [fastReadCmds_no_address K a1 a2 n options hna]
  refine ⟨hw s ack, hr s ack, ?_⟩
  intro h1 h2
  have hn1 : ¬ a1 > 127 := by omega
  have hn2 : ¬ a2 > 127 := by omega
  have hf := optionSet_fast_of_bytes options hbytes
  constructor
  · simp only [I2C_DeviceWrite, hn1, hn2, hf, if_true, if_false, hw]
  · simp only [I2C_DeviceRead, hn1, hn2, hf, if_true, if_false, hr]

/-- Witness of the amended C22: the addresses 0x50 and 0x21. -/
theorem C22_address_ignored_witness :
    I2C_DeviceWrite ftdiConsts (scriptedTransport (fun _ => 0)) Chan.fresh 0x50 1
        [0x11] 99 0x50
      = I2C_DeviceWrite ftdiConsts (scriptedTransport (fun _ => 0)) Chan.fresh 0x21 1
        [0x11] 99 0x50
    ∧ I2C_DeviceRead ftdiConsts (scriptedTransport (fun _ => 0)) Chan.fresh 0x50 1
        [0x11] 99 0x50
      = I2C_DeviceRead ftdiConsts (scriptedTransport (fun _ => 0)) Chan.fresh 0x21 1
        [0x11] 99 0x50 :=
  (C22_address_ignored ftdiConsts (scriptedTransport (fun _ => 0)) Chan.fresh 0x50 0x21 1
    [0x11] none 99 0x50 (by decide) (by decide)).2.2 (by decide) (by decide)

theorem fastRead_writes (K : MpsseConsts) (T : Transport) (s : Chan)
    (deviceAddress n : Nat) (buffer : List Nat) (ack : Option (List Nat))
    (sizeTransferred options : Nat)
    (hbytes : optionSet options I2C_TRANSFER_OPTIONS_FAST_TRANSFER_BYTES = true) :
    writesOf (I2C_FastRead K T s deviceAddress n buffer ack sizeTransferred
        options).chan.trace
      = writesOf s.trace
        ++ (if T.malloc s.nAllocs (fastReadSizeTotal n options) = true
            then [storedUpToIndex (fastReadCmds K deviceAddress n options)] else []) := by
  unfold I2C_FastRead
  simp only [hbytes, INFRA_MALLOC, FT_Channel_Write, FT_Channel_Read, Bool.not_true,
    Bool.false_eq_true, if_false]
  by_cases hm : T.malloc s.nAllocs (fastReadSizeTotal n options) = true
  · simp only [hm, Bool.not_true, Bool.false_eq_true, if_false, if_true]
    repeat' split
    all_goals simp [writesOf_append, writesOf, Event.written]
  · simp [hm]

theorem deviceRead_fast_writes (K : MpsseConsts) (T : Transport) (s : Chan)
    (deviceAddress n : Nat) (buffer : List Nat) (sizeTransferred options : Nat)
    (hbytes : optionSet options I2C_TRANSFER_OPTIONS_FAST_TRANSFER_BYTES = true) :
    writesSince s (I2C_DeviceRead K T s deviceAddress n buffer sizeTransferred options).chan
      = if deviceAddress ≤ 127 ∧ T.malloc s.nAllocs (fastReadSizeTotal n options) = true
        then [storedUpToIndex (fastReadCmds K deviceAddress n options)] else [] := by
  have hf := optionSet_fast_of_bytes options hbytes
  unfold writesSince I2C_DeviceRead
  by_cases ha : deviceAddress > 127
  · have hna : ¬ deviceAddress ≤ 127 := by omega
    simp [ha, hna]
  · have hna : deviceAddress ≤ 127 := by omega
    simp only [ha, hf, if_true, if_false, unlock_trace, writesOf_append,
      fastRead_writes K T _ deviceAddress n buffer none sizeTransferred options hbytes]
    have e : (Mid_PurgeDevice (LOCK_CHANNEL s)).trace = s.trace ++ [Event.lock, Event.purge] := by
      simp [Mid_PurgeDevice, LOCK_CHANNEL]
    have e2 : (Mid_PurgeDevice (LOCK_CHANNEL s)).nAllocs = s.nAllocs := rfl
    rw [e, e2, writesOf_append]
    by_cases hm : T.malloc s.nAllocs (fastReadSizeTotal n options) = true <;>
      simp [hm, hna, writesOf, Event.written]

theorem fastReadCmds_segment (K : MpsseConsts) (deviceAddress n options j : Nat)
    (hj : j < n) :
    ((fastReadCmds K deviceAddress n options).drop
        ((if optionSet options I2C_TRANSFER_OPTIONS_START_BIT then 93 else 0)
          + (if optionSet options I2C_TRANSFER_OPTIONS_NO_ADDRESS then 0 else 11)
          + 14 * j)).take 14
      = fastReadPhase K n j := by
  have hd := fastReadData_at K n n j hj
  apply segment_eq
    ((if optionSet options I2C_TRANSFER_OPTIONS_START_BIT then startSequence K else [])
      ++ (if !optionSet options I2C_TRANSFER_OPTIONS_NO_ADDRESS then
            fastWritePhase K (addressByte deviceAddress true) else [])
      ++ fastReadData K n j 0)
    (fastReadPhase K n j)
    (fastReadData K n (n - j - 1) (j + 1)
      ++ (if optionSet options I2C_TRANSFER_OPTIONS_STOP_BIT then stopSequence K else []))
  · unfold fastReadCmds
    rw [hd]
    simp [List.append_assoc]
  · cases optionSet options I2C_TRANSFER_OPTIONS_START_BIT <;>
      cases optionSet options I2C_TRANSFER_OPTIONS_NO_ADDRESS <;>
      simp [fastReadData_length, startSequence_length, fastWritePhase_length]
    all_goals omega
  · rw [fastReadPhase_length]

/-- Counterexample to C23 as stated: in a fast read of two bytes from address 0x50 the
14 bytes serialized for the last byte (index 1, after the 11-byte address phase and
the 14-byte phase of byte 0) leave SDA as an input and clock out 0x80: the last byte
is not acknowledged. -/
theorem C23_counterexample :
    (writesOf (I2C_DeviceRead ftdiConsts (scriptedTransport (fun _ => 0)) Chan.fresh 0x50 2
        [0, 0] 99 0x10).chan.trace).map (fun w => (w.drop (11 + 14 * 1)).take 14)
      = [[0x80, 0x00, 0x11, 0x22, 0x07, 0x80, 0x00, 0x11, 0x13, 0x00, 0x80,
           0x80, 0x00, 0x11]]
    ∧ (writesOf (I2C_DeviceRead ftdiConsts (scriptedTransport (fun _ => 0)) Chan.fresh 0x50 2
        [0, 0] 99 0x10).chan.trace).map (fun w => (w.drop (11 + 14 * 1)).take 14)
      ≠ [[0x80, 0x00, 0x11, 0x22, 0x07, 0x80, 0x00, 0x13, 0x13, 0x00, 0x00,
           0x80, 0x00, 0x11]] := by
  decide

/-- Claim C23, amended: in a fast byte transfer that reads `n ≥ 1` bytes
(`I2C_DeviceRead` with FAST_TRANSFER_BYTES, address in [0,127], buffer allocated), the
commands stored for the one buffer written give an acknowledgement (SDA driven as
output, clocked-out bit 0) after each byte read except the last: for the last byte
`j = n-1` SDA is left as an input and the bit clocked out is 0x80, that is, the last
byte is NACKed.  The one write hands over `outBuffer` up to the store index; when the
stores number fewer than `2^32` these are all the stores, and the 14 bytes are found in
the buffer written at the offset of phase `j`. -/
theorem C23_fast_read_last_byte_nacked (K : MpsseConsts) (T : Transport) (s : Chan)
    (deviceAddress n : Nat) (buffer : List Nat) (sizeTransferred options j : Nat)
    (ha : deviceAddress ≤ 127)
    (hbytes : optionSet options I2C_TRANSFER_OPTIONS_FAST_TRANSFER_BYTES = true)
    (hm : T.malloc s.nAllocs (fastReadSizeTotal n options) = true)
    (h1 : 1 ≤ n) (h32 : n < UINT32_MOD) (hj : j < n) :
    writesSince s (I2C_DeviceRead K T s deviceAddress n buffer sizeTransferred options).chan
      = [storedUpToIndex (fastReadCmds K deviceAddress n options)]
    ∧ ((fastReadCmds K deviceAddress n options).drop
        ((if optionSet options I2C_TRANSFER_OPTIONS_START_BIT then 93 else 0)
          + (if optionSet options I2C_TRANSFER_OPTIONS_NO_ADDRESS then 0 else 11)
          + 14 * j)).take 14
      = (if j < n - 1 then
            [ K.MPSSE_CMD_SET_DATA_BITS_LOWBYTE, K.VALUE_SCLLOW_SDALOW,
              K.DIRECTION_SCLOUT_SDAIN,
              K.MPSSE_CMD_DATA_IN_BITS_POS_EDGE, K.DATA_SIZE_8BITS,
              K.MPSSE_CMD_SET_DATA_BITS_LOWBYTE, K.VALUE_SCLLOW_SDALOW,
              K.DIRECTION_SCLOUT_SDAOUT,
              K.MPSSE_CMD_DATA_OUT_BITS_NEG_EDGE, K.DATA_SIZE_1BIT, 0x00,
              K.MPSSE_CMD_SET_DATA_BITS_LOWBYTE, K.VALUE_SCLLOW_SDALOW,
              K.DIRECTION_SCLOUT_SDAIN ]
          else
            [ K.MPSSE_CMD_SET_DATA_BITS_LOWBYTE, K.VALUE_SCLLOW_SDALOW,
              K.DIRECTION_SCLOUT_SDAIN,
              K.MPSSE_CMD_DATA_IN_BITS_POS_EDGE, K.DATA_SIZE_8BITS,
              K.MPSSE_CMD_SET_DATA_BITS_LOWBYTE, K.VALUE_SCLLOW_SDALOW,
              K.DIRECTION_SCLOUT_SDAIN,
              K.MPSSE_CMD_DATA_OUT_BITS_NEG_EDGE, K.DATA_SIZE_1BIT, 0x80,
              K.MPSSE_CMD_SET_DATA_BITS_LOWBYTE, K.VALUE_SCLLOW_SDALOW,
              K.DIRECTION_SCLOUT_SDAIN ])
    ∧ (fastByteCount 14 n options < UINT32_MOD →
      (writesSince s (I2C_DeviceRead K T s deviceAddress n buffer sizeTransferred
          options).chan).map
        (fun w => (w.drop
          ((if optionSet options I2C_TRANSFER_OPTIONS_START_BIT then 93 else 0)
            + (if optionSet options I2C_TRANSFER_OPTIONS_NO_ADDRESS then 0 else 11)
            + 14 * j)).take 14)
        = [ if j < n - 1 then
              [ K.MPSSE_CMD_SET_DATA_BITS_LOWBYTE, K.VALUE_SCLLOW_SDALOW,
                K.DIRECTION_SCLOUT_SDAIN,
                K.MPSSE_CMD_DATA_IN_BITS_POS_EDGE, K.DATA_SIZE_8BITS,
                K.MPSSE_CMD_SET_DATA_BITS_LOWBYTE, K.VALUE_SCLLOW_SDALOW,
                K.DIRECTION_SCLOUT_SDAOUT,
                K.MPSSE_CMD_DATA_OUT_BITS_NEG_EDGE, K.DATA_SIZE_1BIT, 0x00,
                K.MPSSE_CMD_SET_DATA_BITS_LOWBYTE, K.VALUE_SCLLOW_SDALOW,
                K.DIRECTION_SCLOUT_SDAIN ]
            else
              [ K.MPSSE_CMD_SET_DATA_BITS_LOWBYTE, K.VALUE_SCLLOW_SDALOW,
                K.DIRECTION_SCLOUT_SDAIN,
                K.MPSSE_CMD_DATA_IN_BITS_POS_EDGE, K.DATA_SIZE_8BITS,
                K.MPSSE_CMD_SET_DATA_BITS_LOWBYTE, K.VALUE_SCLLOW_SDALOW,
                K.DIRECTION_SCLOUT_SDAIN,
                K.MPSSE_CMD_DATA_OUT_BITS_NEG_EDGE, K.DATA_SIZE_1BIT, 0x80,
                K.MPSSE_CMD_SET_DATA_BITS_LOWBYTE, K.VALUE_SCLLOW_SDALOW,
                K.DIRECTION_SCLOUT_SDAIN ] ]) := by
  have hseg : ((fastReadCmds K deviceAddress n options).drop
        ((if optionSet options I2C_TRANSFER_OPTIONS_START_BIT then 93 else 0)
          + (if optionSet options I2C_TRANSFER_OPTIONS_NO_ADDRESS then 0 else 11)
          + 14 * j)).take 14
      = (if j < n - 1 then
            [ K.MPSSE_CMD_SET_DATA_BITS_LOWBYTE, K.VALUE_SCLLOW_SDALOW,
              K.DIRECTION_SCLOUT_SDAIN,
              K.MPSSE_CMD_DATA_IN_BITS_POS_EDGE, K.DATA_SIZE_8BITS,
              K.MPSSE_CMD_SET_DATA_BITS_LOWBYTE, K.VALUE_SCLLOW_SDALOW,
              K.DIRECTION_SCLOUT_SDAOUT,
              K.MPSSE_CMD_DATA_OUT_BITS_NEG_EDGE, K.DATA_SIZE_1BIT, 0x00,
              K.MPSSE_CMD_SET_DATA_BITS_LOWBYTE, K.VALUE_SCLLOW_SDALOW,
              K.DIRECTION_SCLOUT_SDAIN ]
          else
            [ K.MPSSE_CMD_SET_DATA_BITS_LOWBYTE, K.VALUE_SCLLOW_SDALOW,
              K.DIRECTION_SCLOUT_SDAIN,
              K.MPSSE_CMD_DATA_IN_BITS_POS_EDGE, K.DATA_SIZE_8BITS,
              K.MPSSE_CMD_SET_DATA_BITS_LOWBYTE, K.VALUE_SCLLOW_SDALOW,
              K.DIRECTION_SCLOUT_SDAIN,
              K.MPSSE_CMD_DATA_OUT_BITS_NEG_EDGE, K.DATA_SIZE_1BIT, 0x80,
              K.MPSSE_CMD_SET_DATA_BITS_LOWBYTE, K.VALUE_SCLLOW_SDALOW,
              K.DIRECTION_SCLOUT_SDAIN ]) := by
    rw [fastReadCmds_segment K deviceAddress n options j hj, fastReadPhase_eq K n j h1 h32]
    rfl
  have hwr : writesSince s
        (I2C_DeviceRead K T s deviceAddress n buffer sizeTransferred options).chan
      = [storedUpToIndex (fastReadCmds K deviceAddress n options)] := by
    rw [deviceRead_fast_writes K T s deviceAddress n buffer sizeTransferred options hbytes]
    simp only [ha, hm, and_self, if_true]
  refine ⟨hwr, hseg, ?_⟩
  intro hfit
  rw [hwr, storedUpToIndex_of_lt _ (by rw [fastReadCmds_length]; exact hfit)]
  simp only [List.map_cons, List.map_nil, hseg]

/-- Witness of the amended C23: a fast read of three bytes with START; byte 1 is
acknowledged, byte 2 (the last) is not. -/
theorem C23_fast_read_last_byte_nacked_witness :
    ((writesSince Chan.fresh (I2C_DeviceRead ftdiConsts (scriptedTransport (fun _ => 0))
        Chan.fresh 0x50 3 [0, 0, 0] 99 0x11).chan).map
      (fun w => (w.drop
        ((if optionSet 0x11 I2C_TRANSFER_OPTIONS_START_BIT then 93 else 0)
          + (if optionSet 0x11 I2C_TRANSFER_OPTIONS_NO_ADDRESS then 0 else 11)
          + 14 * 1)).take 14)
      = [[0x80, 0x00, 0x11, 0x22, 0x07, 0x80, 0x00, 0x13, 0x13, 0x00, 0x00,
           0x80, 0x00, 0x11]])
    ∧ ((writesSince Chan.fresh (I2C_DeviceRead ftdiConsts (scriptedTransport (fun _ => 0))
        Chan.fresh 0x50 3 [0, 0, 0] 99 0x11).chan).map
      (fun w => (w.drop
        ((if optionSet 0x11 I2C_TRANSFER_OPTIONS_START_BIT then 93 else 0)
          + (if optionSet 0x11 I2C_TRANSFER_OPTIONS_NO_ADDRESS then 0 else 11)
          + 14 * 2)).take 14)
      = [[0x80, 0x00, 0x11, 0x22, 0x07, 0x80, 0x00, 0x11, 0x13, 0x00, 0x80,
           0x80, 0x00, 0x11]]) :=
  ⟨(C23_fast_read_last_byte_nacked ftdiConsts (scriptedTransport (fun _ => 0)) Chan.fresh
      0x50 3 [0, 0, 0] 99 0x11 1 (by decide) (by decide) rfl (by decide) (by decide)
      (by decide)).2.2 (by decide),
    (C23_fast_read_last_byte_nacked ftdiConsts (scriptedTransport (fun _ => 0)) Chan.fresh
      0x50 3 [0, 0, 0] 99 0x11 2 (by decide) (by decide) rfl (by decide) (by decide)
      (by decide)).2.2 (by decide)⟩

/-! ## Acknowledgement polarity -/

theorem writesOf_writePhases_succ (K : MpsseConsts) (buffer : List Nat) (m i : Nat) :
    writesOf (writePhases K buffer (m + 1) i)
      = [write8Cmd K (buffer.getD i 0)] ++ writesOf (writePhases K buffer m (i + 1)) := by
  simp [writePhases, writesOf, Event.written]

theorem writesOf_entry : writesOf [Event.lock, Event.purge] = [] := rfl

theorem writesOf_unlock : writesOf [Event.unlock] = [] := rfl

/-- Shape of a normal write whose address is acknowledged, for at least one byte and
whatever the data replies are: the status is `FT_OK` or `FT_FAILED_TO_WRITE_DEVICE`
and, for a length of at least 1, the write that follows the address command carries
data byte 0. -/
theorem deviceWrite_normal_acked_shape (K : MpsseConsts) (T : Transport) (s : Chan)
    (deviceAddress sizeToTransfer : Nat) (buffer : List Nat) (sizeTransferred options : Nat)
    (ha : deviceAddress ≤ 127)
    (hfast : optionSet options I2C_TRANSFER_OPTIONS_FAST_TRANSFER = false)
    (hW : WritesSucceed T) (hR : ReadsSucceed T)
    (hack : replyByte T s.nReads % 2 = 0) :
    ((I2C_DeviceWrite K T s deviceAddress sizeToTransfer buffer sizeTransferred
        options).status = FT_OK
      ∨ (I2C_DeviceWrite K T s deviceAddress sizeToTransfer buffer sizeTransferred
        options).status = FT_FAILED_TO_WRITE_DEVICE)
    ∧ (1 ≤ sizeToTransfer → ∃ rest,
      writesOf (I2C_DeviceWrite K T s deviceAddress sizeToTransfer buffer sizeTransferred
        options).chan.trace
      = (writesOf s.trace
          ++ (if optionSet options I2C_TRANSFER_OPTIONS_START_BIT then [startSequence K]
              else [])
          ++ [write8Cmd K (addressByte deviceAddress false)])
        ++ ([write8Cmd K (buffer.getD 0 0)] ++ rest)) := by
  by_cases hrun : ∀ j, j < sizeToTransfer → replyByte T (s.nReads + 1 + j) % 2 = 0
      ∨ optionSet options I2C_TRANSFER_OPTIONS_BREAK_ON_NACK = false
  · rw [deviceWrite_normal_runs K T s deviceAddress sizeToTransfer buffer sizeTransferred
      options ha hfast hW hR hack hrun]
    refine ⟨Or.inl rfl, ?_⟩
    intro hn
    obtain ⟨m, rfl⟩ : ∃ m, sizeToTransfer = m + 1 := ⟨sizeToTransfer - 1, by omega⟩
    refine ⟨writesOf (writePhases K buffer m 1) ++ writesOf (stopOps K options), ?_⟩
    simp only [unlock_trace, entry_trace, writesOf_append, writesOf_startOps,
      writesOf_addressOps, writesOf_writePhases_succ, writesOf_entry, writesOf_unlock]
    simp [List.append_assoc]
  · have hex : ∃ k, k < sizeToTransfer ∧ replyByte T (s.nReads + 1 + k) % 2 = 1 := by
      by_contra hno
      apply hrun
      intro j hj
      left
      by_contra h0
      apply hno
      exact ⟨j, hj, by omega⟩
    have hb : optionSet options I2C_TRANSFER_OPTIONS_BREAK_ON_NACK = true := by
      by_contra hb
      apply hrun
      intro j _
      right
      simpa using hb
    have hk := Nat.find_spec hex
    have hmin : ∀ j, j < Nat.find hex → replyByte T (s.nReads + 1 + j) % 2 = 0 := by
      intro j hj
      have h := Nat.find_min hex hj
      have hjn : j < sizeToTransfer := by omega
      by_contra h0
      exact h ⟨hjn, by omega⟩
    rw [deviceWrite_normal_breaks K T s deviceAddress sizeToTransfer buffer sizeTransferred
      options (Nat.find hex) ha hfast hb hW hR hack hk.1 hmin hk.2]
    refine ⟨Or.inr rfl, fun _ =>
      ⟨writesOf (writePhases K buffer (Nat.find hex) 1) ++ writesOf (stopOps K options), ?_⟩⟩
    simp only [entry_trace, writesOf_append, writesOf_startOps,
      writesOf_addressOps, writesOf_writePhases_succ, writesOf_entry]
    simp [List.append_assoc]

theorem stopSequence_ne_write8Cmd (K : MpsseConsts) (data : Nat) :
    stopSequence K ≠ write8Cmd K data := by
  intro e
  have h := congrArg List.length e
  rw [stopSequence_length] at h
  have h12 : (write8Cmd K data).length = 12 := rfl
  omega

theorem stopSequence_ne_read8Cmd (K : MpsseConsts) (ack : Bool) :
    stopSequence K ≠ read8Cmd K ack := by
  intro e
  have h := congrArg List.length e
  rw [stopSequence_length] at h
  have h15 : (read8Cmd K ack).length = 15 := by cases ack <;> rfl
  omega

theorem getElem?_after {α : Type} (A B L : List α) (n : Nat)
    (hL : L = A ++ B) (hn : n = A.length) : L[n]? = B[0]? := by
  subst hL hn
  rw [List.getElem?_append_right (Nat.le_refl _)]
  simp

theorem prefix_length (K : MpsseConsts) (s : Chan) (options : Nat) (cmd : List Nat) :
    (writesOf s.trace).length
        + (if optionSet options I2C_TRANSFER_OPTIONS_START_BIT then 1 else 0) + 1
      = (writesOf s.trace
          ++ (if optionSet options I2C_TRANSFER_OPTIONS_START_BIT then [startSequence K]
              else [])
          ++ [cmd]).length := by
  cases optionSet options I2C_TRANSFER_OPTIONS_START_BIT <;> simp

/-- Claim C21: acknowledgement polarity, on a transport whose calls succeed in full.
`I2C_Write8bitsAndGetAck` reports `ack = b & 1` for the reply byte `b` (the bits 1..7
of `b` play no part).  On the normal path, for an address in [0,127],
`I2C_DeviceWrite` and `I2C_DeviceRead` return `FT_DEVICE_NOT_FOUND` iff that value is
1 for the address phase, and (for a length of at least 1) they enter the data loop,
that is, the write following the address command is the command of data byte 0, iff
the value is 0. -/
theorem C21_ack_polarity (K : MpsseConsts) (T : Transport) (s : Chan)
    (deviceAddress sizeToTransfer : Nat) (buffer : List Nat) (sizeTransferred options : Nat)
    (data : Nat) (ack : Bool)
    (ha : deviceAddress ≤ 127)
    (hfast : optionSet options I2C_TRANSFER_OPTIONS_FAST_TRANSFER = false)
    (hW : WritesSucceed T) (hR : ReadsSucceed T) :
    (I2C_Write8bitsAndGetAck K T s data ack).status = FT_OK
    ∧ (I2C_Write8bitsAndGetAck K T s data ack).ack
        = decide (replyByte T s.nReads &&& 1 = 1)
    ∧ ((I2C_DeviceWrite K T s deviceAddress sizeToTransfer buffer sizeTransferred
          options).status = FT_DEVICE_NOT_FOUND
        ↔ replyByte T s.nReads &&& 1 = 1)
    ∧ ((I2C_DeviceRead K T s deviceAddress sizeToTransfer buffer sizeTransferred
          options).status = FT_DEVICE_NOT_FOUND
        ↔ replyByte T s.nReads &&& 1 = 1)
    ∧ (1 ≤ sizeToTransfer →
        ((writesOf (I2C_DeviceWrite K T s deviceAddress sizeToTransfer buffer sizeTransferred
          options).chan.trace)[(writesOf s.trace).length
            + (if optionSet options I2C_TRANSFER_OPTIONS_START_BIT then 1 else 0) + 1]?
          = some (write8Cmd K (buffer.getD 0 0))
        ↔ replyByte T s.nReads &&& 1 = 0))
    ∧ (1 ≤ sizeToTransfer →
        ((writesOf (I2C_DeviceRead K T s deviceAddress sizeToTransfer buffer sizeTransferred
          options).chan.trace)[(writesOf s.trace).length
            + (if optionSet options I2C_TRANSFER_OPTIONS_START_BIT then 1 else 0) + 1]?
          = some (read8Cmd K (readAckArg sizeToTransfer options 0))
        ↔ replyByte T s.nReads &&& 1 = 0)) := by
  have hb : replyByte T s.nReads &&& 1 = replyByte T s.nReads % 2 := Nat.and_one_is_mod _
  simp only [hb]
  refine ⟨?_, ?_, ?_⟩
  · rw [write8_full K T s data ack hW hR]
  · rw [write8_full K T s data ack hW hR]
  rcases Nat.mod_two_eq_zero_or_one (replyByte T s.nReads) with h0 | h1
  · -- the address is acknowledged
    have h01 : ¬ replyByte T s.nReads % 2 = 1 := by omega
    obtain ⟨hst, hshape⟩ := deviceWrite_normal_acked_shape K T s deviceAddress
      sizeToTransfer buffer sizeTransferred options ha hfast hW hR h0
    have hr := deviceRead_normal_runs K T s deviceAddress sizeToTransfer buffer
      sizeTransferred options ha hfast hW hR h0
    refine ⟨?_, ?_, ?_, ?_⟩
    · constructor
      · intro h
        rcases hst with hst | hst <;> rw [hst] at h <;> exact absurd h (by decide)
      · intro h; exact absurd h h01
    · rw [hr]
      constructor
      · intro h; cases h
      · intro h; exact absurd h h01
    · intro hn
      obtain ⟨rest, hw⟩ := hshape hn
      constructor
      · intro _; exact h0
      · intro _
        rw [getElem?_middle _ [write8Cmd K (buffer.getD 0 0)] rest 0 _ _ hw (by simp)
          (by rw [Nat.add_zero]; exact prefix_length K s options _)]
        rfl
    · intro hn
      obtain ⟨m, rfl⟩ : ∃ m, sizeToTransfer = m + 1 := ⟨sizeToTransfer - 1, by omega⟩
      constructor
      · intro _; exact h0
      · intro _
        rw [hr]
        rw [getElem?_middle
          (writesOf s.trace
            ++ (if optionSet options I2C_TRANSFER_OPTIONS_START_BIT then [startSequence K]
                else [])
            ++ [write8Cmd K (addressByte deviceAddress true)])
          [read8Cmd K (readAckArg (m + 1) options 0)]
          ((List.range' 1 m).map (fun j => read8Cmd K (readAckArg (m + 1) options j))
            ++ writesOf (stopOps K options)) 0]
        · rfl
        · simp only [unlock_trace, entry_trace, writesOf_append, writesOf_startOps,
            writesOf_addressOps, writesOf_readPhases, writesOf_entry, writesOf_unlock,
            List.range'_succ, List.map_cons]
          simp [List.append_assoc]
        · simp
        · rw [Nat.add_zero]; exact prefix_length K s options _
  · -- the address is not acknowledged
    have h10 : ¬ replyByte T s.nReads % 2 = 0 := by omega
    have hw := deviceWrite_normal_nack K T s deviceAddress sizeToTransfer buffer
      sizeTransferred options ha hfast hW hR h1
    have hr := deviceRead_normal_nack K T s deviceAddress sizeToTransfer buffer
      sizeTransferred options ha hfast hW hR h1
    refine ⟨?_, ?_, ?_, ?_⟩
    · rw [hw]; exact ⟨fun _ => h1, fun _ => rfl⟩
    · rw [hr]; exact ⟨fun _ => h1, fun _ => rfl⟩
    · intro _
      constructor
      · intro h
        exfalso
        rw [hw, getElem?_after
          (writesOf s.trace
            ++ (if optionSet options I2C_TRANSFER_OPTIONS_START_BIT then [startSequence K]
                else [])
            ++ [write8Cmd K (addressByte deviceAddress false)])
          (if optionSet options I2C_TRANSFER_OPTIONS_STOP_BIT then [stopSequence K] else [])
          _ _ ?_ (prefix_length K s options _)] at h
        · split at h
          · simp only [List.getElem?_cons_zero, Option.some.injEq] at h
            exact stopSequence_ne_write8Cmd K _ h
          · simp at h
        · simp only [unlock_trace, entry_trace, writesOf_append, writesOf_startOps,
            writesOf_addressOps, writesOf_stopOps, writesOf_entry, writesOf_unlock]
          simp [List.append_assoc]
      · intro h; exact absurd h h10
    · intro _
      constructor
      · intro h
        exfalso
        rw [hr, getElem?_after
          (writesOf s.trace
            ++ (if optionSet options I2C_TRANSFER_OPTIONS_START_BIT then [startSequence K]
                else [])
            ++ [write8Cmd K (addressByte deviceAddress true)])
          (if optionSet options I2C_TRANSFER_OPTIONS_STOP_BIT then [stopSequence K] else [])
          _ _ ?_ (prefix_length K s options _)] at h
        · split at h
          · simp only [List.getElem?_cons_zero, Option.some.injEq] at h
            exact stopSequence_ne_read8Cmd K _ h
          · simp at h
        · simp only [unlock_trace, entry_trace, writesOf_append, writesOf_startOps,
            writesOf_addressOps, writesOf_stopOps, writesOf_entry, writesOf_unlock]
          simp [List.append_assoc]
      · intro h; exact absurd h h10

/-- Witness of C21: the reply byte 0xFE (low bit 0, all other bits set) counts as an
acknowledgement and the data loop is entered; the reply byte 0x01 gives
`FT_DEVICE_NOT_FOUND`. -/
theorem C21_ack_polarity_witness :
    (I2C_Write8bitsAndGetAck ftdiConsts (scriptedTransport (fun _ => 0xFE)) Chan.fresh
        0x11 true).ack
      = decide (replyByte (scriptedTransport (fun _ => 0xFE)) Chan.fresh.nReads &&& 1 = 1)
    ∧ (I2C_DeviceWrite ftdiConsts (scriptedTransport (fun _ => 0x01)) Chan.fresh 0x50 2
        [0x11, 0x22] 99 0x03).status = FT_DEVICE_NOT_FOUND
    ∧ (writesOf (I2C_DeviceWrite ftdiConsts (scriptedTransport (fun _ => 0xFE)) Chan.fresh
        0x50 2 [0x11, 0x22] 99 0x03).chan.trace)[(writesOf Chan.fresh.trace).length
          + (if optionSet 0x03 I2C_TRANSFER_OPTIONS_START_BIT then 1 else 0) + 1]?
      = some (write8Cmd ftdiConsts ([0x11, 0x22].getD 0 0))
    ∧ (writesOf (I2C_DeviceRead ftdiConsts (scriptedTransport (fun _ => 0xFE)) Chan.fresh
        0x50 2 [0, 0] 99 0x03).chan.trace)[(writesOf Chan.fresh.trace).length
          + (if optionSet 0x03 I2C_TRANSFER_OPTIONS_START_BIT then 1 else 0) + 1]?
      = some (read8Cmd ftdiConsts (readAckArg 2 0x03 0)) :=
  ⟨(C21_ack_polarity ftdiConsts (scriptedTransport (fun _ => 0xFE)) Chan.fresh 0x50 2
      [0x11, 0x22] 99 0x03 0x11 true (by decide) (by decide) (scripted_writes _)
      (scripted_reads _)).2.1,
    ((C21_ack_polarity ftdiConsts (scriptedTransport (fun _ => 0x01)) Chan.fresh 0x50 2
      [0x11, 0x22] 99 0x03 0x11 true (by decide) (by decide) (scripted_writes _)
      (scripted_reads _)).2.2.1).mpr rfl,
    ((C21_ack_polarity ftdiConsts (scriptedTransport (fun _ => 0xFE)) Chan.fresh 0x50 2
      [0x11, 0x22] 99 0x03 0x11 true (by decide) (by decide) (scripted_writes _)
      (scripted_reads _)).2.2.2.2.1 (by decide)).mpr rfl,
    ((C21_ack_polarity ftdiConsts (scriptedTransport (fun _ => 0xFE)) Chan.fresh 0x50 2
      [0, 0] 99 0x03 0x11 true (by decide) (by decide) (scripted_writes _)
      (scripted_reads _)).2.2.2.2.2 (by decide)).mpr rfl⟩

/-! ## The command stream as a sequence of commands -/

theorem decodeCmds_setPins (K : MpsseConsts) (v d : Nat) (rest : List Nat) :
    decodeCmds K (K.MPSSE_CMD_SET_DATA_BITS_LOWBYTE :: v :: d :: rest)
      = MpsseCmd.setPins v d :: decodeCmds K rest := by
  simp [decodeCmds]

theorem decodeCmds_clockOut (K : MpsseConsts) (hK : OpcodesDistinct K) (l x : Nat)
    (rest : List Nat) :
    decodeCmds K (K.MPSSE_CMD_DATA_OUT_BITS_NEG_EDGE :: l :: x :: rest)
      = MpsseCmd.clockOut l x :: decodeCmds K rest := by
  obtain ⟨h1, -, -, -, -, -⟩ := hK
  simp [decodeCmds, Ne.symm h1]

theorem decodeCmds_clockIn (K : MpsseConsts) (hK : OpcodesDistinct K) (l : Nat)
    (rest : List Nat) :
    decodeCmds K (K.MPSSE_CMD_DATA_IN_BITS_POS_EDGE :: l :: rest)
      = MpsseCmd.clockIn l :: decodeCmds K rest := by
  obtain ⟨-, h2, -, h4, -, -⟩ := hK
  rw [decodeCmds.eq_def]
  simp [Ne.symm h2, Ne.symm h4]

theorem decodeCmds_sendImmediate (K : MpsseConsts) (hK : OpcodesDistinct K)
    (rest : List Nat) :
    decodeCmds K (K.MPSSE_CMD_SEND_IMMEDIATE :: rest)
      = MpsseCmd.sendImmediate :: decodeCmds K rest := by
  obtain ⟨-, -, h3, -, h5, h6⟩ := hK
  rw [decodeCmds.eq_def]
  simp [Ne.symm h3, Ne.symm h5, Ne.symm h6]

theorem decodeCmds_repeatCmd (K : MpsseConsts) (v d : Nat) (rest : List Nat) :
    ∀ k : Nat,
      decodeCmds K (repeatCmd k [K.MPSSE_CMD_SET_DATA_BITS_LOWBYTE, v, d] ++ rest)
        = List.replicate k (MpsseCmd.setPins v d) ++ decodeCmds K rest := by
  intro k
  induction k with
  | zero => simp [repeatCmd]
  | succ k ih =>
    simp only [repeatCmd, List.append_assoc, List.cons_append, List.nil_append,
      decodeCmds_setPins, ih, List.replicate_succ]


theorem withoutSendImmediate_nil (K : MpsseConsts) : withoutSendImmediate K [] = [] := by
  simp [withoutSendImmediate, decodeCmds]

theorem withoutSendImmediate_setPins (K : MpsseConsts) (v d : Nat) (rest : List Nat) :
    withoutSendImmediate K (K.MPSSE_CMD_SET_DATA_BITS_LOWBYTE :: v :: d :: rest)
      = K.MPSSE_CMD_SET_DATA_BITS_LOWBYTE :: v :: d :: withoutSendImmediate K rest := by
  simp [withoutSendImmediate, decodeCmds_setPins, MpsseCmd.bytes]

theorem withoutSendImmediate_clockOut (K : MpsseConsts) (hK : OpcodesDistinct K) (l x : Nat)
    (rest : List Nat) :
    withoutSendImmediate K (K.MPSSE_CMD_DATA_OUT_BITS_NEG_EDGE :: l :: x :: rest)
      = K.MPSSE_CMD_DATA_OUT_BITS_NEG_EDGE :: l :: x :: withoutSendImmediate K rest := by
  simp [withoutSendImmediate, decodeCmds_clockOut K hK, MpsseCmd.bytes]

theorem withoutSendImmediate_clockIn (K : MpsseConsts) (hK : OpcodesDistinct K) (l : Nat)
    (rest : List Nat) :
    withoutSendImmediate K (K.MPSSE_CMD_DATA_IN_BITS_POS_EDGE :: l :: rest)
      = K.MPSSE_CMD_DATA_IN_BITS_POS_EDGE :: l :: withoutSendImmediate K rest := by
  simp [withoutSendImmediate, decodeCmds_clockIn K hK, MpsseCmd.bytes]

theorem withoutSendImmediate_sendImmediate (K : MpsseConsts) (hK : OpcodesDistinct K)
    (rest : List Nat) :
    withoutSendImmediate K (K.MPSSE_CMD_SEND_IMMEDIATE :: rest)
      = withoutSendImmediate K rest := by
  simp [withoutSendImmediate, decodeCmds_sendImmediate K hK]

theorem withoutSendImmediate_repeatCmd (K : MpsseConsts) (v d : Nat) (rest : List Nat) :
    ∀ k : Nat,
      withoutSendImmediate K (repeatCmd k [K.MPSSE_CMD_SET_DATA_BITS_LOWBYTE, v, d] ++ rest)
        = repeatCmd k [K.MPSSE_CMD_SET_DATA_BITS_LOWBYTE, v, d]
          ++ withoutSendImmediate K rest := by
  intro k
  induction k with
  | zero => simp [repeatCmd]
  | succ k ih =>
    simp only [repeatCmd, List.append_assoc, List.cons_append, List.nil_append,
      withoutSendImmediate_setPins, ih]

theorem withoutSendImmediate_startSequence (K : MpsseConsts) (rest : List Nat) :
    withoutSendImmediate K (startSequence K ++ rest)
      = startSequence K ++ withoutSendImmediate K rest := by
  simp only [startSequence, List.append_assoc, withoutSendImmediate_repeatCmd,
    List.cons_append, List.nil_append, withoutSendImmediate_setPins]

theorem withoutSendImmediate_stopSequence (K : MpsseConsts) (rest : List Nat) :
    withoutSendImmediate K (stopSequence K ++ rest)
      = stopSequence K ++ withoutSendImmediate K rest := by
  simp only [stopSequence, List.append_assoc, withoutSendImmediate_repeatCmd,
    List.cons_append, List.nil_append, withoutSendImmediate_setPins]

theorem withoutSendImmediate_write8Cmd (K : MpsseConsts) (hK : OpcodesDistinct K) (data : Nat)
    (rest : List Nat) :
    withoutSendImmediate K (write8Cmd K data ++ rest)
      = fastWritePhase K data ++ withoutSendImmediate K rest := by
  simp only [write8Cmd, fastWritePhase, List.cons_append, List.nil_append,
    withoutSendImmediate_setPins, withoutSendImmediate_clockOut K hK,
    withoutSendImmediate_clockIn K hK, withoutSendImmediate_sendImmediate K hK]

theorem withoutSendImmediate_read8Cmd (K : MpsseConsts) (hK : OpcodesDistinct K) (ack : Bool)
    (rest : List Nat) :
    withoutSendImmediate K (read8Cmd K ack ++ rest)
      = (read8Cmd K ack).take 14 ++ withoutSendImmediate K rest := by
  cases ack <;>
  simp [read8Cmd, withoutSendImmediate_setPins, withoutSendImmediate_clockOut K hK,
    withoutSendImmediate_clockIn K hK, withoutSendImmediate_sendImmediate K hK]

theorem withoutSendImmediate_map_write8Cmd (K : MpsseConsts) (hK : OpcodesDistinct K)
    (rest : List Nat) :
    ∀ l : List Nat,
      withoutSendImmediate K ((l.map (write8Cmd K)).flatten ++ rest)
        = l.flatMap (fastWritePhase K) ++ withoutSendImmediate K rest := by
  intro l
  induction l with
  | nil => simp
  | cons x l ih =>
    simp only [List.map_cons, List.flatten_cons, List.append_assoc, List.flatMap_cons,
      withoutSendImmediate_write8Cmd K hK, ih]

theorem clockInCount_nil (K : MpsseConsts) : clockInCount K [] = 0 := by
  simp [clockInCount, decodeCmds]

theorem clockInCount_setPins (K : MpsseConsts) (v d : Nat) (rest : List Nat) :
    clockInCount K (K.MPSSE_CMD_SET_DATA_BITS_LOWBYTE :: v :: d :: rest)
      = clockInCount K rest := by
  simp [clockInCount, decodeCmds_setPins, MpsseCmd.isClockIn]

theorem clockInCount_clockOut (K : MpsseConsts) (hK : OpcodesDistinct K) (l x : Nat)
    (rest : List Nat) :
    clockInCount K (K.MPSSE_CMD_DATA_OUT_BITS_NEG_EDGE :: l :: x :: rest)
      = clockInCount K rest := by
  simp [clockInCount, decodeCmds_clockOut K hK, MpsseCmd.isClockIn]

theorem clockInCount_clockIn (K : MpsseConsts) (hK : OpcodesDistinct K) (l : Nat)
    (rest : List Nat) :
    clockInCount K (K.MPSSE_CMD_DATA_IN_BITS_POS_EDGE :: l :: rest)
      = clockInCount K rest + 1 := by
  simp [clockInCount, decodeCmds_clockIn K hK, MpsseCmd.isClockIn]

theorem clockInCount_repeatCmd (K : MpsseConsts) (v d : Nat) (rest : List Nat) :
    ∀ k : Nat,
      clockInCount K (repeatCmd k [K.MPSSE_CMD_SET_DATA_BITS_LOWBYTE, v, d] ++ rest)
        = clockInCount K rest := by
  intro k
  induction k with
  | zero => simp [repeatCmd]
  | succ k ih =>
    simp only [repeatCmd, List.append_assoc, List.cons_append, List.nil_append,
      clockInCount_setPins, ih]

theorem clockInCount_startSequence (K : MpsseConsts) (rest : List Nat) :
    clockInCount K (startSequence K ++ rest) = clockInCount K rest := by
  simp only [startSequence, List.append_assoc, clockInCount_repeatCmd,
    List.cons_append, List.nil_append, clockInCount_setPins]

theorem clockInCount_stopSequence (K : MpsseConsts) (rest : List Nat) :
    clockInCount K (stopSequence K ++ rest) = clockInCount K rest := by
  simp only [stopSequence, List.append_assoc, clockInCount_repeatCmd,
    List.cons_append, List.nil_append, clockInCount_setPins]

theorem clockInCount_fastWritePhase (K : MpsseConsts) (hK : OpcodesDistinct K) (data : Nat)
    (rest : List Nat) :
    clockInCount K (fastWritePhase K data ++ rest) = clockInCount K rest + 1 := by
  simp only [fastWritePhase, List.cons_append, List.nil_append,
    clockInCount_setPins, clockInCount_clockOut K hK, clockInCount_clockIn K hK]

theorem clockInCount_fastReadPhase (K : MpsseConsts) (hK : OpcodesDistinct K) (n j : Nat)
    (rest : List Nat) :
    clockInCount K (fastReadPhase K n j ++ rest) = clockInCount K rest + 1 := by
  unfold fastReadPhase
  split <;>
  simp only [List.cons_append, List.nil_append, List.append_assoc,
    clockInCount_setPins, clockInCount_clockOut K hK, clockInCount_clockIn K hK]

theorem clockInCount_fastWriteData (K : MpsseConsts) (hK : OpcodesDistinct K)
    (buffer rest : List Nat) :
    ∀ (r j : Nat),
      clockInCount K (fastWriteData K buffer r j ++ rest) = clockInCount K rest + r := by
  intro r
  induction r with
  | zero => intro j; simp [fastWriteData]
  | succ r ih =>
    intro j
    simp only [fastWriteData, List.append_assoc, clockInCount_fastWritePhase K hK, ih]
    omega

theorem clockInCount_fastReadData (K : MpsseConsts) (hK : OpcodesDistinct K) (n : Nat)
    (rest : List Nat) :
    ∀ (r j : Nat),
      clockInCount K (fastReadData K n r j ++ rest) = clockInCount K rest + r := by
  intro r
  induction r with
  | zero => intro j; simp [fastReadData]
  | succ r ih =>
    intro j
    simp only [fastReadData, List.append_assoc, clockInCount_fastReadPhase K hK, ih]
    omega

theorem clockInCount_fastWriteCmds (K : MpsseConsts) (hK : OpcodesDistinct K)
    (deviceAddress n : Nat) (buffer : List Nat) (options : Nat) :
    clockInCount K (fastWriteCmds K deviceAddress n buffer options)
      = (if optionSet options I2C_TRANSFER_OPTIONS_NO_ADDRESS then 0 else 1) + n := by
  rw [← List.append_nil (fastWriteCmds K deviceAddress n buffer options)]
  unfold fastWriteCmds
  cases optionSet options I2C_TRANSFER_OPTIONS_START_BIT <;>
  cases optionSet options I2C_TRANSFER_OPTIONS_NO_ADDRESS <;>
  cases optionSet options I2C_TRANSFER_OPTIONS_STOP_BIT <;>
  simp only [List.append_assoc, List.nil_append, Bool.not_true, Bool.not_false,
    Bool.false_eq_true, eq_self_iff_true, if_true, if_false,
    clockInCount_startSequence, clockInCount_fastWritePhase K hK,
    clockInCount_fastWriteData K hK, clockInCount_stopSequence, clockInCount_nil] <;>
  omega

theorem clockInCount_fastReadCmds (K : MpsseConsts) (hK : OpcodesDistinct K)
    (deviceAddress n options : Nat) :
    clockInCount K (fastReadCmds K deviceAddress n options)
      = (if optionSet options I2C_TRANSFER_OPTIONS_NO_ADDRESS then 0 else 1) + n := by
  rw [← List.append_nil (fastReadCmds K deviceAddress n options)]
  unfold fastReadCmds
  cases optionSet options I2C_TRANSFER_OPTIONS_START_BIT <;>
  cases optionSet options I2C_TRANSFER_OPTIONS_NO_ADDRESS <;>
  cases optionSet options I2C_TRANSFER_OPTIONS_STOP_BIT <;>
  simp only [List.append_assoc, List.nil_append, Bool.not_true, Bool.not_false,
    Bool.false_eq_true, eq_self_iff_true, if_true, if_false,
    clockInCount_startSequence, clockInCount_fastWritePhase K hK,
    clockInCount_fastReadData K hK, clockInCount_stopSequence, clockInCount_nil] <;>
  omega

/-! ## The byte primitives: what is written and read -/

theorem write8_trace (K : MpsseConsts) (T : Transport) (s : Chan) (data : Nat) (ack : Bool) :
    (I2C_Write8bitsAndGetAck K T s data ack).chan.trace
      = s.trace ++ Event.write (write8Cmd K data)
          :: (if (T.writeReply s.nWrites (write8Cmd K data)).status = FT_OK
                ∧ (T.writeReply s.nWrites (write8Cmd K data)).transferred = 12
              then [Event.read 1] else []) := by
  unfold I2C_Write8bitsAndGetAck FT_Channel_Read FT_Channel_Write
  dsimp only
  have h12 : (write8Cmd K data).length = 12 := rfl
  rw [h12]
  split_ifs <;> simp_all

theorem read8_trace (K : MpsseConsts) (T : Transport) (s : Chan) (data : Nat) (ack : Bool) :
    (I2C_Read8bitsAndGiveAck K T s data ack).chan.trace
      = s.trace ++ Event.write (read8Cmd K ack)
          :: (if (T.writeReply s.nWrites (read8Cmd K ack)).status = FT_OK
                ∧ (T.writeReply s.nWrites (read8Cmd K ack)).transferred = 15
              then [Event.read 1] else []) := by
  unfold I2C_Read8bitsAndGiveAck FT_Channel_Read FT_Channel_Write
  dsimp only
  have h15 : (read8Cmd K ack).length = 15 := by cases ack <;> rfl
  rw [h15]
  split_ifs <;> simp_all

/-- C31: for every data byte `x`, `I2C_Write8bitsAndGetAck` makes one transport write,
which carries exactly the 12 bytes set-pin-state (SCL low, SDA low, both outputs),
clock-out on the negative edge with the 8-bit length code and `x`, set-pin-state (SCL
low, SDA low, SCL output and SDA input), clock-in on the positive edge with the 1-bit
length code, send-immediate; when that write succeeds in full it is followed by exactly
one transport read, which asks for exactly 1 byte (a failed or short write ends the
call, so that nothing follows it). -/
theorem C31_write8_command (K : MpsseConsts) (T : Transport) (s : Chan) (x : Nat)
    (ack : Bool) :
    (I2C_Write8bitsAndGetAck K T s x ack).chan.trace
      = s.trace
        ++ Event.write
            [ K.MPSSE_CMD_SET_DATA_BITS_LOWBYTE, K.VALUE_SCLLOW_SDALOW,
              K.DIRECTION_SCLOUT_SDAOUT,
              K.MPSSE_CMD_DATA_OUT_BITS_NEG_EDGE, K.DATA_SIZE_8BITS, x,
              K.MPSSE_CMD_SET_DATA_BITS_LOWBYTE, K.VALUE_SCLLOW_SDALOW,
              K.DIRECTION_SCLOUT_SDAIN,
              K.MPSSE_CMD_DATA_IN_BITS_POS_EDGE, K.DATA_SIZE_1BIT,
              K.MPSSE_CMD_SEND_IMMEDIATE ]
          :: (if (T.writeReply s.nWrites (write8Cmd K x)).status = FT_OK
                ∧ (T.writeReply s.nWrites (write8Cmd K x)).transferred = 12
              then [Event.read 1] else []) :=
  write8_trace K T s x ack

/-- C32: for both values of the `ack` argument the one transport write of
`I2C_Read8bitsAndGiveAck` carries exactly 15 bytes: set-pin-state with SDA input,
clock-in of 8 bits on the positive edge, a set-pin-state with SDA output and value low
when `ack` is true and with SDA still input when it is false, clock-out of 1 bit on the
negative edge with data `0x00` for ACK and `0x80` for NACK, set-pin-state with SDA
input, send-immediate. -/
theorem C32_read8_command (K : MpsseConsts) (T : Transport) (s : Chan) (data : Nat)
    (ack : Bool) :
    writesSince s (I2C_Read8bitsAndGiveAck K T s data ack).chan
      = [ if ack then
            [ K.MPSSE_CMD_SET_DATA_BITS_LOWBYTE, K.VALUE_SCLLOW_SDALOW,
              K.DIRECTION_SCLOUT_SDAIN,
              K.MPSSE_CMD_DATA_IN_BITS_POS_EDGE, K.DATA_SIZE_8BITS,
              K.MPSSE_CMD_SET_DATA_BITS_LOWBYTE, K.VALUE_SCLLOW_SDALOW,
              K.DIRECTION_SCLOUT_SDAOUT,
              K.MPSSE_CMD_DATA_OUT_BITS_NEG_EDGE, K.DATA_SIZE_1BIT, 0x00,
              K.MPSSE_CMD_SET_DATA_BITS_LOWBYTE, K.VALUE_SCLLOW_SDALOW,
              K.DIRECTION_SCLOUT_SDAIN,
              K.MPSSE_CMD_SEND_IMMEDIATE ]
          else
            [ K.MPSSE_CMD_SET_DATA_BITS_LOWBYTE, K.VALUE_SCLLOW_SDALOW,
              K.DIRECTION_SCLOUT_SDAIN,
              K.MPSSE_CMD_DATA_IN_BITS_POS_EDGE, K.DATA_SIZE_8BITS,
              K.MPSSE_CMD_SET_DATA_BITS_LOWBYTE, K.VALUE_SCLLOW_SDALOW,
              K.DIRECTION_SCLOUT_SDAIN,
              K.MPSSE_CMD_DATA_OUT_BITS_NEG_EDGE, K.DATA_SIZE_1BIT, 0x80,
              K.MPSSE_CMD_SET_DATA_BITS_LOWBYTE, K.VALUE_SCLLOW_SDALOW,
              K.DIRECTION_SCLOUT_SDAIN,
              K.MPSSE_CMD_SEND_IMMEDIATE ] ]
    ∧ (writesSince s (I2C_Read8bitsAndGiveAck K T s data ack).chan).map List.length
      = [15] := by
  have h : writesSince s (I2C_Read8bitsAndGiveAck K T s data ack).chan = [read8Cmd K ack] := by
    unfold writesSince
    rw [read8_trace, writesOf_drop]
    split_ifs <;> rfl
  rw [h]
  cases ack <;> simp [read8Cmd, SEND_ACK, SEND_NACK]

/-- C35: once `I2C_FastWrite` or `I2C_FastRead` has passed the flag check and the
allocation of the command buffer, `*sizeTransferred` is `sizeToTransfer` when the call
returns, whatever the transport answers to the write and to the reads (failure, short
write, failed or short reply read). -/
theorem C35_fast_count_set (K : MpsseConsts) (T : Transport) (s : Chan)
    (deviceAddress n : Nat) (buffer : List Nat) (ack : Option (List Nat))
    (sizeTransferred options : Nat)
    (hbytes : optionSet options I2C_TRANSFER_OPTIONS_FAST_TRANSFER_BYTES = true) :
    (T.malloc s.nAllocs (fastWriteSizeTotal n options) = true →
      (I2C_FastWrite K T s deviceAddress n buffer ack sizeTransferred
        options).sizeTransferred = n)
    ∧ (T.malloc s.nAllocs (fastReadSizeTotal n options) = true →
      (I2C_FastRead K T s deviceAddress n buffer ack sizeTransferred
        options).sizeTransferred = n) := by
  constructor
  · intro hm
    unfold I2C_FastWrite INFRA_MALLOC
    simp only [hbytes, hm, Bool.not_true, Bool.false_eq_true, if_false]
    split_ifs <;> rfl
  · intro hm
    unfold I2C_FastRead INFRA_MALLOC
    simp only [hbytes, hm, Bool.not_true, Bool.false_eq_true, if_false]
    split_ifs <;> rfl

/-- Witness of C35: a three-byte fast write and fast read on a transport whose writes
fail with `FT_IO_ERROR`; the count is 3 all the same. -/
theorem C35_fast_count_set_witness :
    (I2C_FastWrite ftdiConsts (failingWriteTransport (fun _ => 0)) Chan.fresh 0x50 3
        [0x11, 0x22, 0x33] none 99 0x13).sizeTransferred = 3
    ∧ (I2C_FastRead ftdiConsts (failingWriteTransport (fun _ => 0)) Chan.fresh 0x50 3
        [0, 0, 0] none 99 0x13).sizeTransferred = 3 :=
  ⟨(C35_fast_count_set ftdiConsts (failingWriteTransport (fun _ => 0)) Chan.fresh 0x50 3
      [0x11, 0x22, 0x33] none 99 0x13 (by decide)).1 rfl,
    (C35_fast_count_set ftdiConsts (failingWriteTransport (fun _ => 0)) Chan.fresh 0x50 3
      [0, 0, 0] none 99 0x13 (by decide)).2 rfl⟩

/-! ## The transferred count of the normal path -/

/-- C36: on the normal path of `I2C_DeviceWrite` and `I2C_DeviceRead`, a failed START
stage, a failed address phase and an address that is not acknowledged leave
`*sizeTransferred` at the value it had before the call, and so does the `return` taken
inside the write loop (break on NACK); the variable is written only when the data loop
has run to its end, and then with the loop index. -/
theorem C36_count_kept_on_early_exit (K : MpsseConsts) (T : Transport) (s : Chan)
    (deviceAddress sizeToTransfer : Nat) (buffer : List Nat) (sizeTransferred options : Nat)
    (ha : deviceAddress ≤ 127)
    (hfast : optionSet options I2C_TRANSFER_OPTIONS_FAST_TRANSFER = false) :
    ((failed (startStage K T s options).1 = true
        ∨ failed (addressStage K T s deviceAddress false options).status = true
        ∨ (addressStage K T s deviceAddress false options).ack = true) →
      (I2C_DeviceWrite K T s deviceAddress sizeToTransfer buffer sizeTransferred
        options).sizeTransferred = sizeTransferred)
    ∧ ((failed (startStage K T s options).1 = true
        ∨ failed (addressStage K T s deviceAddress true options).status = true
        ∨ (addressStage K T s deviceAddress true options).ack = true) →
      (I2C_DeviceRead K T s deviceAddress sizeToTransfer buffer sizeTransferred
        options).sizeTransferred = sizeTransferred)
    ∧ (∀ status chan,
        deviceWriteLoop K T buffer options sizeToTransfer 0
            (addressStage K T s deviceAddress false options).status
            (addressStage K T s deviceAddress false options).chan
          = LoopExit.returned status chan →
        (I2C_DeviceWrite K T s deviceAddress sizeToTransfer buffer sizeTransferred
          options).sizeTransferred = sizeTransferred)
    ∧ ((I2C_DeviceWrite K T s deviceAddress sizeToTransfer buffer sizeTransferred
          options).sizeTransferred ≠ sizeTransferred →
        failed (startStage K T s options).1 = false
        ∧ failed (addressStage K T s deviceAddress false options).status = false
        ∧ (addressStage K T s deviceAddress false options).ack = false
        ∧ ∃ status chan,
            deviceWriteLoop K T buffer options sizeToTransfer 0
                (addressStage K T s deviceAddress false options).status
                (addressStage K T s deviceAddress false options).chan
              = LoopExit.finished
                  (I2C_DeviceWrite K T s deviceAddress sizeToTransfer buffer sizeTransferred
                    options).sizeTransferred status chan)
    ∧ ((I2C_DeviceRead K T s deviceAddress sizeToTransfer buffer sizeTransferred
          options).sizeTransferred ≠ sizeTransferred →
        failed (startStage K T s options).1 = false
        ∧ failed (addressStage K T s deviceAddress true options).status = false
        ∧ (addressStage K T s deviceAddress true options).ack = false
        ∧ (deviceReadLoop K T sizeToTransfer options sizeToTransfer 0
              (addressStage K T s deviceAddress true options).status buffer
              (addressStage K T s deviceAddress true options).chan).i
            = (I2C_DeviceRead K T s deviceAddress sizeToTransfer buffer sizeTransferred
                options).sizeTransferred) := by
  have hna : ¬ deviceAddress > 127 := by omega
  unfold I2C_DeviceWrite I2C_DeviceRead addressStage startStage
  simp only [hna, if_false, hfast, Bool.false_eq_true]
  generalize (if optionSet options I2C_TRANSFER_OPTIONS_START_BIT = true then
      I2C_Start K T (Mid_PurgeDevice (LOCK_CHANNEL s))
    else (FT_OK, Mid_PurgeDevice (LOCK_CHANNEL s))) = st
  generalize I2C_WriteDeviceAddress K T st.2 deviceAddress false false false = aw
  generalize I2C_WriteDeviceAddress K T st.2 deviceAddress true false false = ar
  generalize deviceWriteLoop K T buffer options sizeToTransfer 0 aw.status aw.chan = lw
  generalize deviceReadLoop K T sizeToTransfer options sizeToTransfer 0 ar.status buffer
    ar.chan = lr
  cases hs : failed st.1 <;> cases haw : failed aw.status <;> cases har : failed ar.status <;>
    cases hwa : aw.ack <;> cases hra : ar.ack <;> cases lw <;>
    simp <;> split_ifs <;> simp_all

/-- Witness of C36: a write and a read of three bytes whose address is not
acknowledged; the count keeps its value 99. -/
theorem C36_count_kept_on_early_exit_witness :
    (I2C_DeviceWrite ftdiConsts (scriptedTransport (fun _ => 1)) Chan.fresh 0x50 3
        [0x11, 0x22, 0x33] 99 0x03).sizeTransferred = 99
    ∧ (I2C_DeviceRead ftdiConsts (scriptedTransport (fun _ => 1)) Chan.fresh 0x50 3
        [0, 0, 0] 99 0x03).sizeTransferred = 99 :=
  ⟨(C36_count_kept_on_early_exit ftdiConsts (scriptedTransport (fun _ => 1)) Chan.fresh 0x50 3
      [0x11, 0x22, 0x33] 99 0x03 (by decide) (by decide)).1 (Or.inr (Or.inr (by decide))),
    (C36_count_kept_on_early_exit ftdiConsts (scriptedTransport (fun _ => 1)) Chan.fresh 0x50 3
      [0, 0, 0] 99 0x03 (by decide) (by decide)).2.1 (Or.inr (Or.inr (by decide)))⟩

/-! ## Stores of the fast serializers beyond the allocation -/

theorem fastWriteCmds_first_phase (K : MpsseConsts) (deviceAddress m : Nat)
    (buffer : List Nat) :
    fastWriteCmds K deviceAddress (m + 1) buffer 0x50
      = fastWritePhase K (buffer.getD 0 0) ++ fastWriteData K buffer m 1 := by
  have h1 : optionSet 0x50 I2C_TRANSFER_OPTIONS_START_BIT = false := by decide
  have h2 : optionSet 0x50 I2C_TRANSFER_OPTIONS_NO_ADDRESS = true := by decide
  have h3 : optionSet 0x50 I2C_TRANSFER_OPTIONS_STOP_BIT = false := by decide
  unfold fastWriteCmds
  rw [h1, h2, h3]
  simp only [Bool.false_eq_true, if_false, Bool.not_true, List.nil_append, List.append_nil,
    fastWriteData, zero_add]

theorem fastReadCmds_first_phase (K : MpsseConsts) (deviceAddress m : Nat) :
    fastReadCmds K deviceAddress (m + 1) 0x50
      = fastReadPhase K (m + 1) 0 ++ fastReadData K (m + 1) m 1 := by
  have h1 : optionSet 0x50 I2C_TRANSFER_OPTIONS_START_BIT = false := by decide
  have h2 : optionSet 0x50 I2C_TRANSFER_OPTIONS_NO_ADDRESS = true := by decide
  have h3 : optionSet 0x50 I2C_TRANSFER_OPTIONS_STOP_BIT = false := by decide
  unfold fastReadCmds
  rw [h1, h2, h3]
  simp only [Bool.false_eq_true, if_false, Bool.not_true, List.nil_append, List.append_nil,
    fastReadData, zero_add]

/-- C37, evaluated at a length whose byte count exceeds `2^32`: with
`FAST_TRANSFER_BYTES | NO_ADDRESS` and 390451573 bytes `I2C_FastWrite` allocates
`sizeTotal = 7` bytes and stores a byte at index 7 (the pin value of the second
set-pin-state command of data byte 0); with 306783379 bytes `I2C_FastRead` allocates
`sizeTotal = 10` bytes and stores a byte at index 10 (the clocked-out ACK bit of data
byte 0). -/
theorem C37_store_beyond_allocation (buffer : List Nat) :
    fastWriteSizeTotal 390451573 0x50 = 7
    ∧ (fastWriteCmds ftdiConsts 0x50 390451573 buffer 0x50)[7]?
        = some ftdiConsts.VALUE_SCLLOW_SDALOW
    ∧ fastReadSizeTotal 306783379 0x50 = 10
    ∧ (fastReadCmds ftdiConsts 0x50 306783379 0x50)[10]? = some SEND_ACK := by
  refine ⟨by decide, ?_, by decide, ?_⟩
  · rw [fastWriteCmds_first_phase ftdiConsts 0x50 390451572 buffer]
    rfl
  · rw [fastReadCmds_first_phase ftdiConsts 0x50 306783378,
      fastReadPhase_eq ftdiConsts (306783378 + 1) 0 (by omega) (by unfold UINT32_MOD; omega),
      if_pos (by omega), List.getElem?_append_left (by decide)]
    rfl

/-! ## The option bits the normal path looks at -/

theorem optionSet_or_no_address (options mask : Nat)
    (h : mask &&& I2C_TRANSFER_OPTIONS_NO_ADDRESS = 0) :
    optionSet (options ||| I2C_TRANSFER_OPTIONS_NO_ADDRESS) mask = optionSet options mask := by
  unfold optionSet
  rw [Nat.and_comm, Nat.and_or_distrib_left, h, Nat.or_zero, Nat.and_comm]

theorem optionSet_eq_of_or_eq (o1 o2 mask : Nat)
    (h : o1 ||| I2C_TRANSFER_OPTIONS_NO_ADDRESS = o2 ||| I2C_TRANSFER_OPTIONS_NO_ADDRESS)
    (hm : mask &&& I2C_TRANSFER_OPTIONS_NO_ADDRESS = 0) :
    optionSet o1 mask = optionSet o2 mask := by
  rw [← optionSet_or_no_address o1 mask hm, h, optionSet_or_no_address o2 mask hm]

theorem deviceWriteLoop_congr (K : MpsseConsts) (T : Transport) (buffer : List Nat)
    (o1 o2 : Nat)
    (hB : optionSet o1 I2C_TRANSFER_OPTIONS_BREAK_ON_NACK
      = optionSet o2 I2C_TRANSFER_OPTIONS_BREAK_ON_NACK)
    (hP : optionSet o1 I2C_TRANSFER_OPTIONS_STOP_BIT
      = optionSet o2 I2C_TRANSFER_OPTIONS_STOP_BIT) :
    ∀ (r i : Nat) (status : FT_STATUS) (s : Chan),
      deviceWriteLoop K T buffer o1 r i status s = deviceWriteLoop K T buffer o2 r i status s := by
  intro r
  induction r with
  | zero => intro i status s; rfl
  | succ r ih =>
    intro i status s
    unfold deviceWriteLoop
    simp only [hB, hP, ih]

theorem readAckArg_congr (n o1 o2 i : Nat)
    (hN : optionSet o1 I2C_TRANSFER_OPTIONS_NACK_LAST_BYTE
      = optionSet o2 I2C_TRANSFER_OPTIONS_NACK_LAST_BYTE) :
    readAckArg n o1 i = readAckArg n o2 i := by
  unfold readAckArg
  rw [hN]

theorem deviceReadLoop_congr (K : MpsseConsts) (T : Transport) (n o1 o2 : Nat)
    (hN : optionSet o1 I2C_TRANSFER_OPTIONS_NACK_LAST_BYTE
      = optionSet o2 I2C_TRANSFER_OPTIONS_NACK_LAST_BYTE) :
    ∀ (r i : Nat) (status : FT_STATUS) (buffer : List Nat) (s : Chan),
      deviceReadLoop K T n o1 r i status buffer s
        = deviceReadLoop K T n o2 r i status buffer s := by
  intro r
  induction r with
  | zero => intro i status buffer s; rfl
  | succ r ih =>
    intro i status buffer s
    unfold deviceReadLoop
    simp only [readAckArg_congr n o1 o2 i hN, ih]

theorem deviceWrite_normal_congr (K : MpsseConsts) (T : Transport) (s : Chan)
    (deviceAddress sizeToTransfer : Nat) (buffer : List Nat) (sizeTransferred o1 o2 : Nat)
    (hF : optionSet o1 I2C_TRANSFER_OPTIONS_FAST_TRANSFER
      = optionSet o2 I2C_TRANSFER_OPTIONS_FAST_TRANSFER)
    (hf1 : optionSet o1 I2C_TRANSFER_OPTIONS_FAST_TRANSFER = false)
    (hS : optionSet o1 I2C_TRANSFER_OPTIONS_START_BIT
      = optionSet o2 I2C_TRANSFER_OPTIONS_START_BIT)
    (hP : optionSet o1 I2C_TRANSFER_OPTIONS_STOP_BIT
      = optionSet o2 I2C_TRANSFER_OPTIONS_STOP_BIT)
    (hB : optionSet o1 I2C_TRANSFER_OPTIONS_BREAK_ON_NACK
      = optionSet o2 I2C_TRANSFER_OPTIONS_BREAK_ON_NACK) :
    I2C_DeviceWrite K T s deviceAddress sizeToTransfer buffer sizeTransferred o1
      = I2C_DeviceWrite K T s deviceAddress sizeToTransfer buffer sizeTransferred o2 := by
  have hf2 : optionSet o2 I2C_TRANSFER_OPTIONS_FAST_TRANSFER = false := by rw [← hF, hf1]
  unfold I2C_DeviceWrite
  simp only [hf1, hf2, Bool.false_eq_true, if_false, hS, hP,
    deviceWriteLoop_congr K T buffer o1 o2 hB hP]

theorem deviceRead_normal_congr (K : MpsseConsts) (T : Transport) (s : Chan)
    (deviceAddress sizeToTransfer : Nat) (buffer : List Nat) (sizeTransferred o1 o2 : Nat)
    (hF : optionSet o1 I2C_TRANSFER_OPTIONS_FAST_TRANSFER
      = optionSet o2 I2C_TRANSFER_OPTIONS_FAST_TRANSFER)
    (hf1 : optionSet o1 I2C_TRANSFER_OPTIONS_FAST_TRANSFER = false)
    (hS : optionSet o1 I2C_TRANSFER_OPTIONS_START_BIT
      = optionSet o2 I2C_TRANSFER_OPTIONS_START_BIT)
    (hP : optionSet o1 I2C_TRANSFER_OPTIONS_STOP_BIT
      = optionSet o2 I2C_TRANSFER_OPTIONS_STOP_BIT)
    (hN : optionSet o1 I2C_TRANSFER_OPTIONS_NACK_LAST_BYTE
      = optionSet o2 I2C_TRANSFER_OPTIONS_NACK_LAST_BYTE) :
    I2C_DeviceRead K T s deviceAddress sizeToTransfer buffer sizeTransferred o1
      = I2C_DeviceRead K T s deviceAddress sizeToTransfer buffer sizeTransferred o2 := by
  have hf2 : optionSet o2 I2C_TRANSFER_OPTIONS_FAST_TRANSFER = false := by rw [← hF, hf1]
  unfold I2C_DeviceRead
  simp only [hf1, hf2, Bool.false_eq_true, if_false, hS, hP,
    deviceReadLoop_congr K T sizeToTransfer o1 o2 hN]

/-! ## The trace only grows -/

theorem write8_trace_ext (K : MpsseConsts) (T : Transport) (s : Chan) (data : Nat)
    (ack : Bool) :
    ∃ ext, (I2C_Write8bitsAndGetAck K T s data ack).chan.trace = s.trace ++ ext :=
  ⟨_, write8_trace K T s data ack⟩

theorem read8_trace_ext (K : MpsseConsts) (T : Transport) (s : Chan) (data : Nat)
    (ack : Bool) :
    ∃ ext, (I2C_Read8bitsAndGiveAck K T s data ack).chan.trace = s.trace ++ ext :=
  ⟨_, read8_trace K T s data ack⟩

theorem stop_trace (K : MpsseConsts) (T : Transport) (s : Chan) :
    (I2C_Stop K T s).2.trace = s.trace ++ [Event.write (stopSequence K)] := rfl

theorem deviceWriteLoop_trace_ext (K : MpsseConsts) (T : Transport) (buffer : List Nat)
    (options : Nat) :
    ∀ (r i : Nat) (status : FT_STATUS) (s : Chan),
      ∃ ext, (deviceWriteLoop K T buffer options r i status s).chan.trace = s.trace ++ ext := by
  intro r
  induction r with
  | zero => intro i status s; exact ⟨[], by simp [deviceWriteLoop, LoopExit.chan]⟩
  | succ r ih =>
    intro i status s
    unfold deviceWriteLoop
    obtain ⟨e1, h1⟩ := write8_trace_ext K T s (buffer.getD i 0) false
    obtain ⟨e2, h2⟩ := ih (i + 1) (I2C_Write8bitsAndGetAck K T s (buffer.getD i 0) false).status
      (I2C_Write8bitsAndGetAck K T s (buffer.getD i 0) false).chan
    dsimp only
    split_ifs
    · exact ⟨e1 ++ [Event.write (stopSequence K)], by
        simp only [LoopExit.chan, stop_trace, h1, List.append_assoc]⟩
    · exact ⟨e1 ++ [Event.write (stopSequence K)], by
        simp only [LoopExit.chan, stop_trace, h1, List.append_assoc]⟩
    · exact ⟨e1, by simp only [LoopExit.chan, h1]⟩
    · exact ⟨e1 ++ e2, by rw [h2, h1, List.append_assoc]⟩
    · exact ⟨e1 ++ e2, by rw [h2, h1, List.append_assoc]⟩
    · exact ⟨[], by simp [LoopExit.chan]⟩

theorem deviceReadLoop_trace_ext (K : MpsseConsts) (T : Transport) (n options : Nat) :
    ∀ (r i : Nat) (status : FT_STATUS) (buffer : List Nat) (s : Chan),
      ∃ ext, (deviceReadLoop K T n options r i status buffer s).chan.trace
        = s.trace ++ ext := by
  intro r
  induction r with
  | zero => intro i status buffer s; exact ⟨[], by simp [deviceReadLoop]⟩
  | succ r ih =>
    intro i status buffer s
    unfold deviceReadLoop
    obtain ⟨e1, h1⟩ := read8_trace_ext K T s (buffer.getD i 0) (readAckArg n options i)
    obtain ⟨e2, h2⟩ := ih (i + 1)
      (I2C_Read8bitsAndGiveAck K T s (buffer.getD i 0) (readAckArg n options i)).status
      (buffer.set i
        (I2C_Read8bitsAndGiveAck K T s (buffer.getD i 0) (readAckArg n options i)).data)
      (I2C_Read8bitsAndGiveAck K T s (buffer.getD i 0) (readAckArg n options i)).chan
    dsimp only
    split_ifs
    · exact ⟨e1 ++ e2, by rw [h2, h1, List.append_assoc]⟩
    · exact ⟨[], by simp⟩

theorem startStage_trace (K : MpsseConsts) (T : Transport) (s : Chan) (options : Nat) :
    (startStage K T s options).2.trace
      = s.trace ++ [Event.lock, Event.purge] ++ startOps K options := by
  unfold startStage startOps
  split <;>
  simp [I2C_Start, FT_Channel_Write, Mid_PurgeDevice, LOCK_CHANNEL]

theorem addressStage_trace (K : MpsseConsts) (T : Transport) (s : Chan) (deviceAddress : Nat)
    (direction : Bool) (options : Nat) :
    ∃ ext, (addressStage K T s deviceAddress direction options).chan.trace
      = s.trace ++ [Event.lock, Event.purge] ++ startOps K options
        ++ [Event.write (write8Cmd K (addressByte deviceAddress direction))] ++ ext := by
  unfold addressStage I2C_WriteDeviceAddress
  simp only [Bool.not_false, if_true]
  rw [write8_trace, startStage_trace]
  exact ⟨_, (List.append_assoc _
    [Event.write (write8Cmd K (addressByte deviceAddress direction))] _).symm⟩

theorem deviceWrite_trace_after_address (K : MpsseConsts) (T : Transport) (s : Chan)
    (deviceAddress sizeToTransfer : Nat) (buffer : List Nat) (sizeTransferred options : Nat)
    (ha : deviceAddress ≤ 127)
    (hfast : optionSet options I2C_TRANSFER_OPTIONS_FAST_TRANSFER = false)
    (hst : failed (startStage K T s options).1 = false) :
    ∃ ext, (I2C_DeviceWrite K T s deviceAddress sizeToTransfer buffer sizeTransferred
        options).chan.trace
      = (addressStage K T s deviceAddress false options).chan.trace ++ ext := by
  have hna : ¬ deviceAddress > 127 := by omega
  unfold I2C_DeviceWrite addressStage
  unfold startStage at hst ⊢
  simp only [hna, if_false, hfast, Bool.false_eq_true]
  generalize (if optionSet options I2C_TRANSFER_OPTIONS_START_BIT = true then
      I2C_Start K T (Mid_PurgeDevice (LOCK_CHANNEL s))
    else (FT_OK, Mid_PurgeDevice (LOCK_CHANNEL s))) = st at hst ⊢
  simp only [hst, Bool.false_eq_true, if_false]
  generalize I2C_WriteDeviceAddress K T st.2 deviceAddress false false false = aw
  obtain ⟨e, he⟩ := deviceWriteLoop_trace_ext K T buffer options sizeToTransfer 0 aw.status
    aw.chan
  generalize deviceWriteLoop K T buffer options sizeToTransfer 0 aw.status aw.chan = lw at he
  cases lw <;> simp only [LoopExit.chan] at he <;> (try dsimp only) <;> (repeat' split) <;>
    simp [unlock_trace, stop_trace, he]

theorem deviceRead_trace_after_address (K : MpsseConsts) (T : Transport) (s : Chan)
    (deviceAddress sizeToTransfer : Nat) (buffer : List Nat) (sizeTransferred options : Nat)
    (ha : deviceAddress ≤ 127)
    (hfast : optionSet options I2C_TRANSFER_OPTIONS_FAST_TRANSFER = false)
    (hst : failed (startStage K T s options).1 = false) :
    ∃ ext, (I2C_DeviceRead K T s deviceAddress sizeToTransfer buffer sizeTransferred
        options).chan.trace
      = (addressStage K T s deviceAddress true options).chan.trace ++ ext := by
  have hna : ¬ deviceAddress > 127 := by omega
  unfold I2C_DeviceRead addressStage
  unfold startStage at hst ⊢
  simp only [hna, if_false, hfast, Bool.false_eq_true]
  generalize (if optionSet options I2C_TRANSFER_OPTIONS_START_BIT = true then
      I2C_Start K T (Mid_PurgeDevice (LOCK_CHANNEL s))
    else (FT_OK, Mid_PurgeDevice (LOCK_CHANNEL s))) = st at hst ⊢
  simp only [hst, Bool.false_eq_true, if_false]
  generalize I2C_WriteDeviceAddress K T st.2 deviceAddress true false false = ar
  obtain ⟨e, he⟩ := deviceReadLoop_trace_ext K T sizeToTransfer options sizeToTransfer 0
    ar.status buffer ar.chan
  generalize deviceReadLoop K T sizeToTransfer options sizeToTransfer 0 ar.status buffer
    ar.chan = lr at he
  (repeat' split) <;> simp [unlock_trace, stop_trace, he]

theorem writesSince_after_address (K : MpsseConsts) (s c : Chan) (options : Nat)
    (cmd : List Nat) (ext : List Event)
    (h : c.trace = s.trace ++ [Event.lock, Event.purge] ++ startOps K options
        ++ [Event.write cmd] ++ ext) :
    writesSince s c
      = (if optionSet options I2C_TRANSFER_OPTIONS_START_BIT then [startSequence K] else [])
        ++ [cmd] ++ writesOf ext := by
  unfold writesSince
  rw [h]
  simp only [List.append_assoc]
  rw [writesOf_drop]
  simp only [writesOf_append, writesOf_startOps, writesOf_entry, List.nil_append]
  rfl

/-- C38: on the normal path (both fast-transfer bits clear) two option words that
differ at most in the NO_ADDRESS bit give the same result of `I2C_DeviceWrite` and of
`I2C_DeviceRead`: same status, same `*sizeTransferred`, same buffer and same channel
trace, hence the same bytes handed to the transport; and whenever the address is in
range and the START stage does not fail, the address command is written right after the
START sequence (if any), whatever the NO_ADDRESS bit is. -/
theorem C38_no_address_ignored (K : MpsseConsts) (T : Transport) (s : Chan)
    (deviceAddress sizeToTransfer : Nat) (buffer : List Nat) (sizeTransferred o1 o2 : Nat)
    (hfast : optionSet o1 I2C_TRANSFER_OPTIONS_FAST_TRANSFER = false)
    (h : o1 ||| I2C_TRANSFER_OPTIONS_NO_ADDRESS = o2 ||| I2C_TRANSFER_OPTIONS_NO_ADDRESS) :
    I2C_DeviceWrite K T s deviceAddress sizeToTransfer buffer sizeTransferred o1
      = I2C_DeviceWrite K T s deviceAddress sizeToTransfer buffer sizeTransferred o2
    ∧ I2C_DeviceRead K T s deviceAddress sizeToTransfer buffer sizeTransferred o1
      = I2C_DeviceRead K T s deviceAddress sizeToTransfer buffer sizeTransferred o2
    ∧ (deviceAddress ≤ 127 → failed (startStage K T s o1).1 = false →
        (∃ rest,
          writesSince s (I2C_DeviceWrite K T s deviceAddress sizeToTransfer buffer
              sizeTransferred o1).chan
            = (if optionSet o1 I2C_TRANSFER_OPTIONS_START_BIT then [startSequence K] else [])
              ++ [write8Cmd K (addressByte deviceAddress false)] ++ rest)
        ∧ ∃ rest,
          writesSince s (I2C_DeviceRead K T s deviceAddress sizeToTransfer buffer
              sizeTransferred o1).chan
            = (if optionSet o1 I2C_TRANSFER_OPTIONS_START_BIT then [startSequence K] else [])
              ++ [write8Cmd K (addressByte deviceAddress true)] ++ rest) := by
  have hF := optionSet_eq_of_or_eq o1 o2 I2C_TRANSFER_OPTIONS_FAST_TRANSFER h (by decide)
  have hS := optionSet_eq_of_or_eq o1 o2 I2C_TRANSFER_OPTIONS_START_BIT h (by decide)
  have hP := optionSet_eq_of_or_eq o1 o2 I2C_TRANSFER_OPTIONS_STOP_BIT h (by decide)
  have hB := optionSet_eq_of_or_eq o1 o2 I2C_TRANSFER_OPTIONS_BREAK_ON_NACK h (by decide)
  have hN := optionSet_eq_of_or_eq o1 o2 I2C_TRANSFER_OPTIONS_NACK_LAST_BYTE h (by decide)
  refine ⟨deviceWrite_normal_congr K T s deviceAddress sizeToTransfer buffer sizeTransferred
      o1 o2 hF hfast hS hP hB,
    deviceRead_normal_congr K T s deviceAddress sizeToTransfer buffer sizeTransferred
      o1 o2 hF hfast hS hP hN, ?_⟩
  intro ha hst
  constructor
  · obtain ⟨e1, h1⟩ := deviceWrite_trace_after_address K T s deviceAddress sizeToTransfer
      buffer sizeTransferred o1 ha hfast hst
    obtain ⟨e2, h2⟩ := addressStage_trace K T s deviceAddress false o1
    rw [h2, List.append_assoc] at h1
    exact ⟨_, writesSince_after_address K s _ o1 _ _ h1⟩
  · obtain ⟨e1, h1⟩ := deviceRead_trace_after_address K T s deviceAddress sizeToTransfer
      buffer sizeTransferred o1 ha hfast hst
    obtain ⟨e2, h2⟩ := addressStage_trace K T s deviceAddress true o1
    rw [h2, List.append_assoc] at h1
    exact ⟨_, writesSince_after_address K s _ o1 _ _ h1⟩

/-- Witness of C38: a three-byte write and read with `START | STOP` and with
`START | STOP | NO_ADDRESS`, data byte 1 of the write not acknowledged. -/
theorem C38_no_address_ignored_witness :
    I2C_DeviceWrite ftdiConsts (scriptedTransport (fun k => if k = 2 then 1 else 0)) Chan.fresh
        0x50 3 [0x11, 0x22, 0x33] 99 0x03
      = I2C_DeviceWrite ftdiConsts (scriptedTransport (fun k => if k = 2 then 1 else 0))
          Chan.fresh 0x50 3 [0x11, 0x22, 0x33] 99 0x43
    ∧ I2C_DeviceRead ftdiConsts (scriptedTransport (fun k => if k = 2 then 1 else 0)) Chan.fresh
        0x50 3 [0, 0, 0] 99 0x03
      = I2C_DeviceRead ftdiConsts (scriptedTransport (fun k => if k = 2 then 1 else 0))
          Chan.fresh 0x50 3 [0, 0, 0] 99 0x43 :=
  ⟨(C38_no_address_ignored ftdiConsts (scriptedTransport (fun k => if k = 2 then 1 else 0))
      Chan.fresh 0x50 3 [0x11, 0x22, 0x33] 99 0x03 0x43 (by decide) (by decide)).1,
    (C38_no_address_ignored ftdiConsts (scriptedTransport (fun k => if k = 2 then 1 else 0))
      Chan.fresh 0x50 3 [0, 0, 0] 99 0x03 0x43 (by decide) (by decide)).2.1⟩

/-! ## Replies asked for by the fast path -/

theorem readsOf_append (a b : List Event) : readsOf (a ++ b) = readsOf a ++ readsOf b := by
  simp [readsOf]

theorem readsOf_drop (a b : List Event) :
    (readsOf (a ++ b)).drop (readsOf a).length = readsOf b := by
  rw [readsOf_append, List.drop_left]

theorem fastWrite_trace_full (K : MpsseConsts) (T : Transport) (s : Chan)
    (deviceAddress n : Nat) (buffer : List Nat) (ack : Option (List Nat))
    (sizeTransferred options : Nat)
    (hbytes : optionSet options I2C_TRANSFER_OPTIONS_FAST_TRANSFER_BYTES = true)
    (hA : AllocationsSucceed T) (hW : WritesSucceed T) (hR : ReadsSucceed T) :
    (I2C_FastWrite K T s deviceAddress n buffer ack sizeTransferred options).chan.trace
      = s.trace
        ++ ([Event.write (storedUpToIndex (fastWriteCmds K deviceAddress n buffer options))]
        ++ (if optionSet options I2C_TRANSFER_OPTIONS_NO_ADDRESS then [] else [Event.read 1])
        ++ [Event.read n]) := by
  have hr : ∀ k c, (T.readReply k c).status = FT_OK := fun k c => (hR k c).1
  unfold I2C_FastWrite
  cases hna : optionSet options I2C_TRANSFER_OPTIONS_NO_ADDRESS <;>
    simp [hbytes, INFRA_MALLOC, hA _ _, FT_Channel_Write, hW _ _, FT_Channel_Read, hr,
      failed_ok]

theorem fastRead_trace_full (K : MpsseConsts) (T : Transport) (s : Chan)
    (deviceAddress n : Nat) (buffer : List Nat) (ack : Option (List Nat))
    (sizeTransferred options : Nat)
    (hbytes : optionSet options I2C_TRANSFER_OPTIONS_FAST_TRANSFER_BYTES = true)
    (hA : AllocationsSucceed T) (hW : WritesSucceed T) (hR : ReadsSucceed T) :
    (I2C_FastRead K T s deviceAddress n buffer ack sizeTransferred options).chan.trace
      = s.trace ++ ([Event.write (storedUpToIndex (fastReadCmds K deviceAddress n options))]
        ++ (if optionSet options I2C_TRANSFER_OPTIONS_NO_ADDRESS then [] else [Event.read 1])
        ++ [Event.read n]) := by
  have hr : ∀ k c, (T.readReply k c).status = FT_OK := fun k c => (hR k c).1
  unfold I2C_FastRead
  cases hna : optionSet options I2C_TRANSFER_OPTIONS_NO_ADDRESS <;>
    simp [hbytes, INFRA_MALLOC, hA _ _, FT_Channel_Write, hW _ _, FT_Channel_Read, hr,
      failed_ok]

theorem fast_trace_accounts (w : List Nat) (options n : Nat) :
    writesOf ([Event.write w]
        ++ (if optionSet options I2C_TRANSFER_OPTIONS_NO_ADDRESS then [] else [Event.read 1])
        ++ [Event.read n]) = [w]
    ∧ (readsOf ([Event.write w]
        ++ (if optionSet options I2C_TRANSFER_OPTIONS_NO_ADDRESS then [] else [Event.read 1])
        ++ [Event.read n])).sum
      = (if optionSet options I2C_TRANSFER_OPTIONS_NO_ADDRESS then 0 else 1) + n := by
  cases optionSet options I2C_TRANSFER_OPTIONS_NO_ADDRESS <;>
    simp [writesOf, readsOf, Event.written]

/-- Counterexample to C39 as stated: a fast write of three bytes with the address phase
on a transport whose calls all succeed but on which the allocation of the reply buffer
fails returns `FT_OK` with 4 clock-in commands in the buffer written and 1 reply byte
asked for; a fast read of three bytes whose write fails returns `FT_IO_ERROR` with 4
clock-in commands in the buffer handed over and no reply byte asked for. -/
theorem C39_counterexample :
    (I2C_FastWrite ftdiConsts (replyAllocFailsTransport (fun _ => 0)) Chan.fresh 0x50 3
        [0x11, 0x22, 0x33] none 99 0x10).status = FT_OK
    ∧ ((writesSince Chan.fresh (I2C_FastWrite ftdiConsts
          (replyAllocFailsTransport (fun _ => 0)) Chan.fresh 0x50 3 [0x11, 0x22, 0x33] none
          99 0x10).chan).map (clockInCount ftdiConsts)).sum = 4
    ∧ (readsSince Chan.fresh (I2C_FastWrite ftdiConsts
          (replyAllocFailsTransport (fun _ => 0)) Chan.fresh 0x50 3 [0x11, 0x22, 0x33] none
          99 0x10).chan).sum = 1
    ∧ (I2C_FastRead ftdiConsts (failingWriteTransport (fun _ => 0)) Chan.fresh 0x50 3
        [0, 0, 0] none 99 0x10).status = FT_IO_ERROR
    ∧ ((writesSince Chan.fresh (I2C_FastRead ftdiConsts
          (failingWriteTransport (fun _ => 0)) Chan.fresh 0x50 3 [0, 0, 0] none
          99 0x10).chan).map (clockInCount ftdiConsts)).sum = 4
    ∧ (readsSince Chan.fresh (I2C_FastRead ftdiConsts
          (failingWriteTransport (fun _ => 0)) Chan.fresh 0x50 3 [0, 0, 0] none
          99 0x10).chan).sum = 0 := by
  decide

/-- C39, amended: on a fast write or fast read whose command bytes number fewer than
`2^32`, whose allocations succeed and whose transport calls report success, the number
of clock-in commands in the command buffer handed to the transport equals the number
of reply bytes the function then asks the transport for, namely
(1 if NO_ADDRESS is clear) + n. -/
theorem C39_reply_accounting (K : MpsseConsts) (T : Transport) (s : Chan)
    (deviceAddress n : Nat) (buffer : List Nat) (ack : Option (List Nat))
    (sizeTransferred options : Nat) (hK : OpcodesDistinct K)
    (hbytes : optionSet options I2C_TRANSFER_OPTIONS_FAST_TRANSFER_BYTES = true)
    (hA : AllocationsSucceed T) (hW : WritesSucceed T) (hR : ReadsSucceed T) :
    (fastByteCount 11 n options < UINT32_MOD →
      ((writesSince s (I2C_FastWrite K T s deviceAddress n buffer ack sizeTransferred
          options).chan).map (clockInCount K)).sum
        = (if optionSet options I2C_TRANSFER_OPTIONS_NO_ADDRESS then 0 else 1) + n
      ∧ (readsSince s (I2C_FastWrite K T s deviceAddress n buffer ack sizeTransferred
          options).chan).sum
        = (if optionSet options I2C_TRANSFER_OPTIONS_NO_ADDRESS then 0 else 1) + n)
    ∧ (fastByteCount 14 n options < UINT32_MOD →
      ((writesSince s (I2C_FastRead K T s deviceAddress n buffer ack sizeTransferred
          options).chan).map (clockInCount K)).sum
        = (if optionSet options I2C_TRANSFER_OPTIONS_NO_ADDRESS then 0 else 1) + n
      ∧ (readsSince s (I2C_FastRead K T s deviceAddress n buffer ack sizeTransferred
          options).chan).sum
        = (if optionSet options I2C_TRANSFER_OPTIONS_NO_ADDRESS then 0 else 1) + n) := by
  unfold writesSince readsSince
  rw [fastWrite_trace_full K T s deviceAddress n buffer ack sizeTransferred options hbytes
      hA hW hR,
    fastRead_trace_full K T s deviceAddress n buffer ack sizeTransferred options hbytes
      hA hW hR]
  simp only [writesOf_drop, readsOf_drop]
  constructor
  · intro hfit
    rw [storedUpToIndex_of_lt _ (by rw [fastWriteCmds_length]; exact hfit)]
    refine ⟨?_, (fast_trace_accounts _ options n).2⟩
    rw [(fast_trace_accounts _ options n).1]
    simp [clockInCount_fastWriteCmds K hK]
  · intro hfit
    rw [storedUpToIndex_of_lt _ (by rw [fastReadCmds_length]; exact hfit)]
    refine ⟨?_, (fast_trace_accounts _ options n).2⟩
    rw [(fast_trace_accounts _ options n).1]
    simp [clockInCount_fastReadCmds K hK]

/-- Witness of the amended C39: a fast write and a fast read of three bytes with
`START | STOP` and the address phase: four clock-in commands, four reply bytes asked
for. -/
theorem C39_reply_accounting_witness :
    (((writesSince Chan.fresh (I2C_FastWrite ftdiConsts (scriptedTransport (fun _ => 0))
          Chan.fresh 0x50 3 [0x11, 0x22, 0x33] none 99 0x13).chan).map
          (clockInCount ftdiConsts)).sum = 4
      ∧ (readsSince Chan.fresh (I2C_FastWrite ftdiConsts (scriptedTransport (fun _ => 0))
          Chan.fresh 0x50 3 [0x11, 0x22, 0x33] none 99 0x13).chan).sum = 4)
    ∧ (((writesSince Chan.fresh (I2C_FastRead ftdiConsts (scriptedTransport (fun _ => 0))
          Chan.fresh 0x50 3 [0x11, 0x22, 0x33] none 99 0x13).chan).map
          (clockInCount ftdiConsts)).sum = 4
      ∧ (readsSince Chan.fresh (I2C_FastRead ftdiConsts (scriptedTransport (fun _ => 0))
          Chan.fresh 0x50 3 [0x11, 0x22, 0x33] none 99 0x13).chan).sum = 4) :=
  ⟨(C39_reply_accounting ftdiConsts (scriptedTransport (fun _ => 0)) Chan.fresh 0x50 3
      [0x11, 0x22, 0x33] none 99 0x13 (by decide) (by decide) (scripted_allocations _)
      (scripted_writes _) (scripted_reads _)).1 (by decide),
    (C39_reply_accounting ftdiConsts (scriptedTransport (fun _ => 0)) Chan.fresh 0x50 3
      [0x11, 0x22, 0x33] none 99 0x13 (by decide) (by decide) (scripted_allocations _)
      (scripted_writes _) (scripted_reads _)).2 (by decide)⟩

/-! ## The normal path and the fast path send the same commands -/

theorem deviceWrite_normal_writes (K : MpsseConsts) (T : Transport) (s : Chan)
    (deviceAddress sizeToTransfer : Nat) (buffer : List Nat) (sizeTransferred options : Nat)
    (ha : deviceAddress ≤ 127)
    (hfast : optionSet options I2C_TRANSFER_OPTIONS_FAST_TRANSFER = false)
    (hlen : sizeToTransfer ≤ buffer.length)
    (hW : WritesSucceed T) (hR : ReadsSucceed T)
    (hack : replyByte T s.nReads % 2 = 0)
    (hrun : ∀ j, j < sizeToTransfer → replyByte T (s.nReads + 1 + j) % 2 = 0
      ∨ optionSet options I2C_TRANSFER_OPTIONS_BREAK_ON_NACK = false) :
    writesSince s (I2C_DeviceWrite K T s deviceAddress sizeToTransfer buffer sizeTransferred
        options).chan
      = (if optionSet options I2C_TRANSFER_OPTIONS_START_BIT then [startSequence K] else [])
        ++ [write8Cmd K (addressByte deviceAddress false)]
        ++ (buffer.take sizeToTransfer).map (write8Cmd K)
        ++ (if optionSet options I2C_TRANSFER_OPTIONS_STOP_BIT then [stopSequence K]
            else []) := by
  rw [deviceWrite_normal_runs K T s deviceAddress sizeToTransfer buffer sizeTransferred
    options ha hfast hW hR hack hrun]
  have hw := writesOf_writePhases K buffer sizeToTransfer 0 (by omega)
  simp only [List.drop_zero] at hw
  unfold writesSince
  simp only [unlock_trace, entry_trace, List.append_assoc]
  rw [writesOf_drop]
  simp only [writesOf_append, writesOf_startOps, writesOf_stopOps, writesOf_addressOps,
    writesOf_entry, writesOf_unlock, hw, List.nil_append, List.append_nil, List.append_assoc]

theorem deviceRead_normal_writes (K : MpsseConsts) (T : Transport) (s : Chan)
    (deviceAddress sizeToTransfer : Nat) (buffer : List Nat) (sizeTransferred options : Nat)
    (ha : deviceAddress ≤ 127)
    (hfast : optionSet options I2C_TRANSFER_OPTIONS_FAST_TRANSFER = false)
    (hW : WritesSucceed T) (hR : ReadsSucceed T)
    (hack : replyByte T s.nReads % 2 = 0) :
    writesSince s (I2C_DeviceRead K T s deviceAddress sizeToTransfer buffer sizeTransferred
        options).chan
      = (if optionSet options I2C_TRANSFER_OPTIONS_START_BIT then [startSequence K] else [])
        ++ [write8Cmd K (addressByte deviceAddress true)]
        ++ ((List.range' 0 sizeToTransfer).map (readAckArg sizeToTransfer options)).map
            (read8Cmd K)
        ++ (if optionSet options I2C_TRANSFER_OPTIONS_STOP_BIT then [stopSequence K]
            else []) := by
  rw [deviceRead_normal_runs K T s deviceAddress sizeToTransfer buffer sizeTransferred
    options ha hfast hW hR hack]
  unfold writesSince
  simp only [unlock_trace, entry_trace, List.append_assoc]
  rw [writesOf_drop]
  simp only [writesOf_append, writesOf_startOps, writesOf_stopOps, writesOf_addressOps,
    writesOf_entry, writesOf_unlock, writesOf_readPhases, List.nil_append, List.append_nil,
    List.append_assoc, List.map_map]
  rfl

theorem withoutSendImmediate_map_read8Cmd (K : MpsseConsts) (hK : OpcodesDistinct K)
    (rest : List Nat) :
    ∀ l : List Bool,
      withoutSendImmediate K ((l.map (read8Cmd K)).flatten ++ rest)
        = l.flatMap (fun b => (read8Cmd K b).take 14) ++ withoutSendImmediate K rest := by
  intro l
  induction l with
  | nil => simp
  | cons x l ih =>
    simp only [List.map_cons, List.flatten_cons, List.append_assoc, List.flatMap_cons,
      withoutSendImmediate_read8Cmd K hK, ih]

theorem withoutSendImmediate_normal_write (K : MpsseConsts) (hK : OpcodesDistinct K)
    (S P : Bool) (addr : Nat) (l : List Nat) :
    withoutSendImmediate K
        ((if S then [startSequence K] else []) ++ [write8Cmd K addr] ++ l.map (write8Cmd K)
          ++ (if P then [stopSequence K] else [])).flatten
      = (if S then startSequence K else []) ++ fastWritePhase K addr
        ++ l.flatMap (fastWritePhase K) ++ (if P then stopSequence K else []) := by
  cases S <;> cases P <;>
  simp only [Bool.false_eq_true, if_false, if_true, List.flatten_append, List.flatten_cons,
    List.flatten_nil, List.nil_append, List.append_assoc,
    withoutSendImmediate_startSequence, withoutSendImmediate_write8Cmd K hK,
    withoutSendImmediate_map_write8Cmd K hK, withoutSendImmediate_stopSequence] <;>
  simp only [withoutSendImmediate_nil, List.append_nil]

theorem withoutSendImmediate_normal_read (K : MpsseConsts) (hK : OpcodesDistinct K)
    (S P : Bool) (addr : Nat) (l : List Bool) :
    withoutSendImmediate K
        ((if S then [startSequence K] else []) ++ [write8Cmd K addr] ++ l.map (read8Cmd K)
          ++ (if P then [stopSequence K] else [])).flatten
      = (if S then startSequence K else []) ++ fastWritePhase K addr
        ++ l.flatMap (fun b => (read8Cmd K b).take 14)
        ++ (if P then stopSequence K else []) := by
  cases S <;> cases P <;>
  simp only [Bool.false_eq_true, if_false, if_true, List.flatten_append, List.flatten_cons,
    List.flatten_nil, List.nil_append, List.append_assoc,
    withoutSendImmediate_startSequence, withoutSendImmediate_write8Cmd K hK,
    withoutSendImmediate_map_read8Cmd K hK, withoutSendImmediate_stopSequence] <;>
  simp only [withoutSendImmediate_nil, List.append_nil]

theorem fastWrite_writesSince (K : MpsseConsts) (T : Transport) (s : Chan)
    (deviceAddress n : Nat) (buffer : List Nat) (ack : Option (List Nat))
    (sizeTransferred options : Nat)
    (hbytes : optionSet options I2C_TRANSFER_OPTIONS_FAST_TRANSFER_BYTES = true)
    (hm : T.malloc s.nAllocs (fastWriteSizeTotal n options) = true) :
    writesSince s (I2C_FastWrite K T s deviceAddress n buffer ack sizeTransferred options).chan
      = [storedUpToIndex (fastWriteCmds K deviceAddress n buffer options)] := by
  unfold writesSince
  rw [fastWrite_writes K T s deviceAddress n buffer ack sizeTransferred options hbytes,
    if_pos hm, List.drop_left]

theorem fastRead_writesSince (K : MpsseConsts) (T : Transport) (s : Chan)
    (deviceAddress n : Nat) (buffer : List Nat) (ack : Option (List Nat))
    (sizeTransferred options : Nat)
    (hbytes : optionSet options I2C_TRANSFER_OPTIONS_FAST_TRANSFER_BYTES = true)
    (hm : T.malloc s.nAllocs (fastReadSizeTotal n options) = true) :
    writesSince s (I2C_FastRead K T s deviceAddress n buffer ack sizeTransferred options).chan
      = [storedUpToIndex (fastReadCmds K deviceAddress n options)] := by
  unfold writesSince
  rw [fastRead_writes K T s deviceAddress n buffer ack sizeTransferred options hbytes,
    if_pos hm, List.drop_left]

/-- For an address in [0,127], a data buffer and START/STOP bits, the byte sequences
the normal path of `I2C_DeviceWrite` hands to the transport on a run in which every
byte is acknowledged, concatenated and with every send-immediate command removed, are
the bytes the serializer of `I2C_FastWrite` stores for the same address, data and
START/STOP bits with NO_ADDRESS clear, in the order of the stores. -/
theorem normal_write_stripped_eq_stores (K : MpsseConsts) (T : Transport) (s : Chan)
    (deviceAddress n : Nat) (buffer : List Nat) (sizeTransferred options optionsf : Nat)
    (hK : OpcodesDistinct K) (ha : deviceAddress ≤ 127) (hlen : n ≤ buffer.length)
    (hfast : optionSet options I2C_TRANSFER_OPTIONS_FAST_TRANSFER = false)
    (hna : optionSet optionsf I2C_TRANSFER_OPTIONS_NO_ADDRESS = false)
    (hS : optionSet optionsf I2C_TRANSFER_OPTIONS_START_BIT
      = optionSet options I2C_TRANSFER_OPTIONS_START_BIT)
    (hP : optionSet optionsf I2C_TRANSFER_OPTIONS_STOP_BIT
      = optionSet options I2C_TRANSFER_OPTIONS_STOP_BIT)
    (hW : WritesSucceed T) (hR : ReadsSucceed T)
    (hack : ∀ k, replyByte T k % 2 = 0) :
    withoutSendImmediate K
        (writesSince s (I2C_DeviceWrite K T s deviceAddress n buffer sizeTransferred
          options).chan).flatten
      = fastWriteCmds K deviceAddress n buffer optionsf := by
  rw [deviceWrite_normal_writes K T s deviceAddress n buffer sizeTransferred options ha hfast
      hlen hW hR (hack _) (fun j _ => Or.inl (hack _)),
    withoutSendImmediate_normal_write K hK]
  unfold fastWriteCmds
  rw [hS, hP, hna, fastWriteData_eq_flatMap K buffer n 0 (by omega)]
  simp

/-- Below `2^32` command bytes the one buffer `I2C_FastWrite` hands to the transport is
the concatenation of the writes of the all-ACK normal run with the send-immediate
commands removed. -/
theorem slow_fast_write_below_wrap (K : MpsseConsts) (T Tf : Transport) (s sf : Chan)
    (deviceAddress n : Nat) (buffer : List Nat) (ackf : Option (List Nat))
    (sizeTransferred sizeTransferredf options optionsf : Nat)
    (hK : OpcodesDistinct K) (ha : deviceAddress ≤ 127) (hlen : n ≤ buffer.length)
    (hfast : optionSet options I2C_TRANSFER_OPTIONS_FAST_TRANSFER = false)
    (hbytes : optionSet optionsf I2C_TRANSFER_OPTIONS_FAST_TRANSFER_BYTES = true)
    (hna : optionSet optionsf I2C_TRANSFER_OPTIONS_NO_ADDRESS = false)
    (hS : optionSet optionsf I2C_TRANSFER_OPTIONS_START_BIT
      = optionSet options I2C_TRANSFER_OPTIONS_START_BIT)
    (hP : optionSet optionsf I2C_TRANSFER_OPTIONS_STOP_BIT
      = optionSet options I2C_TRANSFER_OPTIONS_STOP_BIT)
    (hW : WritesSucceed T) (hR : ReadsSucceed T)
    (hack : ∀ k, replyByte T k % 2 = 0)
    (hm : Tf.malloc sf.nAllocs (fastWriteSizeTotal n optionsf) = true)
    (hfit : fastByteCount 11 n optionsf < UINT32_MOD) :
    writesSince sf (I2C_FastWrite K Tf sf deviceAddress n buffer ackf sizeTransferredf
        optionsf).chan
      = [withoutSendImmediate K
          (writesSince s (I2C_DeviceWrite K T s deviceAddress n buffer sizeTransferred
            options).chan).flatten] := by
  rw [fastWrite_writesSince K Tf sf deviceAddress n buffer ackf sizeTransferredf optionsf
      hbytes hm,
    storedUpToIndex_of_lt _ (by rw [fastWriteCmds_length]; exact hfit),
    normal_write_stripped_eq_stores K T s deviceAddress n buffer sizeTransferred options
      optionsf hK ha hlen hfast hna hS hP hW hR hack]

/-- Three bytes with `START | STOP` on the normal path and with
`START | STOP | FAST_TRANSFER_BYTES` on the fast path; data byte 1 has the value of the
send-immediate opcode. -/
theorem slow_fast_write_below_wrap_example :
    writesSince Chan.fresh (I2C_FastWrite ftdiConsts (scriptedTransport (fun _ => 0))
        Chan.fresh 0x50 3 [0x11, 0x87, 0x33] none 99 0x13).chan
      = [withoutSendImmediate ftdiConsts
          (writesSince Chan.fresh (I2C_DeviceWrite ftdiConsts (scriptedTransport (fun _ => 0))
            Chan.fresh 0x50 3 [0x11, 0x87, 0x33] 99 0x03).chan).flatten] :=
  slow_fast_write_below_wrap ftdiConsts (scriptedTransport (fun _ => 0))
    (scriptedTransport (fun _ => 0)) Chan.fresh Chan.fresh 0x50 3 [0x11, 0x87, 0x33] none
    99 99 0x03 0x13 (by decide) (by decide) (by decide) (by decide) (by decide) (by decide)
    (by decide) (by decide) (scripted_writes _) (scripted_reads _) (fun _ => rfl) rfl
    (by decide)

theorem fastReadPhase_eq_take (K : MpsseConsts) (n j : Nat) :
    fastReadPhase K n j
      = (read8Cmd K (decide (j < (n + UINT32_MOD - 1) % UINT32_MOD))).take 14 := by
  unfold fastReadPhase read8Cmd
  by_cases h : j < (n + UINT32_MOD - 1) % UINT32_MOD <;> simp [h]

theorem read_phases_eq_fastReadData (K : MpsseConsts) (n options : Nat) :
    ∀ (r i : Nat),
      (∀ j, i ≤ j → j < i + r →
        readAckArg n options j = decide (j < (n + UINT32_MOD - 1) % UINT32_MOD)) →
      ((List.range' i r).map (readAckArg n options)).flatMap
          (fun b => (read8Cmd K b).take 14)
        = fastReadData K n r i := by
  intro r
  induction r with
  | zero => intro i _; rfl
  | succ r ih =>
    intro i h
    rw [List.range'_succ, List.map_cons, List.flatMap_cons, fastReadData,
      ih (i + 1) (fun j h1 h2 => h j (by omega) (by omega)), h i (le_refl i) (by omega),
      ← fastReadPhase_eq_take]

theorem readAckArg_nack_last (n options j : Nat)
    (hN : optionSet options I2C_TRANSFER_OPTIONS_NACK_LAST_BYTE = true) :
    readAckArg n options j = decide (j < (n + UINT32_MOD - 1) % UINT32_MOD) := by
  unfold readAckArg
  by_cases h : j < (n + UINT32_MOD - 1) % UINT32_MOD <;> simp [h, hN]

theorem readAckArg_below (n options j : Nat) (h : j < (n + UINT32_MOD - 1) % UINT32_MOD) :
    readAckArg n options j = decide (j < (n + UINT32_MOD - 1) % UINT32_MOD) := by
  unfold readAckArg
  simp [h]

theorem readAckArg_last_ack (n options : Nat) (h1 : 1 ≤ n) (h2 : n < UINT32_MOD)
    (hN : optionSet options I2C_TRANSFER_OPTIONS_NACK_LAST_BYTE = false) :
    readAckArg n options (n - 1) = true := by
  rw [readAckArg_eq n options (n - 1) h1 h2, hN]
  simp

theorem uint32_pred (n : Nat) (h1 : 1 ≤ n) (h2 : n < UINT32_MOD) :
    (n + UINT32_MOD - 1) % UINT32_MOD = n - 1 := by
  unfold UINT32_MOD at *
  omega

/-- For an address in [0,127], a length and START/STOP bits, the byte sequences the
normal path of `I2C_DeviceRead` hands to the transport on a run whose address is
acknowledged, with NACK_LAST_BYTE set, concatenated and with every send-immediate
command removed, are the bytes the serializer of `I2C_FastRead` stores for the same
arguments with NO_ADDRESS clear, in the order of the stores. -/
theorem normal_read_stripped_eq_stores (K : MpsseConsts) (T : Transport) (s : Chan)
    (deviceAddress n : Nat) (buffer : List Nat) (sizeTransferred options optionsf : Nat)
    (hK : OpcodesDistinct K) (ha : deviceAddress ≤ 127)
    (hfast : optionSet options I2C_TRANSFER_OPTIONS_FAST_TRANSFER = false)
    (hna : optionSet optionsf I2C_TRANSFER_OPTIONS_NO_ADDRESS = false)
    (hS : optionSet optionsf I2C_TRANSFER_OPTIONS_START_BIT
      = optionSet options I2C_TRANSFER_OPTIONS_START_BIT)
    (hP : optionSet optionsf I2C_TRANSFER_OPTIONS_STOP_BIT
      = optionSet options I2C_TRANSFER_OPTIONS_STOP_BIT)
    (hW : WritesSucceed T) (hR : ReadsSucceed T)
    (hack : replyByte T s.nReads % 2 = 0)
    (hN : optionSet options I2C_TRANSFER_OPTIONS_NACK_LAST_BYTE = true) :
    withoutSendImmediate K
        (writesSince s (I2C_DeviceRead K T s deviceAddress n buffer sizeTransferred
          options).chan).flatten
      = fastReadCmds K deviceAddress n optionsf := by
  rw [deviceRead_normal_writes K T s deviceAddress n buffer sizeTransferred options ha hfast
      hW hR hack,
    withoutSendImmediate_normal_read K hK]
  unfold fastReadCmds
  rw [hS, hP, hna, read_phases_eq_fastReadData K n options n 0
    (fun j _ _ => readAckArg_nack_last n options j hN)]
  simp

/-- The same without NACK_LAST_BYTE, for `1 ≤ n < 2^32`: the two sequences are equal
except for the six bytes of the acknowledge phase of the last data byte (set-pin-state
and clock-out of one bit), which drive ACK on the normal path and NACK in the stores of
the fast path. -/
theorem normal_read_stripped_last_ack (K : MpsseConsts) (T : Transport) (s : Chan)
    (deviceAddress n : Nat) (buffer : List Nat) (sizeTransferred options optionsf : Nat)
    (hK : OpcodesDistinct K) (ha : deviceAddress ≤ 127)
    (hfast : optionSet options I2C_TRANSFER_OPTIONS_FAST_TRANSFER = false)
    (hna : optionSet optionsf I2C_TRANSFER_OPTIONS_NO_ADDRESS = false)
    (hS : optionSet optionsf I2C_TRANSFER_OPTIONS_START_BIT
      = optionSet options I2C_TRANSFER_OPTIONS_START_BIT)
    (hP : optionSet optionsf I2C_TRANSFER_OPTIONS_STOP_BIT
      = optionSet options I2C_TRANSFER_OPTIONS_STOP_BIT)
    (hW : WritesSucceed T) (hR : ReadsSucceed T)
    (hack : replyByte T s.nReads % 2 = 0)
    (hn1 : 1 ≤ n) (hn2 : n < UINT32_MOD)
    (hN : optionSet options I2C_TRANSFER_OPTIONS_NACK_LAST_BYTE = false) :
    ∃ pre suf,
      pre.length
        = (if optionSet options I2C_TRANSFER_OPTIONS_START_BIT then 93 else 0) + 11
          + 14 * (n - 1) + 5
      ∧ withoutSendImmediate K
          (writesSince s (I2C_DeviceRead K T s deviceAddress n buffer sizeTransferred
            options).chan).flatten
        = pre
          ++ [ K.MPSSE_CMD_SET_DATA_BITS_LOWBYTE, K.VALUE_SCLLOW_SDALOW,
               K.DIRECTION_SCLOUT_SDAOUT,
               K.MPSSE_CMD_DATA_OUT_BITS_NEG_EDGE, K.DATA_SIZE_1BIT, SEND_ACK ]
          ++ suf
      ∧ fastReadCmds K deviceAddress n optionsf
        = pre
          ++ [ K.MPSSE_CMD_SET_DATA_BITS_LOWBYTE, K.VALUE_SCLLOW_SDALOW,
               K.DIRECTION_SCLOUT_SDAIN,
               K.MPSSE_CMD_DATA_OUT_BITS_NEG_EDGE, K.DATA_SIZE_1BIT, SEND_NACK ]
          ++ suf := by
  rw [deviceRead_normal_writes K T s deviceAddress n buffer sizeTransferred options ha hfast
      hW hR hack,
    withoutSendImmediate_normal_read K hK]
  unfold fastReadCmds
  rw [hS, hP, hna]
  obtain ⟨m, rfl⟩ : ∃ m, n = m + 1 := ⟨n - 1, by omega⟩
  have hpred := uint32_pred (m + 1) hn1 hn2
  have hlast := readAckArg_last_ack (m + 1) options hn1 hn2 hN
  simp only [Nat.add_sub_cancel] at hpred hlast
  have hsplit := fastReadData_split K (m + 1) m 1 0
  have hphase : fastReadPhase K (m + 1) m
      = [ K.MPSSE_CMD_SET_DATA_BITS_LOWBYTE, K.VALUE_SCLLOW_SDALOW,
          K.DIRECTION_SCLOUT_SDAIN,
          K.MPSSE_CMD_DATA_IN_BITS_POS_EDGE, K.DATA_SIZE_8BITS ]
        ++ [ K.MPSSE_CMD_SET_DATA_BITS_LOWBYTE, K.VALUE_SCLLOW_SDALOW,
             K.DIRECTION_SCLOUT_SDAIN,
             K.MPSSE_CMD_DATA_OUT_BITS_NEG_EDGE, K.DATA_SIZE_1BIT, SEND_NACK ]
        ++ [ K.MPSSE_CMD_SET_DATA_BITS_LOWBYTE, K.VALUE_SCLLOW_SDALOW,
             K.DIRECTION_SCLOUT_SDAIN ] := by
    unfold fastReadPhase
    rw [hpred, if_neg (lt_irrefl m)]
  have hslow : ((List.range' 0 (m + 1)).map (readAckArg (m + 1) options)).flatMap
        (fun b => (read8Cmd K b).take 14)
      = fastReadData K (m + 1) m 0
        ++ ([ K.MPSSE_CMD_SET_DATA_BITS_LOWBYTE, K.VALUE_SCLLOW_SDALOW,
              K.DIRECTION_SCLOUT_SDAIN,
              K.MPSSE_CMD_DATA_IN_BITS_POS_EDGE, K.DATA_SIZE_8BITS ]
          ++ [ K.MPSSE_CMD_SET_DATA_BITS_LOWBYTE, K.VALUE_SCLLOW_SDALOW,
               K.DIRECTION_SCLOUT_SDAOUT,
               K.MPSSE_CMD_DATA_OUT_BITS_NEG_EDGE, K.DATA_SIZE_1BIT, SEND_ACK ]
          ++ [ K.MPSSE_CMD_SET_DATA_BITS_LOWBYTE, K.VALUE_SCLLOW_SDALOW,
               K.DIRECTION_SCLOUT_SDAIN ]) := by
    rw [List.range'_concat, List.map_append, List.flatMap_append,
      read_phases_eq_fastReadData K (m + 1) options m 0
        (fun j _ hj => readAckArg_below (m + 1) options j (by rw [hpred]; omega))]
    simp [hlast, read8Cmd]
  refine ⟨(if optionSet options I2C_TRANSFER_OPTIONS_START_BIT then startSequence K else [])
      ++ fastWritePhase K (addressByte deviceAddress true)
      ++ fastReadData K (m + 1) m 0
      ++ [ K.MPSSE_CMD_SET_DATA_BITS_LOWBYTE, K.VALUE_SCLLOW_SDALOW,
           K.DIRECTION_SCLOUT_SDAIN,
           K.MPSSE_CMD_DATA_IN_BITS_POS_EDGE, K.DATA_SIZE_8BITS ],
    [ K.MPSSE_CMD_SET_DATA_BITS_LOWBYTE, K.VALUE_SCLLOW_SDALOW, K.DIRECTION_SCLOUT_SDAIN ]
      ++ (if optionSet options I2C_TRANSFER_OPTIONS_STOP_BIT then stopSequence K else []),
    ?_, ?_, ?_⟩
  · simp only [List.length_append, fastReadData_length, fastWritePhase_length]
    cases optionSet options I2C_TRANSFER_OPTIONS_START_BIT <;>
      simp [startSequence_length]
  · rw [hslow]
    simp only [List.append_assoc]
  · rw [hsplit]
    simp only [fastReadData, zero_add, hphase, List.append_nil, List.append_assoc,
      Bool.not_false, if_true]

/-- Below `2^32` command bytes and with NACK_LAST_BYTE set, the one buffer
`I2C_FastRead` hands to the transport is the concatenation of the writes of the
address-ACKed normal run with the send-immediate commands removed. -/
theorem slow_fast_read_below_wrap (K : MpsseConsts) (T Tf : Transport) (s sf : Chan)
    (deviceAddress n : Nat) (buffer bufferf : List Nat) (ackf : Option (List Nat))
    (sizeTransferred sizeTransferredf options optionsf : Nat)
    (hK : OpcodesDistinct K) (ha : deviceAddress ≤ 127)
    (hfast : optionSet options I2C_TRANSFER_OPTIONS_FAST_TRANSFER = false)
    (hna : optionSet optionsf I2C_TRANSFER_OPTIONS_NO_ADDRESS = false)
    (hS : optionSet optionsf I2C_TRANSFER_OPTIONS_START_BIT
      = optionSet options I2C_TRANSFER_OPTIONS_START_BIT)
    (hP : optionSet optionsf I2C_TRANSFER_OPTIONS_STOP_BIT
      = optionSet options I2C_TRANSFER_OPTIONS_STOP_BIT)
    (hW : WritesSucceed T) (hR : ReadsSucceed T)
    (hack : replyByte T s.nReads % 2 = 0)
    (hN : optionSet options I2C_TRANSFER_OPTIONS_NACK_LAST_BYTE = true)
    (hbytes : optionSet optionsf I2C_TRANSFER_OPTIONS_FAST_TRANSFER_BYTES = true)
    (hm : Tf.malloc sf.nAllocs (fastReadSizeTotal n optionsf) = true)
    (hfit : fastByteCount 14 n optionsf < UINT32_MOD) :
    writesSince sf (I2C_FastRead K Tf sf deviceAddress n bufferf ackf sizeTransferredf
        optionsf).chan
      = [withoutSendImmediate K
          (writesSince s (I2C_DeviceRead K T s deviceAddress n buffer sizeTransferred
            options).chan).flatten] := by
  rw [fastRead_writesSince K Tf sf deviceAddress n bufferf ackf sizeTransferredf optionsf
      hbytes hm,
    storedUpToIndex_of_lt _ (by rw [fastReadCmds_length]; exact hfit),
    normal_read_stripped_eq_stores K T s deviceAddress n buffer sizeTransferred options
      optionsf hK ha hfast hna hS hP hW hR hack hN]

/-- Three bytes with `START | STOP | NACK_LAST_BYTE` on the normal path and with
`START | STOP | FAST_TRANSFER_BYTES` on the fast path. -/
theorem slow_fast_read_below_wrap_example :
    writesSince Chan.fresh (I2C_FastRead ftdiConsts (scriptedTransport (fun _ => 0))
        Chan.fresh 0x50 3 [0, 0, 0] none 99 0x13).chan
      = [withoutSendImmediate ftdiConsts
          (writesSince Chan.fresh (I2C_DeviceRead ftdiConsts (scriptedTransport (fun _ => 0))
            Chan.fresh 0x50 3 [0, 0, 0] 99 0x0B).chan).flatten] :=
  slow_fast_read_below_wrap ftdiConsts (scriptedTransport (fun _ => 0))
    (scriptedTransport (fun _ => 0)) Chan.fresh Chan.fresh 0x50 3 [0, 0, 0] [0, 0, 0] none
    99 99 0x0B 0x13 (by decide) (by decide) (by decide) (by decide) (by decide) (by decide)
    (scripted_writes _) (scripted_reads _) rfl (by decide) (by decide) rfl (by decide)

/-! ## Lengths whose command bytes pass `2^32` -/

/-- C11, evaluated at a length whose byte count exceeds `2^32`: for 390451573 data bytes
with `FAST_TRANSFER_BYTES | NO_ADDRESS` the serializer of `I2C_FastWrite` makes
4294967303 stores, while the allocation size computed in `uint32` arithmetic is 7; the
byte count of the transport write, the `uint32` index, has wrapped to 7 as well. -/
theorem C11_allocation_below_stores :
    fastWriteSizeTotal 390451573 0x50 = 7
    ∧ (fastWriteCmds ftdiConsts 0x50 390451573 (List.replicate 390451573 0x11) 0x50).length
        = 4294967303
    ∧ (writesSince Chan.fresh (I2C_FastWrite ftdiConsts (scriptedTransport (fun _ => 0))
          Chan.fresh 0x50 390451573 (List.replicate 390451573 0x11) none 99 0x50).chan).map
        List.length = [7] := by
  rw [fastWrite_writesSince ftdiConsts (scriptedTransport (fun _ => 0)) Chan.fresh 0x50
      390451573 (List.replicate 390451573 0x11) none 99 0x50 (by decide) rfl]
  simp only [List.map_cons, List.map_nil, storedUpToIndex_length, fastWriteCmds_length]
  decide

/-- C12, evaluated at a length whose byte count exceeds `2^32`: for 306783379 data bytes
with `FAST_TRANSFER_BYTES | NO_ADDRESS` the serializer of `I2C_FastRead` makes
4294967306 stores, while the allocation size computed in `uint32` arithmetic is 10; the
byte count of the transport write, the `uint32` index, has wrapped to 10 as well. -/
theorem C12_allocation_below_stores :
    fastReadSizeTotal 306783379 0x50 = 10
    ∧ (fastReadCmds ftdiConsts 0x50 306783379 0x50).length = 4294967306
    ∧ (writesSince Chan.fresh (I2C_FastRead ftdiConsts (scriptedTransport (fun _ => 0))
          Chan.fresh 0x50 306783379 (List.replicate 306783379 0) none 99 0x50).chan).map
        List.length = [10] := by
  rw [fastRead_writesSince ftdiConsts (scriptedTransport (fun _ => 0)) Chan.fresh 0x50
      306783379 (List.replicate 306783379 0) none 99 0x50 (by decide) rfl]
  simp only [List.map_cons, List.map_nil, storedUpToIndex_length, fastReadCmds_length]
  decide

theorem fastWriteData_flatMap_length (K : MpsseConsts) (buffer : List Nat) :
    (buffer.flatMap (fastWritePhase K)).length = 11 * buffer.length := by
  have h := fastWriteData_eq_flatMap K buffer buffer.length 0 (by omega)
  rw [List.drop_zero, List.take_length] at h
  rw [← h, fastWriteData_length]

/-- C14, evaluated at a length whose byte count exceeds `2^32`: for 390451573 data bytes
with `FAST_TRANSFER_BYTES | NO_ADDRESS` the byte sequence of the claim, the 11-byte
phases of all the data bytes, has 4294967303 bytes, while the one transport write of
`I2C_FastWrite` carries 7 bytes. -/
theorem C14_write_carries_wrapped_count :
    ((List.replicate 390451573 0x11).flatMap (fastWritePhase ftdiConsts)).length
        = 4294967303
    ∧ (writesOf (I2C_FastWrite ftdiConsts (scriptedTransport (fun _ => 0)) Chan.fresh 0x50
          390451573 (List.replicate 390451573 0x11) none 99 0x50).chan.trace).map
        List.length = [7] := by
  rw [fastWriteData_flatMap_length, List.length_replicate,
    fastWrite_writes ftdiConsts (scriptedTransport (fun _ => 0)) Chan.fresh 0x50
      390451573 (List.replicate 390451573 0x11) none 99 0x50 (by decide)]
  simp only [scriptedTransport, if_true, Chan.fresh, writesOf, List.filterMap_nil,
    List.nil_append, List.map_cons, List.map_nil, storedUpToIndex_length,
    fastWriteCmds_length]
  decide

/-- C33, evaluated at a length whose byte count exceeds `2^32`: for 390451572 data bytes
without START and STOP, every byte acknowledged, the writes of the normal path of
`I2C_DeviceWrite`, concatenated and with the send-immediate commands removed, are
4294967303 bytes, while the one buffer `I2C_FastWrite` hands to the transport for the
same address and data has 7 bytes. -/
theorem C33_fast_buffer_wraps :
    (withoutSendImmediate ftdiConsts
        (writesSince Chan.fresh (I2C_DeviceWrite ftdiConsts (scriptedTransport (fun _ => 0))
          Chan.fresh 0x50 390451572 (List.replicate 390451572 0x11) 99 0x00).chan).flatten).length
      = 4294967303
    ∧ (writesSince Chan.fresh (I2C_FastWrite ftdiConsts (scriptedTransport (fun _ => 0))
          Chan.fresh 0x50 390451572 (List.replicate 390451572 0x11) none 99 0x10).chan).map
        List.length = [7] := by
  rw [normal_write_stripped_eq_stores ftdiConsts (scriptedTransport (fun _ => 0)) Chan.fresh
      0x50 390451572 (List.replicate 390451572 0x11) 99 0x00 0x10 (by decide) (by decide)
      (le_of_eq (List.length_replicate _ _).symm) (by decide) (by decide) (by decide)
      (by decide) (scripted_writes _) (scripted_reads _) (fun _ => rfl),
    fastWrite_writesSince ftdiConsts (scriptedTransport (fun _ => 0)) Chan.fresh 0x50
      390451572 (List.replicate 390451572 0x11) none 99 0x10 (by decide) rfl]
  simp only [List.map_cons, List.map_nil, storedUpToIndex_length, fastWriteCmds_length]
  decide

/-- C34, evaluated at a length whose byte count exceeds `2^32`: for 306783379 data bytes
without START and STOP, the address acknowledged and NACK_LAST_BYTE set, the writes of
the normal path of `I2C_DeviceRead`, concatenated and with the send-immediate commands
removed, are 4294967317 bytes, while the one buffer `I2C_FastRead` hands to the
transport for the same arguments has 21 bytes. -/
theorem C34_fast_buffer_wraps :
    (withoutSendImmediate ftdiConsts
        (writesSince Chan.fresh (I2C_DeviceRead ftdiConsts (scriptedTransport (fun _ => 0))
          Chan.fresh 0x50 306783379 (List.replicate 306783379 0) 99 0x08).chan).flatten).length
      = 4294967317
    ∧ (writesSince Chan.fresh (I2C_FastRead ftdiConsts (scriptedTransport (fun _ => 0))
          Chan.fresh 0x50 306783379 (List.replicate 306783379 0) none 99 0x10).chan).map
        List.length = [21] := by
  rw [normal_read_stripped_eq_stores ftdiConsts (scriptedTransport (fun _ => 0)) Chan.fresh
      0x50 306783379 (List.replicate 306783379 0) 99 0x08 0x10 (by decide) (by decide)
      (by decide) (by decide) (by decide) (by decide) (scripted_writes _) (scripted_reads _)
      rfl (by decide),
    fastRead_writesSince ftdiConsts (scriptedTransport (fun _ => 0)) Chan.fresh 0x50
      306783379 (List.replicate 306783379 0) none 99 0x10 (by decide) rfl]
  simp only [List.map_cons, List.map_nil, storedUpToIndex_length, fastReadCmds_length]
  decide

end I2C
